import Mathlib

/-!
# CentipedeMotion.cpp : a shallow embedding

The game of `src/code/CentipedeMotion.cpp` (centipedes, mushrooms, lasers, a spider and a
spaceship) as pure Lean functions.

* C++ `float` coordinates are elements of an arbitrary linearly ordered field `K`
  (exact arithmetic; `ℚ` for evaluation, `ℝ` when a true square root is needed).
  `std::sqrt` is passed as the parameter `sqrt`.
* `std::vector` and `std::list` are `List`; the element a method is called on is passed and
  returned explicitly.
* Reading `segments[0]` of a creature without segments and `pop_back` on an empty vector are
  undefined behaviour in C++; the embedding reports them as a `Fault`.
* `sf::Sprite` is reduced to what the game uses: the texture, the position and the size of
  the texture rectangle (the sprite never has a scale, rotation or origin), so that
  `getGlobalBounds` is the rectangle at `position` of that size.
* `sf::Clock` is the time at which it was last restarted; every tick reads the wall clock once
  (`Input.now`), so `getElapsedTime` is `now - start`.
-/

namespace CentipedeMotion

/-! ## Global constants -/

def SCREEN_WIDTH : Nat := 1036
def SCREEN_HEIGHT : Nat := 569
/-- Vertical displacement when moving down or up. -/
def Y_DISPLACEMENT : Nat := 25
def TOP_BUFFER : Nat := 50
def BOTTOM_BUFFER : Nat := 100

section Model

variable {K : Type} [LinearOrderedField K]

def SHIP_SPEED : K := 300
def LASER_SPEED : K := 600
def SHOT_INTERVAL : K := 6 / 10
def CENTIPEDE_SPEED : K := 450
def SPIDER_SPEED : K := 200

/-! ## SFML value types -/

/-- The type `sf::Vector2f`. -/
structure Vector2 (K : Type) where
  x : K
  y : K
deriving DecidableEq, Repr

namespace Vector2

def add (a b : Vector2 K) : Vector2 K := ⟨a.x + b.x, a.y + b.y⟩
def sub (a b : Vector2 K) : Vector2 K := ⟨a.x - b.x, a.y - b.y⟩
def neg (a : Vector2 K) : Vector2 K := ⟨-a.x, -a.y⟩
/-- The product `v * s` of a vector and a scalar. -/
def scale (a : Vector2 K) (s : K) : Vector2 K := ⟨a.x * s, a.y * s⟩

end Vector2

/-- The type `sf::FloatRect`. -/
structure FloatRect (K : Type) where
  left : K
  top : K
  width : K
  height : K
deriving DecidableEq, Repr

/-- The test `sf::Rect::intersects`: the intersection of the two rectangles has a positive area. -/
def FloatRect.intersects (r1 r2 : FloatRect K) : Bool :=
  let r1MinX := min r1.left (r1.left + r1.width)
  let r1MaxX := max r1.left (r1.left + r1.width)
  let r1MinY := min r1.top (r1.top + r1.height)
  let r1MaxY := max r1.top (r1.top + r1.height)
  let r2MinX := min r2.left (r2.left + r2.width)
  let r2MaxX := max r2.left (r2.left + r2.width)
  let r2MinY := min r2.top (r2.top + r2.height)
  let r2MaxY := max r2.top (r2.top + r2.height)
  let interLeft := max r1MinX r2MinX
  let interTop := max r1MinY r2MinY
  let interRight := min r1MaxX r2MaxX
  let interBottom := min r1MaxY r2MaxY
  decide (interLeft < interRight) && decide (interTop < interBottom)

/-- An `sf::Texture`: an image file that was loaded; `ident` tells two textures apart. -/
structure Texture where
  ident : Nat
  width : Nat
  height : Nat
deriving DecidableEq, Repr

/-- An `sf::Sprite`. `width` and `height` are the size of the texture rectangle, which is set from
the first texture the sprite gets and left alone by a later `setTexture`. -/
structure Sprite (K : Type) where
  texture : Texture
  position : Vector2 K
  width : K
  height : K
deriving DecidableEq, Repr

namespace Sprite

/-- `sf::Sprite s(texture); s.setPosition(position);` -/
def create (texture : Texture) (position : Vector2 K) : Sprite K :=
  { texture := texture, position := position, width := texture.width, height := texture.height }

def setTexture (s : Sprite K) (texture : Texture) : Sprite K := { s with texture := texture }
def setPosition (s : Sprite K) (p : Vector2 K) : Sprite K := { s with position := p }
def getPosition (s : Sprite K) : Vector2 K := s.position
def move (s : Sprite K) (offset : Vector2 K) : Sprite K :=
  { s with position := s.position.add offset }
def getGlobalBounds (s : Sprite K) : FloatRect K :=
  ⟨s.position.x, s.position.y, s.width, s.height⟩

end Sprite

/-! ## Geometry helpers -/

/-- Function to calculate the distance between two points. -/
def distance (sqrt : K → K) (a b : Vector2 K) : K :=
  sqrt ((b.x - a.x) * (b.x - a.x) + (b.y - a.y) * (b.y - a.y))

/-- Function to normalize a vector. -/
def normalize (sqrt : K → K) (v : Vector2 K) : Vector2 K :=
  let mag := sqrt (v.x * v.x + v.y * v.y)
  if mag = 0 then ⟨0, 0⟩ else ⟨v.x / mag, v.y / mag⟩

/-! ## Mushroom -/

structure Mushroom (K : Type) where
  sprite : Sprite K
  position : Vector2 K
  isSmall : Bool
deriving DecidableEq, Repr

/-- The constructor `Mushroom(texture, x, y, small = false)`. -/
def Mushroom.create (texture : Texture) (x y : K) (small : Bool) : Mushroom K :=
  { sprite := Sprite.create texture ⟨x, y⟩, position := ⟨x, y⟩, isSmall := small }

/-! ## Undefined behaviour -/

/-- What the C++ program does that has no defined meaning. -/
inductive Fault where
  /-- `segments[0]` was read on a creature without segments. -/
  | emptyCreature
  /-- `livesSprites.pop_back()` was called on an empty vector. -/
  | noLifeIcon
deriving DecidableEq, Repr

/-! ## ECE_Centipede -/

structure ECE_Centipede (K : Type) where
  segments : List (Sprite K)
  headTexture : Texture
  bodyTexture : Texture
  /-- Distance each segment tries to maintain from the one in front. -/
  followDistance : K
  /-- Current direction of movement. -/
  direction : Vector2 K
  /-- True if moving down, false if moving up. -/
  moveDirectionDown : Bool
  leftBound : K
  rightBound : K
  lowerBound : K
deriving DecidableEq, Repr

namespace ECE_Centipede

/-- The constructor: the head at `startPosition` and `numSegments - 1` body segments below it. -/
def create (headTexture bodyTexture : Texture) (numSegments : Nat)
    (startPosition : Vector2 K) : ECE_Centipede K :=
  { segments :=
      Sprite.create headTexture startPosition ::
        (List.range (numSegments - 1)).map fun j =>
          Sprite.create bodyTexture ⟨startPosition.x, startPosition.y + ((j + 1 : Nat) : K) * 30⟩
    headTexture := headTexture
    bodyTexture := bodyTexture
    followDistance := 30
    direction := ⟨1, 0⟩
    moveDirectionDown := true
    leftBound := 0
    rightBound := SCREEN_WIDTH
    lowerBound := SCREEN_HEIGHT }

/-- Moves the head vertically, either up or down, based on the current direction. -/
def moveVertically (c : ECE_Centipede K) (headPosition : Vector2 K) :
    Except Fault (ECE_Centipede K) :=
  match c.segments with
  | [] => .error .emptyCreature
  | head :: rest =>
    let head1 :=
      if c.moveDirectionDown then
        head.setPosition ⟨headPosition.x, headPosition.y + (Y_DISPLACEMENT : K)⟩
      else
        head.setPosition ⟨headPosition.x, headPosition.y - (Y_DISPLACEMENT : K)⟩
    let c1 := { c with segments := head1 :: rest }
    let c2 := if headPosition.y ≤ 0 then { c1 with moveDirectionDown := false } else c1
    let c3 := if headPosition.y + 27 ≥ c2.lowerBound then { c2 with moveDirectionDown := true } else c2
    .ok c3

/-- Checks if the centipede head has reached the boundaries of the screen. -/
def checkBounds (c : ECE_Centipede K) : Except Fault (ECE_Centipede K) :=
  match c.segments with
  | [] => .error .emptyCreature
  | head :: _ =>
    let headPosition := head.getPosition
    let turned :=
      if headPosition.x ≤ c.leftBound then
        moveVertically { c with direction := ⟨1, 0⟩ } headPosition
      else if headPosition.x + 27 ≥ c.rightBound then
        moveVertically { c with direction := ⟨-1, 0⟩ } headPosition
      else
        .ok c
    match turned with
    | .error e => .error e
    | .ok c1 =>
      if headPosition.y ≤ 0 then
        .ok { c1 with moveDirectionDown := true }
      else if headPosition.y + (Y_DISPLACEMENT : K) + 27 > c1.lowerBound then
        .ok { c1 with moveDirectionDown := false }
      else
        .ok c1

/-- The loop of `update` over the segments `i ≥ 1`: `prev` is segment `i - 1` as already
updated, the list holds the segments from `i` on. -/
def follow (sqrt : K → K) (followDistance deltaTime : K) (prev : Sprite K) :
    List (Sprite K) → List (Sprite K)
  | [] => []
  | seg :: rest =>
    let dir := prev.getPosition.sub seg.getPosition
    let dist := distance sqrt prev.getPosition seg.getPosition
    let seg1 :=
      if dist > followDistance then
        seg.move ((normalize sqrt dir).scale (CENTIPEDE_SPEED * deltaTime))
      else seg
    seg1 :: follow sqrt followDistance deltaTime seg1 rest

/-- Called every frame to move the centipede across the screen. -/
def update (sqrt : K → K) (c : ECE_Centipede K) (deltaTime : K) :
    Except Fault (ECE_Centipede K) :=
  match c.segments with
  | [] => .error .emptyCreature
  | head :: rest =>
    let c1 :=
      { c with segments := head.move ((c.direction.scale CENTIPEDE_SPEED).scale deltaTime) :: rest }
    match checkBounds c1 with
    | .error e => .error e
    | .ok c2 =>
      match c2.segments with
      | [] => .ok c2
      | head2 :: body =>
        .ok { c2 with segments := head2 :: follow sqrt c2.followDistance deltaTime head2 body }

/-- Checks if the head of the centipede has collided with a mushroom. -/
def checkMushroomCollision (c : ECE_Centipede K) :
    List (Mushroom K) → Except Fault (ECE_Centipede K)
  | [] => .ok c
  | mushroom :: mushrooms =>
    match c.segments with
    | [] => .error .emptyCreature
    | head :: _ =>
      if head.getGlobalBounds.intersects mushroom.sprite.getGlobalBounds then
        moveVertically { c with direction := ⟨-c.direction.x, c.direction.y⟩ } head.getPosition
      else
        checkMushroomCollision c mushrooms

/-- The index of the first segment, in head-to-tail order, whose bounds intersect `laserBounds`:
the scan `for (i = 0; i < segments.size(); ++i) if (segments[i]...intersects(laserBounds))`. -/
def firstOverlap (laserBounds : FloatRect K) : List (Sprite K) → Option Nat
  | [] => none
  | seg :: rest =>
    if seg.getGlobalBounds.intersects laserBounds then some 0
    else (firstOverlap laserBounds rest).map (· + 1)

/-- The statement `newSegments[0].setTexture(headTexture)`. -/
def setFirstTexture (headTexture : Texture) : List (Sprite K) → List (Sprite K)
  | [] => []
  | seg :: rest => seg.setTexture headTexture :: rest

/-- The creature that `centipedes.emplace_back(headTexture, bodyTexture, newSegments.size())`
builds, after `segments` and `direction` have been assigned. -/
def splitOff (self : ECE_Centipede K) (newSegments : List (Sprite K)) (direction : Vector2 K) :
    ECE_Centipede K :=
  { (create self.headTexture self.bodyTexture newSegments.length ⟨0, 0⟩ : ECE_Centipede K) with
    segments := setFirstTexture self.headTexture newSegments
    direction := direction }

/-- Checks if the centipede has been hit by a laser shot. `self` is the creature the method is
called on, `centipedes` the collection and `score` the score; the result is the returned
boolean with the three of them afterwards. -/
def checkLaserCollision (self : ECE_Centipede K) (laserBounds : FloatRect K)
    (centipedes : List (ECE_Centipede K)) (score : Int) :
    Bool × ECE_Centipede K × List (ECE_Centipede K) × Int :=
  match firstOverlap laserBounds self.segments with
  | none => (false, self, centipedes, score)
  | some i =>
    if i = 0 then
      let self1 := { self with segments := self.segments.eraseIdx 0 }
      (self1.segments.isEmpty, self1, centipedes, score + 100)
    else if i = self.segments.length - 1 then
      let self1 := { self with segments := self.segments.dropLast }
      (self1.segments.isEmpty, self1, centipedes, score + 10)
    else
      let newSegments1 := self.segments.take i
      let newSegments2 := self.segments.drop (i + 1)
      let centipedes1 :=
        if !newSegments1.isEmpty then
          centipedes ++ [splitOff self newSegments1 self.direction]
        else centipedes
      let centipedes2 :=
        if !newSegments2.isEmpty then
          centipedes1 ++ [splitOff self newSegments2 self.direction.neg]
        else centipedes1
      (true, self, centipedes2, score + 10)

/-- Checks if the centipede collides with the spaceship. -/
def checkSpaceshipCollision (self : ECE_Centipede K) (spaceshipBounds : FloatRect K) : Bool :=
  self.segments.any fun segment => segment.getGlobalBounds.intersects spaceshipBounds

end ECE_Centipede

/-! ## ECE_LaserBlast -/

/-- A laser blast is a sprite. -/
structure ECE_LaserBlast (K : Type) where
  sprite : Sprite K
deriving DecidableEq, Repr

namespace ECE_LaserBlast

def create (laserTexture : Texture) (x y : K) : ECE_LaserBlast K :=
  ⟨Sprite.create laserTexture ⟨x, y⟩⟩

def getGlobalBounds (l : ECE_LaserBlast K) : FloatRect K := l.sprite.getGlobalBounds

/-- Move the laser upwards. -/
def update (l : ECE_LaserBlast K) (deltaTime : K) : ECE_LaserBlast K :=
  ⟨l.sprite.move ⟨0, -LASER_SPEED * deltaTime⟩⟩

/-- Checks if the laser has moved off the top of the screen. -/
def isOffScreen (l : ECE_LaserBlast K) : Bool := decide (l.sprite.getPosition.y < 0)

end ECE_LaserBlast

/-! ## Spider -/

structure Spider (K : Type) where
  sprite : Sprite K
  direction : Vector2 K
  isAlive : Bool
deriving DecidableEq, Repr

namespace Spider

/-- Update the position of the spider; it turns round at the boundaries of the screen. -/
def update (s : Spider K) (deltaTime : K) : Spider K :=
  if s.isAlive then
    let s1 := { s with sprite := s.sprite.move ((s.direction.scale SPIDER_SPEED).scale deltaTime) }
    let position := s1.sprite.getPosition
    let s2 :=
      if position.x ≤ 0 ∨ position.x + s1.sprite.getGlobalBounds.width ≥ (SCREEN_WIDTH : K) then
        { s1 with direction := ⟨-s1.direction.x, s1.direction.y⟩ }
      else s1
    if position.y ≤ 0 ∨ position.y + s2.sprite.getGlobalBounds.height ≥ (SCREEN_HEIGHT : K) then
      { s2 with direction := ⟨s2.direction.x, -s2.direction.y⟩ }
    else s2
  else s

/-- The loop of `checkMushroomCollision`: erases the first mushroom the spider overlaps. -/
def eraseFirstHit (bounds : FloatRect K) : List (Mushroom K) → Bool × List (Mushroom K)
  | [] => (false, [])
  | mushroom :: mushrooms =>
    if bounds.intersects mushroom.sprite.getGlobalBounds then (true, mushrooms)
    else
      let r := eraseFirstHit bounds mushrooms
      (r.1, mushroom :: r.2)

/-- Checks if the spider has collided with a mushroom; the mushroom is destroyed. -/
def checkMushroomCollision (s : Spider K) (mushrooms : List (Mushroom K)) :
    Bool × List (Mushroom K) :=
  if s.isAlive then eraseFirstHit s.sprite.getGlobalBounds mushrooms else (false, mushrooms)

/-- Check if the spider collides with the spaceship. -/
def checkSpaceshipCollision (s : Spider K) (spaceshipBounds : FloatRect K) : Bool :=
  s.isAlive && s.sprite.getGlobalBounds.intersects spaceshipBounds

/-- Check if the spider is hit by a laser. `spiderRespawnClock` is the global respawn clock and
`now` the wall-clock time; the result is the returned boolean with the spider, the clock and the
score afterwards. -/
def checkLaserCollision (s : Spider K) (laserBounds : FloatRect K) (spiderRespawnClock now : K)
    (score : Int) : Bool × Spider K × K × Int :=
  if s.isAlive && s.sprite.getGlobalBounds.intersects laserBounds then
    (true, { s with isAlive := false }, now, score + 300)
  else
    (false, s, spiderRespawnClock, score)

def setIsAlive (s : Spider K) (alive : Bool) : Spider K := { s with isAlive := alive }

def getIsAlive (s : Spider K) : Bool := s.isAlive

end Spider

/-! ## The state of `main` -/

/-- The textures `main` loads and uses inside the main loop. -/
structure Assets where
  centipedeHeadTexture : Texture
  centipedeBodyTexture : Texture
  mushroomTexture : Texture
  mushroomSmallTexture : Texture
  starshipTexture : Texture
  laserTexture : Texture
  spiderTexture : Texture
deriving DecidableEq, Repr

/-- The local variables of `main` that live across iterations of the main loop, and the global
`spiderRespawnClock`. -/
structure Game (K : Type) where
  centipedes : List (ECE_Centipede K)
  mushrooms : List (Mushroom K)
  spaceship : Sprite K
  lives : Int
  livesSprites : List (Sprite K)
  spider : Spider K
  lasers : List (ECE_LaserBlast K)
  /-- Time of the last restart of `laserClock`. -/
  laserClock : K
  /-- Time of the last restart of `spiderRespawnClock`. -/
  spiderRespawnClock : K
  score : Int
  gameOver : Bool
  youWin : Bool
deriving DecidableEq, Repr

/-- What one iteration of the main loop reads from outside: the frame time, the wall clock and
the keyboard. -/
structure Input (K : Type) where
  deltaTime : K
  now : K
  up : Bool
  down : Bool
  left : Bool
  right : Bool
  space : Bool
deriving DecidableEq, Repr

/-- Initial position for the spaceship. -/
def initialPosition : Vector2 K :=
  ⟨(SCREEN_WIDTH : K) / 2, ((SCREEN_HEIGHT - BOTTOM_BUFFER : Nat) : K) + 20⟩

/-- The difference `SCREEN - size` of an `int` and an `unsigned int`, computed in 32-bit
unsigned arithmetic. -/
def unsignedSub (screen size : Nat) : Nat := (screen + 2 ^ 32 - size % 2 ^ 32) % 2 ^ 32

/-- The state of `main` when the main loop is entered: one creature of 12 segments, the
mushrooms, spider position and spider direction that the random generators produced, two
lives. -/
def initialGame (assets : Assets) (mushroomPositions : List (Vector2 K))
    (spiderPosition spiderDirection : Vector2 K) (now : K) : Game K :=
  { centipedes := [ECE_Centipede.create assets.centipedeHeadTexture assets.centipedeBodyTexture 12 ⟨0, 0⟩]
    mushrooms := mushroomPositions.map fun p => Mushroom.create assets.mushroomTexture p.x p.y false
    spaceship := Sprite.create assets.starshipTexture initialPosition
    lives := 2
    livesSprites :=
      (List.range 2).map fun (i : Nat) =>
        Sprite.create assets.starshipTexture ⟨(SCREEN_WIDTH : K) - ((i : K) + 1) * 50 - 10, 10⟩
    spider := { sprite := Sprite.create assets.spiderTexture spiderPosition,
                direction := spiderDirection, isAlive := true }
    lasers := []
    laserClock := now
    spiderRespawnClock := now
    score := 0
    gameOver := false
    youWin := false }

/-! ## The phases of one iteration of the main loop -/

/-- Update centipedes: every creature is updated, and erased when it has no segment. -/
def updateCentipedes (sqrt : K → K) (deltaTime : K) :
    List (ECE_Centipede K) → Except Fault (List (ECE_Centipede K))
  | [] => .ok []
  | c :: cs =>
    match c.update sqrt deltaTime with
    | .error e => .error e
    | .ok c1 =>
      match updateCentipedes sqrt deltaTime cs with
      | .error e => .error e
      | .ok cs1 => if c1.segments.isEmpty then .ok cs1 else .ok (c1 :: cs1)

/-- Check for collisions between centipedes and mushrooms. -/
def centipedesVsMushrooms (mushrooms : List (Mushroom K)) :
    List (ECE_Centipede K) → Except Fault (List (ECE_Centipede K))
  | [] => .ok []
  | c :: cs =>
    match c.checkMushroomCollision mushrooms with
    | .error e => .error e
    | .ok c1 =>
      match centipedesVsMushrooms mushrooms cs with
      | .error e => .error e
      | .ok cs1 => .ok (c1 :: cs1)

/-- Update lasers and remove those that go off screen. -/
def updateLasers (deltaTime : K) : List (ECE_LaserBlast K) → List (ECE_LaserBlast K)
  | [] => []
  | l :: ls =>
    let l1 := l.update deltaTime
    if l1.isOffScreen then updateLasers deltaTime ls else l1 :: updateLasers deltaTime ls

/-- The inner loop of the laser-mushroom phase for one laser: the mushrooms and the score
afterwards, and `laserHit`. -/
def laserVsMushrooms (mushroomSmallTexture : Texture) (laserBounds : FloatRect K) :
    List (Mushroom K) → Int → List (Mushroom K) × Int × Bool
  | [], score => ([], score, false)
  | mushroom :: mushrooms, score =>
    if laserBounds.intersects mushroom.sprite.getGlobalBounds then
      if !mushroom.isSmall then
        ({ mushroom with sprite := mushroom.sprite.setTexture mushroomSmallTexture, isSmall := true }
            :: mushrooms, score, true)
      else
        (mushrooms, score + 4, true)
    else
      let r := laserVsMushrooms mushroomSmallTexture laserBounds mushrooms score
      (mushroom :: r.1, r.2.1, r.2.2)

/-- Check for laser collisions with mushrooms: the lasers, the mushrooms and the score
afterwards. -/
def lasersVsMushrooms (mushroomSmallTexture : Texture) :
    List (ECE_LaserBlast K) → List (Mushroom K) → Int →
      List (ECE_LaserBlast K) × List (Mushroom K) × Int
  | [], mushrooms, score => ([], mushrooms, score)
  | l :: ls, mushrooms, score =>
    let r := laserVsMushrooms mushroomSmallTexture l.getGlobalBounds mushrooms score
    let rest := lasersVsMushrooms mushroomSmallTexture ls r.1 r.2.1
    (if r.2.2 then rest.1 else l :: rest.1, rest.2.1, rest.2.2)

/-- The inner loop of the laser-centipede phase for one laser, from the creature at position
`idx` on: the creatures and the score afterwards, and `laserHit`. The creature the iterator
points at is `centipedes[idx]`; what `checkLaserCollision` did to it is written back to that
position. -/
def laserVsCentipedes (laserBounds : FloatRect K) (centipedes : List (ECE_Centipede K))
    (idx : Nat) (score : Int) : List (ECE_Centipede K) × Int × Bool :=
  if h : idx < centipedes.length then
    let r := (centipedes.get ⟨idx, h⟩).checkLaserCollision laserBounds centipedes score
    if r.1 = true then
      ((r.2.2.1.set idx r.2.1).eraseIdx idx, r.2.2.2, true)
    else
      laserVsCentipedes laserBounds (r.2.2.1.set idx r.2.1) (idx + 1) r.2.2.2
  else
    (centipedes, score, false)
termination_by centipedes.length - idx
decreasing_by
  rename_i hr
  have key : ((centipedes.get ⟨idx, h⟩).checkLaserCollision laserBounds centipedes score).1 = true ∨
      ((centipedes.get ⟨idx, h⟩).checkLaserCollision laserBounds centipedes score).2.2.1.length
        = centipedes.length := by
    unfold ECE_Centipede.checkLaserCollision
    split
    · exact Or.inr rfl
    · split
      · exact Or.inr rfl
      · split
        · exact Or.inr rfl
        · exact Or.inl rfl
  rcases key with h1 | h2
  · exact absurd h1 hr
  · simp only [List.length_set, h2]
    omega

/-- Check for laser collisions with centipedes: the lasers, the creatures and the score
afterwards. -/
def lasersVsCentipedes :
    List (ECE_LaserBlast K) → List (ECE_Centipede K) → Int →
      List (ECE_LaserBlast K) × List (ECE_Centipede K) × Int
  | [], centipedes, score => ([], centipedes, score)
  | l :: ls, centipedes, score =>
    let r := laserVsCentipedes l.getGlobalBounds centipedes 0 score
    let rest := lasersVsCentipedes ls r.1 r.2.1
    (if r.2.2 then rest.1 else l :: rest.1, rest.2.1, rest.2.2)

/-- Check for laser collisions with spider: the lasers, the spider, the respawn clock and the
score afterwards. -/
def lasersVsSpider (now : K) :
    List (ECE_LaserBlast K) → Spider K → K → Int → List (ECE_LaserBlast K) × Spider K × K × Int
  | [], spider, clock, score => ([], spider, clock, score)
  | l :: ls, spider, clock, score =>
    let r := spider.checkLaserCollision l.getGlobalBounds clock now score
    let rest := lasersVsSpider now ls r.2.1 r.2.2.1 r.2.2.2
    (if r.1 then rest.1 else l :: rest.1, rest.2.1, rest.2.2.1, rest.2.2.2)

/-- The loop of the centipede-spaceship phase over the creatures still to be checked. -/
def centipedesVsShip : List (ECE_Centipede K) → Game K → Except Fault (Game K)
  | [], g => .ok g
  | c :: cs, g =>
    if c.checkSpaceshipCollision g.spaceship.getGlobalBounds then
      let lives := g.lives - 1
      match g.livesSprites with
      | [] => .error .noLifeIcon
      | _ :: _ =>
        .ok { g with
          lives := lives
          livesSprites := g.livesSprites.dropLast
          spaceship := g.spaceship.setPosition initialPosition
          gameOver := if lives = 0 then true else g.gameOver }
    else
      centipedesVsShip cs g

/-- Update centipedes (the first loop of the tick). -/
def phaseUpdateCentipedes (sqrt : K → K) (inp : Input K) (g : Game K) : Except Fault (Game K) :=
  match updateCentipedes sqrt inp.deltaTime g.centipedes with
  | .error e => .error e
  | .ok cs => .ok { g with centipedes := cs }

/-- Check if all centipedes are destroyed (player wins). -/
def phaseWinCheck (g : Game K) : Game K :=
  if g.centipedes.isEmpty then { g with youWin := true } else g

/-- Check for collisions between centipedes and mushrooms. -/
def phaseCentipedesVsMushrooms (g : Game K) : Except Fault (Game K) :=
  match centipedesVsMushrooms g.mushrooms g.centipedes with
  | .error e => .error e
  | .ok cs => .ok { g with centipedes := cs }

/-- The respawn check: the spider is set alive 5 seconds after it died. -/
def phaseRespawnSpider (inp : Input K) (g : Game K) : Game K :=
  if !g.spider.getIsAlive && decide (inp.now - g.spiderRespawnClock ≥ 5) then
    { g with spider := g.spider.setIsAlive true }
  else g

/-- The spider moves and eats a mushroom. -/
def phaseUpdateSpider (inp : Input K) (g : Game K) : Game K :=
  let spider := g.spider.update inp.deltaTime
  { g with spider := spider, mushrooms := (spider.checkMushroomCollision g.mushrooms).2 }

/-- Move the spaceship with arrow keys. -/
def phaseMoveShip (assets : Assets) (inp : Input K) (g : Game K) : Game K :=
  let spaceshipPosition := g.spaceship.getPosition
  let ship1 :=
    if inp.up && decide (spaceshipPosition.y > ((SCREEN_HEIGHT - BOTTOM_BUFFER : Nat) : K)) then
      g.spaceship.move ⟨0, -SHIP_SPEED * inp.deltaTime⟩
    else g.spaceship
  let ship2 :=
    if inp.down &&
        decide (spaceshipPosition.y < (unsignedSub SCREEN_HEIGHT assets.starshipTexture.height : K)) then
      ship1.move ⟨0, SHIP_SPEED * inp.deltaTime⟩
    else ship1
  let ship3 :=
    if inp.left && decide (spaceshipPosition.x > 0) then
      ship2.move ⟨-SHIP_SPEED * inp.deltaTime, 0⟩
    else ship2
  let ship4 :=
    if inp.right &&
        decide (spaceshipPosition.x < (unsignedSub SCREEN_WIDTH assets.starshipTexture.width : K)) then
      ship3.move ⟨SHIP_SPEED * inp.deltaTime, 0⟩
    else ship3
  { g with spaceship := ship4 }

/-- Shooting lasers with spacebar. `spaceshipPosition` is the position the spaceship had before
it moved in this tick. -/
def phaseShoot (assets : Assets) (inp : Input K) (spaceshipPosition : Vector2 K) (g : Game K) :
    Game K :=
  if inp.space && decide (inp.now - g.laserClock > SHOT_INTERVAL) then
    let laserX := spaceshipPosition.x + (assets.starshipTexture.width : K) / 2
      - (assets.laserTexture.width : K) / 2
    let laserY := spaceshipPosition.y
    { g with
      lasers := g.lasers ++ [ECE_LaserBlast.create assets.laserTexture laserX laserY]
      laserClock := inp.now }
  else g

/-- Update lasers and remove those that go off screen. -/
def phaseUpdateLasers (inp : Input K) (g : Game K) : Game K :=
  { g with lasers := updateLasers inp.deltaTime g.lasers }

/-- Check for laser collisions with mushrooms. -/
def phaseLasersVsMushrooms (assets : Assets) (g : Game K) : Game K :=
  let r := lasersVsMushrooms assets.mushroomSmallTexture g.lasers g.mushrooms g.score
  { g with lasers := r.1, mushrooms := r.2.1, score := r.2.2 }

/-- Check for laser collisions with centipedes. -/
def phaseLasersVsCentipedes (g : Game K) : Game K :=
  let r := lasersVsCentipedes g.lasers g.centipedes g.score
  { g with lasers := r.1, centipedes := r.2.1, score := r.2.2 }

/-- Check for laser collisions with spider. -/
def phaseLasersVsSpider (inp : Input K) (g : Game K) : Game K :=
  let r := lasersVsSpider inp.now g.lasers g.spider g.spiderRespawnClock g.score
  { g with lasers := r.1, spider := r.2.1, spiderRespawnClock := r.2.2.1, score := r.2.2.2 }

/-- Check for collisions between centipedes and spaceship. -/
def phaseCentipedesVsShip (g : Game K) : Except Fault (Game K) :=
  centipedesVsShip g.centipedes g

/-- Check for collisions between spider and spaceship. -/
def phaseSpiderVsShip (g : Game K) : Except Fault (Game K) :=
  if g.spider.getIsAlive && g.spider.checkSpaceshipCollision g.spaceship.getGlobalBounds then
    if g.lives > 0 then
      let lives := g.lives - 1
      match g.livesSprites with
      | [] => .error .noLifeIcon
      | _ :: _ =>
        .ok { g with
          lives := lives
          livesSprites := g.livesSprites.dropLast
          spaceship := g.spaceship.setPosition initialPosition
          gameOver := if lives = 0 then true else g.gameOver }
    else .ok g
  else .ok g

/-- The phases of a tick that come after the creatures were updated and before the spaceship
collisions: from the win check to the laser-spider collisions. -/
def tickMiddle (assets : Assets) (inp : Input K) (g1 : Game K) : Except Fault (Game K) :=
  match phaseCentipedesVsMushrooms (phaseWinCheck g1) with
  | .error e => .error e
  | .ok g3 =>
    let g4 := phaseUpdateSpider inp (phaseRespawnSpider inp g3)
    let g5 := phaseShoot assets inp g4.spaceship.getPosition (phaseMoveShip assets inp g4)
    let g6 := phaseLasersVsMushrooms assets (phaseUpdateLasers inp g5)
    .ok (phaseLasersVsSpider inp (phaseLasersVsCentipedes g6))

/-- The two spaceship collision phases that end a tick. -/
def tickShip (g : Game K) : Except Fault (Game K) :=
  match phaseCentipedesVsShip g with
  | .error e => .error e
  | .ok g1 => phaseSpiderVsShip g1

/-- One iteration of the main loop: the body of `if (!gameOver && !youWin)`. (The score text
and the rendering read the state and do not change it.) -/
def tick (assets : Assets) (sqrt : K → K) (g : Game K) (inp : Input K) : Except Fault (Game K) :=
  if !g.gameOver && !g.youWin then
    match phaseUpdateCentipedes sqrt inp g with
    | .error e => .error e
    | .ok g1 =>
      match tickMiddle assets inp g1 with
      | .error e => .error e
      | .ok g2 => tickShip g2
  else .ok g

/-- The state after the ticks with the inputs `inps`, in order. -/
def run (assets : Assets) (sqrt : K → K) : Game K → List (Input K) → Except Fault (Game K)
  | g, [] => .ok g
  | g, inp :: inps =>
    match tick assets sqrt g inp with
    | .error e => .error e
    | .ok g1 => run assets sqrt g1 inps

/-! ## Concrete inputs used to evaluate the code, and predicates -/

/-- A 27 x 27 head texture. -/
def headTex : Texture := ⟨0, 27, 27⟩
/-- A 27 x 27 body texture. -/
def bodyTex : Texture := ⟨1, 27, 27⟩

/-- The creature of 3 segments at (0,0), (0,30), (0,60) that the constructor builds. -/
def threeSegments : ECE_Centipede ℚ := ECE_Centipede.create headTex bodyTex 3 ⟨0, 0⟩

/-- A laser rectangle that overlaps the middle segment of `threeSegments` only. -/
def laserOnMiddle : FloatRect ℚ := ⟨10, 35, 4, 10⟩

/-- A creature of a single segment at (100, 200). -/
def oneSegment : ECE_Centipede ℚ := ECE_Centipede.create headTex bodyTex 1 ⟨100, 200⟩

/-- A laser rectangle that overlaps the segment of `oneSegment`. -/
def laserOnOne : FloatRect ℚ := ⟨110, 190, 4, 20⟩

/-- A live spider at (300, 300), 30 x 30. -/
def liveSpider : Spider ℚ :=
  { sprite := Sprite.create ⟨6, 30, 30⟩ ⟨300, 300⟩, direction := ⟨1, 1⟩, isAlive := true }

/-- The creature of 2 segments at (0,0), (0,30) that the constructor builds. -/
def twoSegments : ECE_Centipede ℚ := ECE_Centipede.create headTex bodyTex 2 ⟨0, 0⟩

/-- A 4 x 10 laser texture. -/
def laserTex : Texture := ⟨5, 4, 10⟩

/-- A laser blast at (10, 5): it overlaps the head of `twoSegments` and not its other segment. -/
def laserOnHead : ECE_LaserBlast ℚ := ECE_LaserBlast.create laserTex 10 5

/-- Every creature of the collection has at least one segment. -/
def NonEmptyCreatures (centipedes : List (ECE_Centipede K)) : Prop :=
  ∀ c ∈ centipedes, c.segments ≠ []

/-- Textures for evaluation: 27 x 27 creature segments, 30 x 30 mushrooms and spider, a
40 x 40 spaceship, a 4 x 10 laser. -/
def assets0 : Assets :=
  { centipedeHeadTexture := headTex
    centipedeBodyTexture := bodyTex
    mushroomTexture := ⟨2, 30, 30⟩
    mushroomSmallTexture := ⟨3, 30, 30⟩
    starshipTexture := ⟨4, 40, 40⟩
    laserTexture := laserTex
    spiderTexture := ⟨6, 30, 30⟩ }

/-- No key is down; the frame took `deltaTime` and the wall clock shows `now`. -/
def idle (deltaTime now : K) : Input K :=
  { deltaTime := deltaTime, now := now, up := false, down := false, left := false,
    right := false, space := false }

/-- The game as `main` starts it at time 0, with one mushroom at (200, 100) and the spider at
(300, 300). -/
def game0 : Game ℚ := initialGame assets0 [⟨200, 100⟩] ⟨300, 300⟩ ⟨1, 1⟩ 0

/-- An undamaged mushroom at (200, 100), 30 x 30. -/
def mushroom0 : Mushroom ℚ := Mushroom.create assets0.mushroomTexture 200 100 false

/-- A laser blast at (210, 110): it overlaps `mushroom0`. -/
def laserOnMushroom : ECE_LaserBlast ℚ := ECE_LaserBlast.create laserTex 210 110

/-- The mushroom after its first hit: the small texture and `isSmall = true`. -/
def Mushroom.damaged (mushroomSmallTexture : Texture) (m : Mushroom K) : Mushroom K :=
  { m with sprite := m.sprite.setTexture mushroomSmallTexture, isSmall := true }

/-- A state with a single creature of one segment, a damaged mushroom, a dead spider and two
lasers: the first reaches the creature in the next tick, the second reaches the mushroom one
tick later. -/
def gameLast : Game ℚ :=
  { centipedes := [oneSegment]
    mushrooms := [mushroom0.damaged assets0.mushroomSmallTexture]
    spaceship := Sprite.create assets0.starshipTexture initialPosition
    lives := 2
    livesSprites := [Sprite.create assets0.starshipTexture ⟨976, 10⟩,
      Sprite.create assets0.starshipTexture ⟨926, 10⟩]
    spider := { liveSpider with isAlive := false }
    lasers := [ECE_LaserBlast.create laserTex 110 216, ECE_LaserBlast.create laserTex 210 141]
    laserClock := 0
    spiderRespawnClock := 0
    score := 0
    gameOver := false
    youWin := false }

/-- What a collision with the spaceship does in either spaceship phase: one life and its icon
are taken, the spaceship is put back at its initial position, and the game is over when no
life is left. -/
def loseLife (g : Game K) : Game K :=
  { g with
    lives := g.lives - 1
    livesSprites := g.livesSprites.dropLast
    spaceship := g.spaceship.setPosition initialPosition
    gameOver := if g.lives - 1 = 0 then true else g.gameOver }

/-- Some segment of some creature overlaps the spaceship. -/
def CreatureOnShip (g : Game K) : Prop :=
  ∃ c ∈ g.centipedes, ∃ seg ∈ c.segments,
    seg.getGlobalBounds.intersects g.spaceship.getGlobalBounds = true

/-- The creature `oneSegment` after an update of 1/100 s: it moved 4.5 to the right. -/
def oneSegmentA : ECE_Centipede ℚ :=
  { oneSegment with segments := [Sprite.create headTex ⟨209 / 2, 200⟩] }

/-- The state `gameLast` after the advance phase of a tick of 1/100 s. -/
def gameLastA : Game ℚ :=
  { gameLast with centipedes := [oneSegmentA] }

/-- The state `gameLastA` after the lasers moved. -/
def gameLastB : Game ℚ :=
  { gameLastA with
    lasers := [ECE_LaserBlast.create laserTex 110 210, ECE_LaserBlast.create laserTex 210 135] }

/-- The state `gameLast` after one tick of 1/100 s: the first laser removed the creature. -/
def gameLast1 : Game ℚ :=
  { gameLast with
    centipedes := [], lasers := [ECE_LaserBlast.create laserTex 210 135], score := 100 }

/-- The state `gameLast1` after the win check of the next tick. -/
def gameLastW : Game ℚ := { gameLast1 with youWin := true }

/-- The state `gameLastW` after the laser moved. -/
def gameLastX : Game ℚ := { gameLastW with lasers := [ECE_LaserBlast.create laserTex 210 129] }

/-- The state `gameLast` after two ticks of 1/100 s: the second laser removed the damaged
mushroom after the won flag was set. -/
def gameLast2 : Game ℚ :=
  { gameLast1 with mushrooms := [], lasers := [], score := 104, youWin := true }

/-- A creature of a single segment at (500, 480), next to the spaceship. -/
def oneSegmentLow : ECE_Centipede ℚ := ECE_Centipede.create headTex bodyTex 1 ⟨500, 480⟩

/-- The creature `oneSegmentLow` after an update of 1/100 s. -/
def oneSegmentLowA : ECE_Centipede ℚ :=
  { oneSegmentLow with segments := [Sprite.create headTex ⟨1009 / 2, 480⟩] }

/-- A state with one life left, its icon, and a creature about to touch the spaceship. -/
def gameHit : Game ℚ :=
  { centipedes := [oneSegmentLow]
    mushrooms := []
    spaceship := Sprite.create assets0.starshipTexture initialPosition
    lives := 1
    livesSprites := [Sprite.create assets0.starshipTexture ⟨976, 10⟩]
    spider := { liveSpider with isAlive := false }
    lasers := []
    laserClock := 0
    spiderRespawnClock := 0
    score := 0
    gameOver := false
    youWin := false }

/-- The state `gameHit` after the advance phase of a tick of 1/100 s. -/
def gameHitA : Game ℚ := { gameHit with centipedes := [oneSegmentLowA] }

/-- A laser rectangle that overlaps the last segment of `threeSegments` only. -/
def laserOnTail : FloatRect ℚ := ⟨10, 65, 4, 10⟩

/-- The creature `threeSegments` travelling upwards. -/
def threeSegmentsUp : ECE_Centipede ℚ := { threeSegments with moveDirectionDown := false }

/-- A creature of a single segment at the top of the play field, at (100, 0), travelling
downwards. -/
def topCreature : ECE_Centipede ℚ := ECE_Centipede.create headTex bodyTex 1 ⟨100, 0⟩

/-- A mushroom at (110, 10): it overlaps the head of `topCreature`. -/
def topMushroom : Mushroom ℚ := Mushroom.create assets0.mushroomTexture 110 10 false

/-- The creature `topCreature` after `checkMushroomCollision` with `topMushroom`. -/
def topCreatureA : ECE_Centipede ℚ :=
  { topCreature with
    segments := [Sprite.create headTex ⟨100, 25⟩]
    direction := ⟨-1, 0⟩
    moveDirectionDown := false }

/-- A creature of a single segment at the bottom boundary, at (100, 545), travelling
upwards. -/
def bottomCreature : ECE_Centipede ℚ :=
  { (ECE_Centipede.create headTex bodyTex 1 ⟨100, 545⟩ : ECE_Centipede ℚ) with
    moveDirectionDown := false }

/-- A mushroom at (110, 550): it overlaps the head of `bottomCreature`. -/
def bottomMushroom : Mushroom ℚ := Mushroom.create assets0.mushroomTexture 110 550 false

/-- The creature `bottomCreature` after `checkMushroomCollision` with `bottomMushroom`. -/
def bottomCreatureA : ECE_Centipede ℚ :=
  { bottomCreature with
    segments := [Sprite.create headTex ⟨100, 520⟩]
    direction := ⟨-1, 0⟩
    moveDirectionDown := true }

/-- The lives are not negative, there is one life icon for each life, and the game is over
exactly when no life is left. -/
def LivesInvariant (g : Game K) : Prop :=
  0 ≤ g.lives ∧ (g.livesSprites.length : Int) = g.lives ∧ (g.gameOver = true ↔ g.lives = 0)

/-- The spider `liveSpider` after an update of 1/100 s: it moved by (2, 2). -/
def liveSpiderA : Spider ℚ :=
  { liveSpider with sprite := Sprite.create ⟨6, 30, 30⟩ ⟨302, 302⟩ }

/-- The state `gameLastW` after the spider phases of a tick of 1/100 s at time 5: the spider is
alive again and has moved. -/
def gameLastR : Game ℚ := { gameLastW with spider := liveSpiderA }

/-- The state `gameLastR` after the laser moved. -/
def gameLastS : Game ℚ := { gameLastR with lasers := [ECE_LaserBlast.create laserTex 210 129] }

/-- The state `gameLast1` after a tick of 1/100 s at time 5: the won flag is set, the spider is
alive again, and the laser removed the damaged mushroom. -/
def gameLast5 : Game ℚ := { gameLast2 with spider := liveSpiderA }

/-- The mushroom is in the rows in which `main` places the mushrooms, its top between
`TOP_BUFFER` and `SCREEN_HEIGHT - BOTTOM_BUFFER`, and it is at most 73 high, so that it ends
above a head that is at the lower boundary. -/
def Mushroom.InRows (m : Mushroom K) : Prop :=
  (TOP_BUFFER : K) ≤ m.sprite.position.y ∧
  m.sprite.position.y ≤ ((SCREEN_HEIGHT - BOTTOM_BUFFER : Nat) : K) ∧
  0 ≤ m.sprite.height ∧ m.sprite.height ≤ 73

/-- The creature has the lower boundary that the constructor sets, and its segments are 27
high, the size that `checkBounds` and `moveVertically` take for the head. -/
def ECE_Centipede.Built (c : ECE_Centipede K) : Prop :=
  c.lowerBound = (SCREEN_HEIGHT : K) ∧ ∀ seg ∈ c.segments, seg.height = 27

/-- The creatures and the mushrooms of the state are as `main` builds and places them. -/
def PlayField (g : Game K) : Prop :=
  (∀ c ∈ g.centipedes, c.Built) ∧ ∀ m ∈ g.mushrooms, m.InRows

/-- A square root on `ℚ` for evaluation: exact on the squares of rationals. -/
def ratSqrt (q : ℚ) : ℚ := (Nat.sqrt q.num.toNat : ℚ) / (Nat.sqrt q.den : ℚ)

end Model

/-! # Properties -/

section Proofs

set_option linter.unusedSectionVars false

variable {K : Type} [LinearOrderedField K]

open ECE_Centipede

/-! ## The scan for the first overlapping segment -/

theorem firstOverlap_lt (laserBounds : FloatRect K) :
    ∀ (segs : List (Sprite K)) (i : Nat), firstOverlap laserBounds segs = some i → i < segs.length
  | [], i, h => by simp [firstOverlap] at h
  | seg :: rest, i, h => by
    unfold firstOverlap at h
    split at h
    · cases h; simp
    · cases hr : firstOverlap laserBounds rest with
      | none => simp [hr] at h
      | some j =>
        simp only [hr, Option.map_some', Option.some.injEq] at h
        have := firstOverlap_lt laserBounds rest j hr
        subst h
        simpa using this

/-- The scan returns `i` exactly when segment `i` overlaps the laser and no earlier one does. -/
theorem firstOverlap_eq_some_iff (laserBounds : FloatRect K) :
    ∀ (segs : List (Sprite K)) (i : Nat), firstOverlap laserBounds segs = some i ↔
      ∃ h : i < segs.length,
        (segs.get ⟨i, h⟩).getGlobalBounds.intersects laserBounds = true ∧
        ∀ (j : Nat) (hj : j < i),
          (segs.get ⟨j, lt_trans hj h⟩).getGlobalBounds.intersects laserBounds = false
  | [], i => by simp [firstOverlap]
  | seg :: rest, i => by
    unfold firstOverlap
    by_cases hseg : seg.getGlobalBounds.intersects laserBounds = true
    · rw [if_pos hseg]
      constructor
      · intro h
        cases h
        exact ⟨by simp, by simpa using hseg, fun j hj => absurd hj (Nat.not_lt_zero j)⟩
      · rintro ⟨h, _, hfirst⟩
        cases i with
        | zero => rfl
        | succ k =>
          have := hfirst 0 (Nat.succ_pos k)
          simp only [List.get_eq_getElem, List.getElem_cons_zero] at this
          rw [this] at hseg
          exact absurd hseg (by simp)
    · rw [if_neg hseg]
      have hseg1 : seg.getGlobalBounds.intersects laserBounds = false := by simpa using hseg
      have ih := firstOverlap_eq_some_iff laserBounds rest
      constructor
      · intro h
        cases hr : firstOverlap laserBounds rest with
        | none => simp [hr] at h
        | some k =>
          simp only [hr, Option.map_some', Option.some.injEq] at h
          subst h
          obtain ⟨hk, hhit, hfirst⟩ := (ih k).1 hr
          refine ⟨by simpa using hk, by simpa using hhit, ?_⟩
          intro j hj
          cases j with
          | zero => simpa using hseg1
          | succ m => simpa using hfirst m (by omega)
      · rintro ⟨h, hhit, hfirst⟩
        cases i with
        | zero =>
          simp only [List.get_eq_getElem, List.getElem_cons_zero] at hhit
          exact absurd hhit hseg
        | succ k =>
          have hk : k < rest.length := by simpa using h
          have : firstOverlap laserBounds rest = some k := by
            refine (ih k).2 ⟨hk, by simpa using hhit, ?_⟩
            intro j hj
            simpa using hfirst (j + 1) (by omega)
          simp [this]

/-- The scan finds nothing exactly when no segment overlaps the laser. -/
theorem firstOverlap_eq_none_iff (laserBounds : FloatRect K) :
    ∀ (segs : List (Sprite K)), firstOverlap laserBounds segs = none ↔
      ∀ seg ∈ segs, seg.getGlobalBounds.intersects laserBounds = false
  | [] => by simp [firstOverlap]
  | seg :: rest => by
    unfold firstOverlap
    by_cases hseg : seg.getGlobalBounds.intersects laserBounds = true
    · simp [hseg]
    · have hseg1 : seg.getGlobalBounds.intersects laserBounds = false := by simpa using hseg
      simp [hseg1, firstOverlap_eq_none_iff laserBounds rest]

theorem setFirstTexture_length (t : Texture) (segs : List (Sprite K)) :
    (setFirstTexture t segs).length = segs.length := by
  cases segs <;> rfl

theorem setFirstTexture_map_position (t : Texture) (segs : List (Sprite K)) :
    (setFirstTexture t segs).map Sprite.getPosition = segs.map Sprite.getPosition := by
  cases segs <;> rfl

theorem setFirstTexture_map_bounds (t : Texture) (segs : List (Sprite K)) :
    (setFirstTexture t segs).map Sprite.getGlobalBounds = segs.map Sprite.getGlobalBounds := by
  cases segs <;> rfl

theorem setFirstTexture_eq_nil (t : Texture) (segs : List (Sprite K)) :
    setFirstTexture t segs = [] ↔ segs = [] := by
  cases segs <;> simp [setFirstTexture]

/-- What `checkLaserCollision` returns when the first overlapping segment is an interior one. -/
theorem checkLaserCollision_interior (self : ECE_Centipede K) (laserBounds : FloatRect K)
    (centipedes : List (ECE_Centipede K)) (score : Int) (i : Nat)
    (hfirst : firstOverlap laserBounds self.segments = some i)
    (h0 : 0 < i) (hN : i < self.segments.length - 1) :
    self.checkLaserCollision laserBounds centipedes score =
      (true, self,
        centipedes ++ [splitOff self (self.segments.take i) self.direction,
          splitOff self (self.segments.drop (i + 1)) self.direction.neg],
        score + 10) := by
  have h1 : (self.segments.take i).isEmpty = false := by
    cases hs : self.segments.take i with
    | nil =>
      rw [List.take_eq_nil_iff] at hs
      rcases hs with hs | hs
      · omega
      · rw [hs] at hN; simp at hN
    | cons a l => rfl
  have h2 : (self.segments.drop (i + 1)).isEmpty = false := by
    cases hs : self.segments.drop (i + 1) with
    | nil =>
      rw [List.drop_eq_nil_iff] at hs
      omega
    | cons a l => rfl
  unfold checkLaserCollision
  simp only [hfirst]
  rw [if_neg (by omega), if_neg (by omega)]
  simp [h1, h2]

/-! ## Splitting -/

/-- C2: when the first segment that overlaps the projectile is at an interior index `i`
(`0 < i < N - 1`) of a creature of `N` segments, `checkLaserCollision` returns true, adds 10 to
the score, leaves the creature itself alone and appends exactly two creatures to the
collection: the first holds the segments `0 .. i-1` in order (`i` of them), the second the
segments `i+1 .. N-1` in order (`N - 1 - i` of them), so that the sizes sum to `N - 1`. The
segments keep their positions and bounds; the first segment of each new creature is given the
head texture. -/
theorem checkLaserCollision_splits_at_interior (self : ECE_Centipede K)
    (laserBounds : FloatRect K) (centipedes : List (ECE_Centipede K)) (score : Int) (i : Nat)
    (hfirst : firstOverlap laserBounds self.segments = some i)
    (h0 : 0 < i) (hN : i < self.segments.length - 1) :
    ∃ c1 c2 : ECE_Centipede K,
      self.checkLaserCollision laserBounds centipedes score =
        (true, self, centipedes ++ [c1, c2], score + 10) ∧
      c1.segments = setFirstTexture self.headTexture (self.segments.take i) ∧
      c2.segments = setFirstTexture self.headTexture (self.segments.drop (i + 1)) ∧
      c1.segments.map Sprite.getPosition = (self.segments.map Sprite.getPosition).take i ∧
      c2.segments.map Sprite.getPosition = (self.segments.map Sprite.getPosition).drop (i + 1) ∧
      c1.segments.map Sprite.getGlobalBounds = (self.segments.map Sprite.getGlobalBounds).take i ∧
      c2.segments.map Sprite.getGlobalBounds
        = (self.segments.map Sprite.getGlobalBounds).drop (i + 1) ∧
      c1.segments.length = i ∧
      c2.segments.length = self.segments.length - 1 - i ∧
      c1.segments.length + c2.segments.length = self.segments.length - 1 := by
  refine ⟨splitOff self (self.segments.take i) self.direction,
    splitOff self (self.segments.drop (i + 1)) self.direction.neg,
    checkLaserCollision_interior self laserBounds centipedes score i hfirst h0 hN,
    rfl, rfl, ?_, ?_, ?_, ?_, ?_, ?_, ?_⟩
  · simp only [splitOff, setFirstTexture_map_position, List.map_take]
  · simp only [splitOff, setFirstTexture_map_position, List.map_drop]
  · simp only [splitOff, setFirstTexture_map_bounds, List.map_take]
  · simp only [splitOff, setFirstTexture_map_bounds, List.map_drop]
  · simp only [splitOff, setFirstTexture_length, List.length_take]; omega
  · simp only [splitOff, setFirstTexture_length, List.length_drop]; omega
  · simp only [splitOff, setFirstTexture_length, List.length_take, List.length_drop]; omega

theorem threeSegments_positions :
    threeSegments.segments.map Sprite.getPosition = [⟨0, 0⟩, ⟨0, 30⟩, ⟨0, 60⟩] := by
  simp [threeSegments, ECE_Centipede.create, Sprite.create, Sprite.getPosition, List.range,
    List.range.loop]
  norm_num

/-- The scenario of C2: the creature at (0,0), (0,30), (0,60) hit at index 1 gives the
creatures [(0,0)] and [(0,60)]. -/
theorem checkLaserCollision_splits_at_interior_witness :
    threeSegments.segments.map Sprite.getPosition = [⟨0, 0⟩, ⟨0, 30⟩, ⟨0, 60⟩] ∧
    firstOverlap laserOnMiddle threeSegments.segments = some 1 ∧
    ∃ c1 c2 : ECE_Centipede ℚ,
      threeSegments.checkLaserCollision laserOnMiddle [threeSegments] 0 =
        (true, threeSegments, [threeSegments] ++ [c1, c2], 0 + 10) ∧
      c1.segments.map Sprite.getPosition = [⟨0, 0⟩] ∧
      c2.segments.map Sprite.getPosition = [⟨0, 60⟩] := by
  have hfirst : firstOverlap laserOnMiddle threeSegments.segments = some 1 := by
    norm_num [firstOverlap, threeSegments, laserOnMiddle, ECE_Centipede.create, Sprite.create,
      Sprite.getGlobalBounds, FloatRect.intersects, List.range, List.range.loop, headTex, bodyTex]
  have hlen : threeSegments.segments.length = 3 := by
    simp [threeSegments, ECE_Centipede.create]
  obtain ⟨c1, c2, h, -, -, p1, p2, -⟩ :=
    checkLaserCollision_splits_at_interior threeSegments laserOnMiddle [threeSegments] 0 1
      hfirst (by decide) (by rw [hlen]; decide)
  refine ⟨threeSegments_positions, hfirst, c1, c2, h, ?_, ?_⟩
  · rw [p1, threeSegments_positions]; rfl
  · rw [p2, threeSegments_positions]; rfl

/-! ## A creature of one segment -/

/-- A hit on the only segment of a creature. -/
theorem checkLaserCollision_one (self : ECE_Centipede K) (seg : Sprite K)
    (laserBounds : FloatRect K) (centipedes : List (ECE_Centipede K)) (score : Int)
    (hone : self.segments = [seg])
    (hhit : seg.getGlobalBounds.intersects laserBounds = true) :
    self.checkLaserCollision laserBounds centipedes score =
      (true, { self with segments := [] }, centipedes, score + 100) := by
  have hfirst : firstOverlap laserBounds self.segments = some 0 := by
    rw [hone]; simp [firstOverlap, hhit]
  unfold checkLaserCollision
  simp only [hfirst]
  simp [hone]

/-- C4: a creature of exactly one segment whose bounds overlap the projectile: the call
returns true, leaves the creature without segments and the collection as it was (hence appends
nothing). Index 0 is the head and the tail at once (`0 = size - 1`), and removing the head
(`erase(begin())`) and removing the tail (`pop_back()`) leave the same, empty, sequence; the
code takes the head branch and so adds 100 to the score. -/
theorem checkLaserCollision_single_segment (self : ECE_Centipede K) (seg : Sprite K)
    (laserBounds : FloatRect K) (centipedes : List (ECE_Centipede K)) (score : Int)
    (hone : self.segments = [seg])
    (hhit : seg.getGlobalBounds.intersects laserBounds = true) :
    self.checkLaserCollision laserBounds centipedes score =
        (true, { self with segments := [] }, centipedes, score + 100) ∧
      firstOverlap laserBounds self.segments = some 0 ∧
      0 = self.segments.length - 1 ∧
      self.segments.eraseIdx 0 = [] ∧ self.segments.dropLast = [] := by
  have hfirst : firstOverlap laserBounds self.segments = some 0 := by
    rw [hone]; simp [firstOverlap, hhit]
  exact ⟨checkLaserCollision_one self seg laserBounds centipedes score hone hhit, hfirst,
    by rw [hone]; rfl, by rw [hone]; rfl, by rw [hone]; rfl⟩

theorem oneSegment_segments :
    oneSegment.segments = [Sprite.create headTex ⟨100, 200⟩] := by
  simp [oneSegment, ECE_Centipede.create]

theorem checkLaserCollision_single_segment_witness :
    oneSegment.segments = [Sprite.create headTex ⟨100, 200⟩] ∧
    (Sprite.create headTex (⟨100, 200⟩ : Vector2 ℚ)).getGlobalBounds.intersects laserOnOne = true ∧
    oneSegment.checkLaserCollision laserOnOne [oneSegment] 7 =
      (true, { oneSegment with segments := [] }, [oneSegment], 7 + 100) := by
  have hhit :
      (Sprite.create headTex (⟨100, 200⟩ : Vector2 ℚ)).getGlobalBounds.intersects laserOnOne
        = true := by
    norm_num [Sprite.create, Sprite.getGlobalBounds, FloatRect.intersects, laserOnOne, headTex]
  exact ⟨oneSegment_segments, hhit,
    (checkLaserCollision_single_segment oneSegment _ laserOnOne [oneSegment] 7
      oneSegment_segments hhit).1⟩

/-! ## Score -/

/-- The score after `ECE_Centipede::checkLaserCollision`, by the index of the first overlapping
segment. -/
theorem checkLaserCollision_score (self : ECE_Centipede K) (laserBounds : FloatRect K)
    (centipedes : List (ECE_Centipede K)) (score : Int) :
    (self.checkLaserCollision laserBounds centipedes score).2.2.2 =
      match firstOverlap laserBounds self.segments with
      | none => score
      | some i => if i = 0 then score + 100 else score + 10 := by
  unfold checkLaserCollision
  cases firstOverlap laserBounds self.segments with
  | none => rfl
  | some i =>
    simp only
    split
    · rfl
    · split <;> rfl

/-- C5: the score change of a projectile-hit operation. `ECE_Centipede::checkLaserCollision`
adds exactly 100 when the first overlapping segment is index 0, exactly 10 when it is at an
index greater than 0 (tail removal or split) and nothing when no segment overlaps;
`Spider::checkLaserCollision` adds exactly 300 when it returns true and nothing when it
returns false. -/
theorem projectile_hit_score_change (self : ECE_Centipede K) (spider : Spider K)
    (laserBounds : FloatRect K) (centipedes : List (ECE_Centipede K)) (clock now : K)
    (score : Int) :
    (firstOverlap laserBounds self.segments = some 0 →
      (self.checkLaserCollision laserBounds centipedes score).2.2.2 = score + 100) ∧
    (∀ i, firstOverlap laserBounds self.segments = some i → 0 < i →
      (self.checkLaserCollision laserBounds centipedes score).2.2.2 = score + 10) ∧
    ((∀ seg ∈ self.segments, seg.getGlobalBounds.intersects laserBounds = false) →
      (self.checkLaserCollision laserBounds centipedes score).2.2.2 = score) ∧
    ((spider.checkLaserCollision laserBounds clock now score).1 = true →
      (spider.checkLaserCollision laserBounds clock now score).2.2.2 = score + 300) ∧
    ((spider.checkLaserCollision laserBounds clock now score).1 = false →
      (spider.checkLaserCollision laserBounds clock now score).2.2.2 = score) := by
  refine ⟨?_, ?_, ?_, ?_, ?_⟩
  · intro h
    rw [checkLaserCollision_score, h]; rfl
  · intro i h hi
    rw [checkLaserCollision_score, h]
    simp only
    rw [if_neg (by omega)]
  · intro h
    rw [checkLaserCollision_score, (firstOverlap_eq_none_iff laserBounds self.segments).2 h]
  · unfold Spider.checkLaserCollision
    split
    · intro _; rfl
    · intro h; simp at h
  · unfold Spider.checkLaserCollision
    split
    · intro h; simp at h
    · intro _; rfl

/-- The five cases of C5 at concrete inputs: a head hit, an interior hit, a miss, a spider
hit and a spider miss. -/
theorem projectile_hit_score_change_witness :
    (oneSegment.checkLaserCollision laserOnOne [] 0).2.2.2 = 0 + 100 ∧
    (threeSegments.checkLaserCollision laserOnMiddle [] 0).2.2.2 = 0 + 10 ∧
    (oneSegment.checkLaserCollision laserOnMiddle [] 0).2.2.2 = 0 ∧
    (liveSpider.checkLaserCollision ⟨310, 310, 4, 10⟩ 0 3 0).2.2.2 = 0 + 300 ∧
    (liveSpider.checkLaserCollision laserOnOne 0 3 0).2.2.2 = 0 := by
  have h1 : firstOverlap laserOnOne oneSegment.segments = some 0 := by
    norm_num [firstOverlap, oneSegment, laserOnOne, ECE_Centipede.create, Sprite.create,
      Sprite.getGlobalBounds, FloatRect.intersects, headTex]
  have h2 : firstOverlap laserOnMiddle threeSegments.segments = some 1 := by
    norm_num [firstOverlap, threeSegments, laserOnMiddle, ECE_Centipede.create, Sprite.create,
      Sprite.getGlobalBounds, FloatRect.intersects, List.range, List.range.loop, headTex, bodyTex]
  have h3 : ∀ seg ∈ oneSegment.segments,
      seg.getGlobalBounds.intersects laserOnMiddle = false := by
    norm_num [oneSegment, laserOnMiddle, ECE_Centipede.create, Sprite.create,
      Sprite.getGlobalBounds, FloatRect.intersects, headTex]
  have h4 : (liveSpider.checkLaserCollision ⟨310, 310, 4, 10⟩ 0 3 0).1 = true := by
    norm_num [liveSpider, Spider.checkLaserCollision, Sprite.create, Sprite.getGlobalBounds,
      FloatRect.intersects]
  have h5 : (liveSpider.checkLaserCollision laserOnOne 0 3 0).1 = false := by
    norm_num [liveSpider, Spider.checkLaserCollision, Sprite.create, Sprite.getGlobalBounds,
      FloatRect.intersects, laserOnOne]
  exact ⟨(projectile_hit_score_change oneSegment liveSpider laserOnOne [] 0 3 0).1 h1,
    (projectile_hit_score_change threeSegments liveSpider laserOnMiddle [] 0 3 0).2.1 1 h2
      (by decide),
    (projectile_hit_score_change oneSegment liveSpider laserOnMiddle [] 0 3 0).2.2.1 h3,
    (projectile_hit_score_change oneSegment liveSpider ⟨310, 310, 4, 10⟩ [] 0 3 0).2.2.2.1 h4,
    (projectile_hit_score_change oneSegment liveSpider laserOnOne [] 0 3 0).2.2.2.2 h5⟩

/-! ## The laser-centipede phase -/

theorem laserVsCentipedes_unfold (laserBounds : FloatRect K)
    (centipedes : List (ECE_Centipede K)) (idx : Nat) (score : Int) :
    laserVsCentipedes laserBounds centipedes idx score =
      if h : idx < centipedes.length then
        if ((centipedes.get ⟨idx, h⟩).checkLaserCollision laserBounds centipedes score).1
            = true then
          ((((centipedes.get ⟨idx, h⟩).checkLaserCollision laserBounds centipedes score).2.2.1.set
              idx ((centipedes.get ⟨idx, h⟩).checkLaserCollision laserBounds centipedes
                score).2.1).eraseIdx idx,
            ((centipedes.get ⟨idx, h⟩).checkLaserCollision laserBounds centipedes score).2.2.2,
            true)
        else
          laserVsCentipedes laserBounds
            (((centipedes.get ⟨idx, h⟩).checkLaserCollision laserBounds centipedes
                score).2.2.1.set idx
              ((centipedes.get ⟨idx, h⟩).checkLaserCollision laserBounds centipedes score).2.1)
            (idx + 1)
            ((centipedes.get ⟨idx, h⟩).checkLaserCollision laserBounds centipedes score).2.2.2
      else (centipedes, score, false) := by
  rw [laserVsCentipedes]

/-- C1 fails on the code: a laser that overlaps the head of a creature of two segments. The
head is removed and 100 points are scored, but `checkLaserCollision` returns false because a
segment is left, the caller only sets `laserHit` when it returns true, and the laser is still
in the collection when the phase ends. -/
theorem laser_survives_head_hit :
    (twoSegments.segments.get? 0).map
        (fun seg => seg.getGlobalBounds.intersects laserOnHead.getGlobalBounds) = some true ∧
    lasersVsCentipedes [laserOnHead] [twoSegments] 0 =
      ([laserOnHead], [{ twoSegments with segments := twoSegments.segments.eraseIdx 0 }], 100) := by
  constructor
  · norm_num [twoSegments, laserOnHead, ECE_Centipede.create, ECE_LaserBlast.create,
      ECE_LaserBlast.getGlobalBounds, Sprite.create, Sprite.getGlobalBounds,
      FloatRect.intersects, headTex, laserTex]
  · have hfirst : firstOverlap laserOnHead.getGlobalBounds twoSegments.segments = some 0 := by
      norm_num [firstOverlap, twoSegments, laserOnHead, ECE_Centipede.create,
        ECE_LaserBlast.create, ECE_LaserBlast.getGlobalBounds, Sprite.create,
        Sprite.getGlobalBounds, FloatRect.intersects, headTex, laserTex]
    have hsegs : twoSegments.segments.eraseIdx 0 = [Sprite.create bodyTex ⟨0, 30⟩] := by
      norm_num [twoSegments, ECE_Centipede.create, List.range, List.range.loop]
    have hcheck : twoSegments.checkLaserCollision laserOnHead.getGlobalBounds [twoSegments] 0 =
        (false, { twoSegments with segments := twoSegments.segments.eraseIdx 0 },
          [twoSegments], 100) := by
      unfold ECE_Centipede.checkLaserCollision
      simp only [hfirst]
      simp [hsegs]
    simp only [lasersVsCentipedes]
    rw [laserVsCentipedes_unfold]
    simp only [List.length_singleton, Nat.lt_one_iff, dite_true, List.get_eq_getElem,
      List.getElem_cons_zero, hcheck]
    rw [laserVsCentipedes_unfold]
    simp

/-! ## Creatures keep a segment -/

theorem moveVertically_ok (c : ECE_Centipede K) (p : Vector2 K) (head : Sprite K)
    (rest : List (Sprite K)) (hc : c.segments = head :: rest) :
    ∃ c1, c.moveVertically p = .ok c1 ∧
      c1.segments =
        head.setPosition
          ⟨p.x, if c.moveDirectionDown then p.y + (Y_DISPLACEMENT : K)
            else p.y - (Y_DISPLACEMENT : K)⟩ :: rest ∧
      c1.followDistance = c.followDistance ∧ c1.direction = c.direction ∧
      c1.leftBound = c.leftBound ∧ c1.rightBound = c.rightBound ∧
      c1.lowerBound = c.lowerBound := by
  obtain ⟨segs, ht, bt, fd, dir, down, lb, rb, lob⟩ := c
  dsimp only at hc
  subst hc
  unfold moveVertically
  refine ⟨_, rfl, ?_⟩
  dsimp only
  cases down <;> split_ifs <;> simp

theorem checkBounds_sense (c1 : ECE_Centipede K) (p q : Prop) [Decidable p] [Decidable q] :
    ∃ c2, (if p then Except.ok { c1 with moveDirectionDown := true }
        else if q then Except.ok { c1 with moveDirectionDown := false }
        else (Except.ok c1 : Except Fault (ECE_Centipede K))) = .ok c2 ∧
      c2.segments = c1.segments ∧ c2.followDistance = c1.followDistance := by
  split_ifs <;> exact ⟨_, rfl, rfl, rfl⟩

/-- The head after `checkBounds`: displaced by the vertical step when it is at the left or the
right edge, left alone otherwise. -/
theorem checkBounds_ok (c : ECE_Centipede K) (head : Sprite K) (rest : List (Sprite K))
    (hc : c.segments = head :: rest) :
    ∃ c1, c.checkBounds = .ok c1 ∧
      c1.segments =
        (if head.position.x ≤ c.leftBound ∨ head.position.x + 27 ≥ c.rightBound then
          head.setPosition
            ⟨head.position.x, if c.moveDirectionDown then head.position.y + (Y_DISPLACEMENT : K)
              else head.position.y - (Y_DISPLACEMENT : K)⟩
        else head) :: rest ∧
      c1.followDistance = c.followDistance := by
  obtain ⟨segs, ht, bt, fd, dir, down, lb, rb, lob⟩ := c
  dsimp only at hc
  subst hc
  unfold checkBounds
  dsimp only [Sprite.getPosition]
  by_cases h1 : head.position.x ≤ lb
  · obtain ⟨c1, hm, hs, hf, -⟩ :=
      moveVertically_ok (⟨head :: rest, ht, bt, fd, ⟨1, 0⟩, down, lb, rb, lob⟩ : ECE_Centipede K)
        head.position head rest rfl
    rw [if_pos h1, hm]
    dsimp only at hs hf ⊢
    rw [if_pos (Or.inl h1)]
    obtain ⟨c2, h, hseg, hfd⟩ := checkBounds_sense c1 (head.position.y ≤ 0)
      (head.position.y + (Y_DISPLACEMENT : K) + 27 > c1.lowerBound)
    exact ⟨c2, h, by rw [hseg, hs], by rw [hfd, hf]⟩
  · by_cases h2 : head.position.x + 27 ≥ rb
    · obtain ⟨c1, hm, hs, hf, -⟩ :=
        moveVertically_ok (⟨head :: rest, ht, bt, fd, ⟨-1, 0⟩, down, lb, rb, lob⟩ : ECE_Centipede K)
          head.position head rest rfl
      rw [if_neg h1, if_pos h2, hm]
      dsimp only at hs hf ⊢
      rw [if_pos (Or.inr h2)]
      obtain ⟨c2, h, hseg, hfd⟩ := checkBounds_sense c1 (head.position.y ≤ 0)
        (head.position.y + (Y_DISPLACEMENT : K) + 27 > c1.lowerBound)
      exact ⟨c2, h, by rw [hseg, hs], by rw [hfd, hf]⟩
    · rw [if_neg h1, if_neg h2]
      dsimp only
      rw [if_neg (not_or.2 ⟨h1, h2⟩)]
      exact checkBounds_sense _ _ _

theorem follow_length (sqrt : K → K) (fd dt : K) :
    ∀ (prev : Sprite K) (segs : List (Sprite K)),
      (follow sqrt fd dt prev segs).length = segs.length
  | _, [] => rfl
  | prev, seg :: rest => by
    simp only [follow, List.length_cons, follow_length sqrt fd dt _ rest]

/-- The result of `update` on a creature with a head: the head is moved along the direction and
passed through the edge check, the other segments follow. -/
theorem update_ok (sqrt : K → K) (c : ECE_Centipede K) (dt : K) (head : Sprite K)
    (rest : List (Sprite K)) (hc : c.segments = head :: rest) :
    ∃ c1 head2, c.update sqrt dt = .ok c1 ∧
      c1.segments = head2 :: follow sqrt c.followDistance dt head2 rest ∧
      head2 =
        (if (head.move ((c.direction.scale CENTIPEDE_SPEED).scale dt)).position.x ≤ c.leftBound ∨
            (head.move ((c.direction.scale CENTIPEDE_SPEED).scale dt)).position.x + 27
              ≥ c.rightBound then
          (head.move ((c.direction.scale CENTIPEDE_SPEED).scale dt)).setPosition
            ⟨(head.move ((c.direction.scale CENTIPEDE_SPEED).scale dt)).position.x,
              if c.moveDirectionDown then
                (head.move ((c.direction.scale CENTIPEDE_SPEED).scale dt)).position.y
                  + (Y_DISPLACEMENT : K)
              else
                (head.move ((c.direction.scale CENTIPEDE_SPEED).scale dt)).position.y
                  - (Y_DISPLACEMENT : K)⟩
        else head.move ((c.direction.scale CENTIPEDE_SPEED).scale dt)) := by
  obtain ⟨segs, ht, bt, fd, dir, down, lb, rb, lob⟩ := c
  dsimp only at hc
  subst hc
  obtain ⟨c2, hb, hs, hf⟩ :=
    checkBounds_ok
      (⟨head.move ((dir.scale CENTIPEDE_SPEED).scale dt) :: rest, ht, bt, fd, dir, down, lb, rb,
        lob⟩ : ECE_Centipede K)
      (head.move ((dir.scale CENTIPEDE_SPEED).scale dt)) rest rfl
  unfold update
  dsimp only
  rw [hb]
  dsimp only
  rw [hs]
  dsimp only at hf ⊢
  exact ⟨_, _, rfl, by rw [hf], rfl⟩

theorem update_keeps_segments (sqrt : K → K) (c : ECE_Centipede K) (dt : K)
    (hc : c.segments ≠ []) :
    ∃ c1, c.update sqrt dt = .ok c1 ∧ c1.segments.length = c.segments.length := by
  cases hs : c.segments with
  | nil => exact absurd hs hc
  | cons head rest =>
    obtain ⟨c1, head2, h, hseg, -⟩ := update_ok sqrt c dt head rest hs
    exact ⟨c1, h, by rw [hseg]; simp [follow_length]⟩

theorem updateCentipedes_ok (sqrt : K → K) (dt : K) :
    ∀ (cs : List (ECE_Centipede K)), NonEmptyCreatures cs →
      ∃ cs1, updateCentipedes sqrt dt cs = .ok cs1 ∧ NonEmptyCreatures cs1 ∧
        cs1.length = cs.length
  | [], _ => ⟨[], rfl, fun _ h => absurd h (List.not_mem_nil _), rfl⟩
  | c :: cs, hinv => by
    obtain ⟨c1, hu, hlen⟩ := update_keeps_segments sqrt c dt (hinv c (List.mem_cons_self _ _))
    obtain ⟨cs1, hcs, hinv1, hl⟩ :=
      updateCentipedes_ok sqrt dt cs (fun d hd => hinv d (List.mem_cons_of_mem _ hd))
    have hne : c1.segments ≠ [] := by
      intro h
      rw [h] at hlen
      exact hinv c (List.mem_cons_self _ _) (List.length_eq_zero.1 hlen.symm)
    have hemp : c1.segments.isEmpty = false := by
      cases hs : c1.segments with
      | nil => exact absurd hs hne
      | cons a l => rfl
    refine ⟨c1 :: cs1, ?_, ?_, by simp [hl]⟩
    · simp only [updateCentipedes, hu, hcs, hemp]
      rfl
    · intro d hd
      rcases List.mem_cons.1 hd with rfl | hd
      · exact hne
      · exact hinv1 d hd

theorem checkMushroomCollision_ok (c : ECE_Centipede K) (hc : c.segments ≠ []) :
    ∀ (mushrooms : List (Mushroom K)),
      ∃ c1, c.checkMushroomCollision mushrooms = .ok c1 ∧
        c1.segments.length = c.segments.length
  | [] => ⟨c, rfl, rfl⟩
  | m :: ms => by
    obtain ⟨c1, h1, h2⟩ := checkMushroomCollision_ok c hc ms
    obtain ⟨segs, ht, bt, fd, dir, down, lb, rb, lob⟩ := c
    cases segs with
    | nil => exact absurd rfl hc
    | cons head rest =>
      unfold checkMushroomCollision
      dsimp only
      split_ifs with hhit
      · obtain ⟨c2, hm, hseg, -⟩ :=
          moveVertically_ok
            (⟨head :: rest, ht, bt, fd, ⟨-dir.x, dir.y⟩, down, lb, rb, lob⟩ : ECE_Centipede K)
            head.getPosition head rest rfl
        exact ⟨c2, hm, by rw [hseg]; rfl⟩
      · exact ⟨c1, h1, h2⟩

theorem centipedesVsMushrooms_ok (mushrooms : List (Mushroom K)) :
    ∀ (cs : List (ECE_Centipede K)), NonEmptyCreatures cs →
      ∃ cs1, centipedesVsMushrooms mushrooms cs = .ok cs1 ∧ NonEmptyCreatures cs1
  | [], _ => ⟨[], rfl, fun _ h => absurd h (List.not_mem_nil _)⟩
  | c :: cs, hinv => by
    obtain ⟨c1, hu, hlen⟩ := checkMushroomCollision_ok c (hinv c (List.mem_cons_self _ _)) mushrooms
    obtain ⟨cs1, hcs, hinv1⟩ :=
      centipedesVsMushrooms_ok mushrooms cs (fun d hd => hinv d (List.mem_cons_of_mem _ hd))
    refine ⟨c1 :: cs1, ?_, ?_⟩
    · simp only [centipedesVsMushrooms, hu, hcs]
    · intro d hd
      rcases List.mem_cons.1 hd with rfl | hd
      · intro h
        rw [h] at hlen
        exact hinv c (List.mem_cons_self _ _) (List.length_eq_zero.1 hlen.symm)
      · exact hinv1 d hd

theorem eraseIdx_set_same {α : Type} (a : α) :
    ∀ (l : List α) (i : Nat), (l.set i a).eraseIdx i = l.eraseIdx i
  | [], _ => rfl
  | _ :: _, 0 => rfl
  | x :: l, i + 1 => by
    simp only [List.set_cons_succ, List.eraseIdx_cons_succ, eraseIdx_set_same a l i]

theorem isEmpty_eq_false_iff {α : Type} (l : List α) : l.isEmpty = false ↔ l ≠ [] := by
  cases l <;> simp

/-- One call of `checkLaserCollision` on a creature with a segment: every creature of the
collection still has a segment, and so has the creature itself unless the call returns true. -/
theorem checkLaserCollision_nonempty (self : ECE_Centipede K) (laserBounds : FloatRect K)
    (centipedes : List (ECE_Centipede K)) (score : Int)
    (hself : self.segments ≠ []) (hinv : NonEmptyCreatures centipedes) :
    NonEmptyCreatures (self.checkLaserCollision laserBounds centipedes score).2.2.1 ∧
    ((self.checkLaserCollision laserBounds centipedes score).1 ≠ true →
      (self.checkLaserCollision laserBounds centipedes score).2.1.segments ≠ []) := by
  cases hfirst : firstOverlap laserBounds self.segments with
  | none =>
    unfold checkLaserCollision
    simp only [hfirst]
    exact ⟨hinv, fun _ => hself⟩
  | some i =>
    have hi := firstOverlap_lt laserBounds self.segments i hfirst
    by_cases h0 : i = 0
    · unfold checkLaserCollision
      simp only [hfirst, if_pos h0]
      refine ⟨hinv, fun h => ?_⟩
      exact (isEmpty_eq_false_iff _).1 (by simpa using h)
    · by_cases hl : i = self.segments.length - 1
      · unfold checkLaserCollision
        simp only [hfirst, if_neg h0, if_pos hl]
        refine ⟨hinv, fun h => ?_⟩
        exact (isEmpty_eq_false_iff _).1 (by simpa using h)
      · rw [checkLaserCollision_interior self laserBounds centipedes score i hfirst
          (by omega) (by omega)]
        refine ⟨?_, fun h => absurd rfl h⟩
        intro c hc
        rcases List.mem_append.1 hc with hc | hc
        · exact hinv c hc
        · simp only [List.mem_cons, List.mem_singleton, List.not_mem_nil, or_false] at hc
          rcases hc with rfl | rfl
          · simp only [splitOff, ne_eq, setFirstTexture_eq_nil, List.take_eq_nil_iff, not_or]
            exact ⟨h0, hself⟩
          · simp only [splitOff, ne_eq, setFirstTexture_eq_nil, List.drop_eq_nil_iff]
            omega

theorem laserVsCentipedes_nonempty (laserBounds : FloatRect K) :
    ∀ (centipedes : List (ECE_Centipede K)) (idx : Nat) (score : Int),
      NonEmptyCreatures centipedes →
      NonEmptyCreatures (laserVsCentipedes laserBounds centipedes idx score).1 := by
  intro centipedes idx score
  induction centipedes, idx, score using laserVsCentipedes.induct laserBounds with
  | case1 centipedes idx score h r hr =>
    intro hinv
    have hself : (centipedes.get ⟨idx, h⟩).segments ≠ [] := hinv _ (List.get_mem _ _ _)
    have hk := checkLaserCollision_nonempty (centipedes.get ⟨idx, h⟩) laserBounds centipedes
      score hself hinv
    rw [laserVsCentipedes_unfold, dif_pos h, if_pos hr]
    dsimp only
    rw [eraseIdx_set_same]
    intro c hc
    exact hk.1 c (List.mem_of_mem_eraseIdx hc)
  | case2 centipedes idx score h r hr ih =>
    intro hinv
    have hself : (centipedes.get ⟨idx, h⟩).segments ≠ [] := hinv _ (List.get_mem _ _ _)
    have hk := checkLaserCollision_nonempty (centipedes.get ⟨idx, h⟩) laserBounds centipedes
      score hself hinv
    rw [laserVsCentipedes_unfold, dif_pos h, if_neg hr]
    apply ih
    intro c hc
    rcases List.mem_or_eq_of_mem_set hc with hc | rfl
    · exact hk.1 c hc
    · exact hk.2 hr
  | case3 centipedes idx score h =>
    intro hinv
    rw [laserVsCentipedes_unfold, dif_neg h]
    exact hinv

theorem lasersVsCentipedes_nonempty :
    ∀ (lasers : List (ECE_LaserBlast K)) (centipedes : List (ECE_Centipede K)) (score : Int),
      NonEmptyCreatures centipedes →
      NonEmptyCreatures (lasersVsCentipedes lasers centipedes score).2.1
  | [], _, _, hinv => hinv
  | l :: ls, centipedes, score, hinv => by
    simp only [lasersVsCentipedes]
    exact lasersVsCentipedes_nonempty ls _ _
      (laserVsCentipedes_nonempty l.getGlobalBounds centipedes 0 score hinv)

/-! ## The phases of a tick and the creature collection -/

theorem phaseUpdateCentipedes_nonempty (sqrt : K → K) (inp : Input K) (g : Game K)
    (hinv : NonEmptyCreatures g.centipedes) :
    ∃ g1, phaseUpdateCentipedes sqrt inp g = .ok g1 ∧ NonEmptyCreatures g1.centipedes ∧
      g1.centipedes.length = g.centipedes.length ∧
      g1 = { g with centipedes := g1.centipedes } := by
  obtain ⟨cs, h, hne, hlen⟩ := updateCentipedes_ok sqrt inp.deltaTime g.centipedes hinv
  exact ⟨{ g with centipedes := cs }, by simp only [phaseUpdateCentipedes, h], hne, hlen, rfl⟩

theorem phaseCentipedesVsMushrooms_nonempty (g : Game K)
    (hinv : NonEmptyCreatures g.centipedes) :
    ∃ g1, phaseCentipedesVsMushrooms g = .ok g1 ∧ NonEmptyCreatures g1.centipedes ∧
      g1 = { g with centipedes := g1.centipedes } := by
  obtain ⟨cs, h, hne⟩ := centipedesVsMushrooms_ok g.mushrooms g.centipedes hinv
  exact ⟨{ g with centipedes := cs }, by simp only [phaseCentipedesVsMushrooms, h], hne, rfl⟩

theorem phaseWinCheck_centipedes (g : Game K) : (phaseWinCheck g).centipedes = g.centipedes := by
  unfold phaseWinCheck; split_ifs <;> rfl

theorem phaseRespawnSpider_centipedes (inp : Input K) (g : Game K) :
    (phaseRespawnSpider inp g).centipedes = g.centipedes := by
  unfold phaseRespawnSpider; split_ifs <;> rfl

theorem phaseShoot_centipedes (assets : Assets) (inp : Input K) (p : Vector2 K) (g : Game K) :
    (phaseShoot assets inp p g).centipedes = g.centipedes := by
  unfold phaseShoot; split_ifs <;> rfl

theorem phaseLasersVsCentipedes_nonempty (g : Game K) (hinv : NonEmptyCreatures g.centipedes) :
    NonEmptyCreatures (phaseLasersVsCentipedes g).centipedes :=
  lasersVsCentipedes_nonempty g.lasers g.centipedes g.score hinv

theorem tickMiddle_nonempty (assets : Assets) (inp : Input K) (g : Game K)
    (hinv : NonEmptyCreatures g.centipedes) :
    ∃ g1, tickMiddle assets inp g = .ok g1 ∧ NonEmptyCreatures g1.centipedes := by
  obtain ⟨g3, h3, hne3, -⟩ := phaseCentipedesVsMushrooms_nonempty (phaseWinCheck g)
    (by rw [phaseWinCheck_centipedes]; exact hinv)
  have hm : tickMiddle assets inp g = .ok (phaseLasersVsSpider inp (phaseLasersVsCentipedes
      (phaseLasersVsMushrooms assets (phaseUpdateLasers inp
        (phaseShoot assets inp (phaseUpdateSpider inp (phaseRespawnSpider inp g3)).spaceship.getPosition
          (phaseMoveShip assets inp (phaseUpdateSpider inp (phaseRespawnSpider inp g3)))))))) := by
    simp only [tickMiddle, h3]
  refine ⟨_, hm, ?_⟩
  show NonEmptyCreatures (phaseLasersVsCentipedes _).centipedes
  apply phaseLasersVsCentipedes_nonempty
  show NonEmptyCreatures (phaseShoot _ _ _ _).centipedes
  rw [phaseShoot_centipedes]
  show NonEmptyCreatures (phaseRespawnSpider inp g3).centipedes
  rw [phaseRespawnSpider_centipedes]
  exact hne3

/-- Either spaceship phase: the creatures are not touched, and the only fault is a missing
life icon. -/
theorem centipedesVsShip_centipedes :
    ∀ (cs : List (ECE_Centipede K)) (g : Game K),
      centipedesVsShip cs g ≠ .error .emptyCreature ∧
      ∀ g1, centipedesVsShip cs g = .ok g1 → g1.centipedes = g.centipedes
  | [], g => ⟨by simp [centipedesVsShip], fun g1 h => by
      simp only [centipedesVsShip, Except.ok.injEq] at h; rw [← h]⟩
  | c :: cs, g => by
    unfold centipedesVsShip
    split_ifs with hhit
    · cases hl : g.livesSprites with
      | nil => exact ⟨by simp, fun g1 h => by simp at h⟩
      | cons a l =>
        refine ⟨by simp, fun g1 h => ?_⟩
        simp only [Except.ok.injEq] at h
        rw [← h]
    · exact centipedesVsShip_centipedes cs g

theorem phaseSpiderVsShip_centipedes (g : Game K) :
    phaseSpiderVsShip g ≠ .error .emptyCreature ∧
    ∀ g1, phaseSpiderVsShip g = .ok g1 → g1.centipedes = g.centipedes := by
  unfold phaseSpiderVsShip
  split_ifs
  · cases hl : g.livesSprites with
    | nil => exact ⟨by simp, fun g1 h => by simp at h⟩
    | cons a l =>
      refine ⟨by simp, fun g1 h => ?_⟩
      simp only [Except.ok.injEq] at h
      rw [← h]
  · exact ⟨by simp, fun g1 h => by simp only [Except.ok.injEq] at h; rw [← h]⟩
  · exact ⟨by simp, fun g1 h => by simp only [Except.ok.injEq] at h; rw [← h]⟩

theorem tickShip_centipedes (g : Game K) :
    tickShip g ≠ .error .emptyCreature ∧
    ∀ g1, tickShip g = .ok g1 → g1.centipedes = g.centipedes := by
  unfold tickShip phaseCentipedesVsShip
  have h1 := centipedesVsShip_centipedes g.centipedes g
  cases hc : centipedesVsShip g.centipedes g with
  | error e =>
    refine ⟨?_, fun g1 h => by simp at h⟩
    intro h
    simp only [Except.error.injEq] at h
    rw [hc, h] at h1
    exact h1.1 rfl
  | ok g2 =>
    have h2 := phaseSpiderVsShip_centipedes g2
    refine ⟨h2.1, fun g1 h => ?_⟩
    rw [h2.2 g1 h, h1.2 g2 hc]

theorem tick_nonempty (assets : Assets) (sqrt : K → K) (g : Game K) (inp : Input K)
    (hinv : NonEmptyCreatures g.centipedes) :
    tick assets sqrt g inp ≠ .error .emptyCreature ∧
    ∀ g1, tick assets sqrt g inp = .ok g1 → NonEmptyCreatures g1.centipedes := by
  unfold tick
  split_ifs
  · obtain ⟨g1, h1, hne1, -⟩ := phaseUpdateCentipedes_nonempty sqrt inp g hinv
    obtain ⟨g2, h2, hne2⟩ := tickMiddle_nonempty assets inp g1 hne1
    simp only [h1, h2]
    have h3 := tickShip_centipedes g2
    exact ⟨h3.1, fun g3 h => by rw [h3.2 g3 h]; exact hne2⟩
  · exact ⟨by simp, fun g1 h => by simp only [Except.ok.injEq] at h; rw [← h]; exact hinv⟩

theorem run_nonempty (assets : Assets) (sqrt : K → K) :
    ∀ (inps : List (Input K)) (g : Game K), NonEmptyCreatures g.centipedes →
      run assets sqrt g inps ≠ .error .emptyCreature ∧
      ∀ g1, run assets sqrt g inps = .ok g1 → NonEmptyCreatures g1.centipedes
  | [], g, hinv =>
    ⟨by simp [run], fun g1 h => by simp only [run, Except.ok.injEq] at h; rw [← h]; exact hinv⟩
  | inp :: inps, g, hinv => by
    have ht := tick_nonempty assets sqrt g inp hinv
    unfold run
    cases hc : tick assets sqrt g inp with
    | error e =>
      refine ⟨?_, fun g1 h => by simp at h⟩
      intro h
      simp only [Except.error.injEq] at h
      rw [hc, h] at ht
      exact ht.1 rfl
    | ok g2 => exact run_nonempty assets sqrt inps g2 (ht.2 g2 hc)

/-- C3: non-emptiness is an invariant of the creature collection. From a state in which every
creature has a segment: the advance phase and the creature-mushroom phase run without reading
the head of a creature without segments, and every phase of the tick (each taken from any such
state) leaves every creature of the collection with a segment; so does the whole tick and any
sequence of ticks, which never read `segments[0]` of an empty creature. -/
theorem creatures_keep_a_segment (assets : Assets) (sqrt : K → K) (g : Game K) (inp : Input K)
    (hinv : NonEmptyCreatures g.centipedes) :
    (∃ g1, phaseUpdateCentipedes sqrt inp g = .ok g1 ∧ NonEmptyCreatures g1.centipedes) ∧
    NonEmptyCreatures (phaseWinCheck g).centipedes ∧
    (∃ g1, phaseCentipedesVsMushrooms g = .ok g1 ∧ NonEmptyCreatures g1.centipedes) ∧
    NonEmptyCreatures (phaseRespawnSpider inp g).centipedes ∧
    NonEmptyCreatures (phaseUpdateSpider inp g).centipedes ∧
    NonEmptyCreatures (phaseMoveShip assets inp g).centipedes ∧
    NonEmptyCreatures (phaseShoot assets inp g.spaceship.getPosition g).centipedes ∧
    NonEmptyCreatures (phaseUpdateLasers inp g).centipedes ∧
    NonEmptyCreatures (phaseLasersVsMushrooms assets g).centipedes ∧
    NonEmptyCreatures (phaseLasersVsCentipedes g).centipedes ∧
    NonEmptyCreatures (phaseLasersVsSpider inp g).centipedes ∧
    (phaseCentipedesVsShip g ≠ .error .emptyCreature ∧
      ∀ g1, phaseCentipedesVsShip g = .ok g1 → NonEmptyCreatures g1.centipedes) ∧
    (phaseSpiderVsShip g ≠ .error .emptyCreature ∧
      ∀ g1, phaseSpiderVsShip g = .ok g1 → NonEmptyCreatures g1.centipedes) ∧
    (tick assets sqrt g inp ≠ .error .emptyCreature ∧
      ∀ g1, tick assets sqrt g inp = .ok g1 → NonEmptyCreatures g1.centipedes) ∧
    ∀ inps : List (Input K),
      run assets sqrt g inps ≠ .error .emptyCreature ∧
      ∀ g1, run assets sqrt g inps = .ok g1 → NonEmptyCreatures g1.centipedes := by
  refine ⟨?_, ?_, ?_, ?_, hinv, hinv, ?_, hinv, hinv, ?_, hinv, ?_, ?_, ?_, ?_⟩
  · obtain ⟨g1, h, hne, -⟩ := phaseUpdateCentipedes_nonempty sqrt inp g hinv
    exact ⟨g1, h, hne⟩
  · rw [phaseWinCheck_centipedes]; exact hinv
  · obtain ⟨g1, h, hne, -⟩ := phaseCentipedesVsMushrooms_nonempty g hinv
    exact ⟨g1, h, hne⟩
  · rw [phaseRespawnSpider_centipedes]; exact hinv
  · rw [phaseShoot_centipedes]; exact hinv
  · exact phaseLasersVsCentipedes_nonempty g hinv
  · have h := centipedesVsShip_centipedes g.centipedes g
    exact ⟨h.1, fun g1 h1 => by rw [h.2 g1 h1]; exact hinv⟩
  · have h := phaseSpiderVsShip_centipedes g
    exact ⟨h.1, fun g1 h1 => by rw [h.2 g1 h1]; exact hinv⟩
  · exact tick_nonempty assets sqrt g inp hinv
  · exact fun inps => run_nonempty assets sqrt inps g hinv

theorem game0_nonempty : NonEmptyCreatures game0.centipedes := by
  simp [NonEmptyCreatures, game0, initialGame, ECE_Centipede.create]

/-- The invariant at the start of the game: the first tick, and any ticks after it, never read
the head of a creature without segments. -/
theorem creatures_keep_a_segment_witness :
    NonEmptyCreatures game0.centipedes ∧
    (∃ g1, phaseUpdateCentipedes ratSqrt (idle (1 / 100) (1 / 100)) game0 = .ok g1 ∧
      NonEmptyCreatures g1.centipedes) ∧
    tick assets0 ratSqrt game0 (idle (1 / 100) (1 / 100)) ≠ .error .emptyCreature ∧
    run assets0 ratSqrt game0 [idle (1 / 100) (1 / 100), idle (1 / 100) (2 / 100)]
      ≠ .error .emptyCreature :=
  ⟨game0_nonempty,
    (creatures_keep_a_segment assets0 ratSqrt game0 (idle (1 / 100) (1 / 100)) game0_nonempty).1,
    (creatures_keep_a_segment assets0 ratSqrt game0 (idle (1 / 100) (1 / 100))
      game0_nonempty).2.2.2.2.2.2.2.2.2.2.2.2.2.1.1,
    ((creatures_keep_a_segment assets0 ratSqrt game0 (idle (1 / 100) (1 / 100))
      game0_nonempty).2.2.2.2.2.2.2.2.2.2.2.2.2.2 _).1⟩

/-! ## The laser-mushroom phase -/

/-- One laser against the mushrooms: the mushrooms before the first overlapping one are passed
over, that one is damaged or removed, the ones behind it are not looked at. -/
theorem laserVsMushrooms_first (small : Texture) (laserBounds : FloatRect K)
    (m : Mushroom K) (post : List (Mushroom K)) (score : Int)
    (hm : laserBounds.intersects m.sprite.getGlobalBounds = true) :
    ∀ (pre : List (Mushroom K)),
      (∀ x ∈ pre, laserBounds.intersects x.sprite.getGlobalBounds = false) →
      laserVsMushrooms small laserBounds (pre ++ m :: post) score =
        if m.isSmall then (pre ++ post, score + 4, true)
        else (pre ++ m.damaged small :: post, score, true)
  | [], _ => by
    simp only [List.nil_append, laserVsMushrooms, hm, if_true]
    cases m.isSmall <;> rfl
  | x :: pre, hpre => by
    have hx : laserBounds.intersects x.sprite.getGlobalBounds = false :=
      hpre x (List.mem_cons_self _ _)
    have ih := laserVsMushrooms_first small laserBounds m post score hm pre
      (fun y hy => hpre y (List.mem_cons_of_mem _ hy))
    simp only [List.cons_append, laserVsMushrooms, hx, List.append_eq]
    rw [ih]
    cases m.isSmall <;> simp

/-- C6: in the laser-mushroom phase a laser that overlaps some mushroom affects only the first
overlapping mushroom `m` in collection order (`pre` holds the mushrooms before it, none of
which overlaps the laser) and is itself removed. If `m` is undamaged it stays in its place with
`isSmall = true` and the score is unchanged; if it is already damaged it is removed and the
score grows by exactly 4. Hence a first hit never removes a mushroom, and a second laser whose
first overlapping mushroom is the same one removes it. -/
theorem laser_mushroom_first_overlap_only (small : Texture) (l : ECE_LaserBlast K)
    (ls : List (ECE_LaserBlast K)) (pre post : List (Mushroom K)) (m : Mushroom K) (score : Int)
    (hpre : ∀ x ∈ pre, l.getGlobalBounds.intersects x.sprite.getGlobalBounds = false)
    (hm : l.getGlobalBounds.intersects m.sprite.getGlobalBounds = true) :
    (m.isSmall = false →
      laserVsMushrooms small l.getGlobalBounds (pre ++ m :: post) score =
          (pre ++ { m with sprite := m.sprite.setTexture small, isSmall := true } :: post,
            score, true) ∧
        lasersVsMushrooms small (l :: ls) (pre ++ m :: post) score =
          lasersVsMushrooms small ls
            (pre ++ { m with sprite := m.sprite.setTexture small, isSmall := true } :: post)
            score) ∧
    (m.isSmall = true →
      laserVsMushrooms small l.getGlobalBounds (pre ++ m :: post) score =
          (pre ++ post, score + 4, true) ∧
        lasersVsMushrooms small (l :: ls) (pre ++ m :: post) score =
          lasersVsMushrooms small ls (pre ++ post) (score + 4)) ∧
    (m.isSmall = false →
      ∀ l2 : ECE_LaserBlast K,
        (∀ x ∈ pre, l2.getGlobalBounds.intersects x.sprite.getGlobalBounds = false) →
        l2.getGlobalBounds.intersects m.sprite.getGlobalBounds = true →
        lasersVsMushrooms small [l, l2] (pre ++ m :: post) score = ([], pre ++ post, score + 4)) := by
  have h1 := laserVsMushrooms_first small l.getGlobalBounds m post score hm pre hpre
  refine ⟨fun hs => ?_, fun hs => ?_, fun hs l2 hpre2 hm2 => ?_⟩
  · rw [hs] at h1
    simp only [Bool.false_eq_true, if_false] at h1
    exact ⟨h1, by simp only [lasersVsMushrooms, h1, if_true]; rfl⟩
  · rw [hs] at h1
    simp only [if_true] at h1
    exact ⟨h1, by simp only [lasersVsMushrooms, h1, if_true]⟩
  · rw [hs] at h1
    simp only [Bool.false_eq_true, if_false] at h1
    have h2 := laserVsMushrooms_first small l2.getGlobalBounds (m.damaged small) post score
      (by simpa [Mushroom.damaged, Sprite.setTexture, Sprite.getGlobalBounds] using hm2) pre hpre2
    simp only [Mushroom.damaged, if_true] at h2
    simp only [Mushroom.damaged] at h1
    simp only [lasersVsMushrooms, h1, h2, if_true]

theorem laser_mushroom_first_overlap_only_witness :
    laserOnMushroom.getGlobalBounds.intersects mushroom0.sprite.getGlobalBounds = true ∧
    mushroom0.isSmall = false ∧
    lasersVsMushrooms assets0.mushroomSmallTexture [laserOnMushroom] ([] ++ mushroom0 :: []) 0 =
      lasersVsMushrooms assets0.mushroomSmallTexture []
        ([] ++ { mushroom0 with
                  sprite := mushroom0.sprite.setTexture assets0.mushroomSmallTexture,
                  isSmall := true } :: []) 0 ∧
    lasersVsMushrooms assets0.mushroomSmallTexture [laserOnMushroom, laserOnMushroom]
      ([] ++ mushroom0 :: []) 0 = ([], [] ++ [], 0 + 4) := by
  have hm : laserOnMushroom.getGlobalBounds.intersects mushroom0.sprite.getGlobalBounds
      = true := by
    norm_num [laserOnMushroom, mushroom0, Mushroom.create, ECE_LaserBlast.create,
      ECE_LaserBlast.getGlobalBounds, Sprite.create, Sprite.getGlobalBounds,
      FloatRect.intersects, assets0, laserTex]
  have hpre : ∀ x ∈ ([] : List (Mushroom ℚ)),
      laserOnMushroom.getGlobalBounds.intersects x.sprite.getGlobalBounds = false :=
    fun x hx => absurd hx (List.not_mem_nil x)
  exact ⟨hm, rfl,
    ((laser_mushroom_first_overlap_only assets0.mushroomSmallTexture laserOnMushroom [] [] []
      mushroom0 0 hpre hm).1 rfl).2,
    (laser_mushroom_first_overlap_only assets0.mushroomSmallTexture laserOnMushroom [] [] []
      mushroom0 0 hpre hm).2.2 rfl laserOnMushroom hpre hm⟩

/-! ## What the phases leave alone -/

theorem phaseCentipedesVsMushrooms_eq (g g1 : Game K)
    (h : phaseCentipedesVsMushrooms g = .ok g1) : g1 = { g with centipedes := g1.centipedes } := by
  unfold phaseCentipedesVsMushrooms at h
  cases hc : centipedesVsMushrooms g.mushrooms g.centipedes with
  | error e => rw [hc] at h; simp at h
  | ok cs =>
    rw [hc] at h
    simp only [Except.ok.injEq] at h
    rw [← h]

theorem phaseUpdateCentipedes_eq (sqrt : K → K) (inp : Input K) (g g1 : Game K)
    (h : phaseUpdateCentipedes sqrt inp g = .ok g1) :
    g1 = { g with centipedes := g1.centipedes } ∧
    updateCentipedes sqrt inp.deltaTime g.centipedes = .ok g1.centipedes := by
  unfold phaseUpdateCentipedes at h
  cases hc : updateCentipedes sqrt inp.deltaTime g.centipedes with
  | error e => rw [hc] at h; simp at h
  | ok cs =>
    rw [hc] at h
    simp only [Except.ok.injEq] at h
    rw [← h]
    exact ⟨rfl, rfl⟩

/-- The middle of a tick is the composition of its phases. -/
theorem tickMiddle_eq (assets : Assets) (inp : Input K) (g g1 : Game K)
    (h : tickMiddle assets inp g = .ok g1) :
    ∃ g3, phaseCentipedesVsMushrooms (phaseWinCheck g) = .ok g3 ∧
      g1 = phaseLasersVsSpider inp (phaseLasersVsCentipedes
        (phaseLasersVsMushrooms assets (phaseUpdateLasers inp
          (phaseShoot assets inp
            (phaseUpdateSpider inp (phaseRespawnSpider inp g3)).spaceship.getPosition
            (phaseMoveShip assets inp (phaseUpdateSpider inp (phaseRespawnSpider inp g3))))))) := by
  unfold tickMiddle at h
  cases hc : phaseCentipedesVsMushrooms (phaseWinCheck g) with
  | error e => rw [hc] at h; simp at h
  | ok g3 =>
    rw [hc] at h
    simp only [Except.ok.injEq] at h
    exact ⟨g3, rfl, h.symm⟩

theorem phaseRespawnSpider_frame (inp : Input K) (g : Game K) :
    (phaseRespawnSpider inp g).youWin = g.youWin ∧
    (phaseRespawnSpider inp g).gameOver = g.gameOver ∧
    (phaseRespawnSpider inp g).lives = g.lives ∧
    (phaseRespawnSpider inp g).livesSprites = g.livesSprites ∧
    (phaseRespawnSpider inp g).spiderRespawnClock = g.spiderRespawnClock := by
  unfold phaseRespawnSpider; split_ifs <;> exact ⟨rfl, rfl, rfl, rfl, rfl⟩

theorem phaseShoot_frame (assets : Assets) (inp : Input K) (p : Vector2 K) (g : Game K) :
    (phaseShoot assets inp p g).youWin = g.youWin ∧
    (phaseShoot assets inp p g).gameOver = g.gameOver ∧
    (phaseShoot assets inp p g).lives = g.lives ∧
    (phaseShoot assets inp p g).livesSprites = g.livesSprites ∧
    (phaseShoot assets inp p g).spiderRespawnClock = g.spiderRespawnClock ∧
    (phaseShoot assets inp p g).spider = g.spider := by
  unfold phaseShoot; split_ifs <;> exact ⟨rfl, rfl, rfl, rfl, rfl, rfl⟩

theorem phaseWinCheck_frame (g : Game K) :
    (phaseWinCheck g).youWin = (g.centipedes.isEmpty || g.youWin) ∧
    (phaseWinCheck g).gameOver = g.gameOver ∧
    (phaseWinCheck g).lives = g.lives ∧
    (phaseWinCheck g).livesSprites = g.livesSprites ∧
    (phaseWinCheck g).spiderRespawnClock = g.spiderRespawnClock ∧
    (phaseWinCheck g).spider = g.spider := by
  unfold phaseWinCheck
  split_ifs with h
  · exact ⟨by simp [h], rfl, rfl, rfl, rfl, rfl⟩
  · exact ⟨by simp [h], rfl, rfl, rfl, rfl, rfl⟩

/-- What the middle of a tick does not change: the lives, their icons and the game-over flag;
the won flag is the one the win check computed. -/
theorem tickMiddle_frame (assets : Assets) (inp : Input K) (g g1 : Game K)
    (h : tickMiddle assets inp g = .ok g1) :
    g1.youWin = (g.centipedes.isEmpty || g.youWin) ∧ g1.gameOver = g.gameOver ∧
    g1.lives = g.lives ∧ g1.livesSprites = g.livesSprites := by
  obtain ⟨g3, h3, rfl⟩ := tickMiddle_eq assets inp g g1 h
  have e3 := phaseCentipedesVsMushrooms_eq _ g3 h3
  have hw := phaseWinCheck_frame g
  have hr := phaseRespawnSpider_frame inp g3
  have hs := phaseShoot_frame assets inp
    (phaseUpdateSpider inp (phaseRespawnSpider inp g3)).spaceship.getPosition
    (phaseMoveShip assets inp (phaseUpdateSpider inp (phaseRespawnSpider inp g3)))
  have y3 : g3.youWin = (phaseWinCheck g).youWin := by rw [e3]
  have o3 : g3.gameOver = (phaseWinCheck g).gameOver := by rw [e3]
  have l3 : g3.lives = (phaseWinCheck g).lives := by rw [e3]
  have i3 : g3.livesSprites = (phaseWinCheck g).livesSprites := by rw [e3]
  refine ⟨?_, ?_, ?_, ?_⟩
  · show (phaseShoot _ _ _ _).youWin = _
    rw [hs.1]
    show (phaseRespawnSpider inp g3).youWin = _
    rw [hr.1, y3, hw.1]
  · show (phaseShoot _ _ _ _).gameOver = _
    rw [hs.2.1]
    show (phaseRespawnSpider inp g3).gameOver = _
    rw [hr.2.1, o3, hw.2.1]
  · show (phaseShoot _ _ _ _).lives = _
    rw [hs.2.2.1]
    show (phaseRespawnSpider inp g3).lives = _
    rw [hr.2.2.1, l3, hw.2.2.1]
  · show (phaseShoot _ _ _ _).livesSprites = _
    rw [hs.2.2.2.1]
    show (phaseRespawnSpider inp g3).livesSprites = _
    rw [hr.2.2.2.1, i3, hw.2.2.2.1]

/-! ## The spaceship phases -/

theorem centipedesVsShip_hit :
    ∀ (cs : List (ECE_Centipede K)) (g : Game K),
      (∃ c ∈ cs, c.checkSpaceshipCollision g.spaceship.getGlobalBounds = true) →
      g.livesSprites ≠ [] → centipedesVsShip cs g = .ok (loseLife g)
  | [], _, h, _ => by simp at h
  | c :: cs, g, h, hicons => by
    unfold centipedesVsShip
    split_ifs with hhit
    · cases hl : g.livesSprites with
      | nil => exact absurd hl hicons
      | cons a l => simp only [loseLife, hl]
    · apply centipedesVsShip_hit cs g _ hicons
      obtain ⟨d, hd, hdhit⟩ := h
      rcases List.mem_cons.1 hd with rfl | hd
      · exact absurd hdhit hhit
      · exact ⟨d, hd, hdhit⟩

theorem centipedesVsShip_miss :
    ∀ (cs : List (ECE_Centipede K)) (g : Game K),
      (∀ c ∈ cs, c.checkSpaceshipCollision g.spaceship.getGlobalBounds = false) →
      centipedesVsShip cs g = .ok g
  | [], _, _ => rfl
  | c :: cs, g, h => by
    unfold centipedesVsShip
    rw [if_neg (by simp [h c (List.mem_cons_self _ _)])]
    exact centipedesVsShip_miss cs g (fun d hd => h d (List.mem_cons_of_mem _ hd))

theorem centipedesVsShip_cases :
    ∀ (cs : List (ECE_Centipede K)) (g g1 : Game K),
      centipedesVsShip cs g = .ok g1 → g1 = g ∨ g1 = loseLife g
  | [], g, g1, h => by
    simp only [centipedesVsShip, Except.ok.injEq] at h
    exact Or.inl h.symm
  | c :: cs, g, g1, h => by
    unfold centipedesVsShip at h
    split_ifs at h with hhit
    · cases hl : g.livesSprites with
      | nil => rw [hl] at h; simp at h
      | cons a l =>
        rw [hl] at h
        simp only [Except.ok.injEq] at h
        right
        rw [← h]
        simp only [loseLife, hl]
    · exact centipedesVsShip_cases cs g g1 h

theorem phaseSpiderVsShip_cases (g g1 : Game K) (h : phaseSpiderVsShip g = .ok g1) :
    g1 = g ∨ (0 < g.lives ∧ g1 = loseLife g) := by
  unfold phaseSpiderVsShip at h
  split_ifs at h with h1 h2
  · cases hl : g.livesSprites with
    | nil => rw [hl] at h; simp at h
    | cons a l =>
      rw [hl] at h
      simp only [Except.ok.injEq] at h
      right
      refine ⟨h2, ?_⟩
      rw [← h]
      simp only [loseLife, hl]
  · simp only [Except.ok.injEq] at h
    exact Or.inl h.symm
  · simp only [Except.ok.injEq] at h
    exact Or.inl h.symm

theorem phaseSpiderVsShip_total (g : Game K) (hicons : 0 < g.lives → g.livesSprites ≠ []) :
    ∃ g1, phaseSpiderVsShip g = .ok g1 := by
  unfold phaseSpiderVsShip
  split_ifs with h1 h2
  · cases hl : g.livesSprites with
    | nil => exact absurd hl (hicons h2)
    | cons a l => exact ⟨_, rfl⟩
  · exact ⟨_, rfl⟩
  · exact ⟨_, rfl⟩

/-- What the two spaceship phases do not change. -/
theorem tickShip_frame (g g1 : Game K) (h : tickShip g = .ok g1) :
    g1.youWin = g.youWin ∧ g1.spider = g.spider ∧
    g1.spiderRespawnClock = g.spiderRespawnClock ∧ g1.score = g.score := by
  unfold tickShip phaseCentipedesVsShip at h
  cases hc : centipedesVsShip g.centipedes g with
  | error e => rw [hc] at h; simp at h
  | ok g2 =>
    rw [hc] at h
    dsimp only at h
    have e2 : g2.youWin = g.youWin ∧ g2.spider = g.spider ∧
        g2.spiderRespawnClock = g.spiderRespawnClock ∧ g2.score = g.score := by
      rcases centipedesVsShip_cases _ g g2 hc with rfl | rfl
      · exact ⟨rfl, rfl, rfl, rfl⟩
      · exact ⟨rfl, rfl, rfl, rfl⟩
    rcases phaseSpiderVsShip_cases g2 g1 h with rfl | ⟨-, rfl⟩
    · exact e2
    · exact e2

theorem update_error_of_nil (sqrt : K → K) (c : ECE_Centipede K) (dt : K)
    (hc : c.segments = []) : c.update sqrt dt = .error .emptyCreature := by
  unfold update
  rw [hc]

/-- The advance phase keeps the number of creatures whenever it runs without fault. -/
theorem updateCentipedes_length (sqrt : K → K) (dt : K) :
    ∀ (cs cs1 : List (ECE_Centipede K)),
      updateCentipedes sqrt dt cs = .ok cs1 → cs1.length = cs.length
  | [], cs1, h => by
    simp only [updateCentipedes, Except.ok.injEq] at h
    rw [← h]
  | c :: cs, cs1, h => by
    by_cases hc : c.segments = []
    · simp [updateCentipedes, update_error_of_nil sqrt c dt hc] at h
    · obtain ⟨c1, hu, hlen⟩ := update_keeps_segments sqrt c dt hc
      have hne : c1.segments.isEmpty = false := by
        rw [isEmpty_eq_false_iff]
        intro h0
        rw [h0] at hlen
        exact hc (List.length_eq_zero.1 hlen.symm)
      cases hr : updateCentipedes sqrt dt cs with
      | error e => simp [updateCentipedes, hu, hr] at h
      | ok cs2 =>
        simp only [updateCentipedes, hu, hr, hne] at h
        simp only [Bool.false_eq_true, if_false, Except.ok.injEq] at h
        rw [← h]
        simp [updateCentipedes_length sqrt dt cs cs2 hr]

/-! ## The win check -/

theorem laserVsCentipedes_nil (laserBounds : FloatRect K) (score : Int) :
    laserVsCentipedes laserBounds ([] : List (ECE_Centipede K)) 0 score = ([], score, false) := by
  rw [laserVsCentipedes_unfold]
  simp

theorem lasersVsCentipedes_nil :
    ∀ (lasers : List (ECE_LaserBlast K)) (score : Int),
      lasersVsCentipedes lasers ([] : List (ECE_Centipede K)) score = (lasers, [], score)
  | [], _ => rfl
  | l :: ls, score => by
    simp only [lasersVsCentipedes, laserVsCentipedes_nil, lasersVsCentipedes_nil ls score]
    simp

theorem phaseUpdateCentipedes_nil (sqrt : K → K) (inp : Input K) (g : Game K)
    (h : g.centipedes = []) : phaseUpdateCentipedes sqrt inp g = .ok g := by
  obtain ⟨cs, ms, ship, lives, icons, spider, lasers, lc, sc, score, over, win⟩ := g
  dsimp only at h
  subst h
  rfl

theorem tickMiddle_nil (assets : Assets) (inp : Input K) (g g1 : Game K)
    (h : g.centipedes = []) (hm : tickMiddle assets inp g = .ok g1) : g1.centipedes = [] := by
  obtain ⟨g3, h3, rfl⟩ := tickMiddle_eq assets inp g g1 hm
  have h3c : g3.centipedes = [] := by
    unfold phaseCentipedesVsMushrooms at h3
    rw [phaseWinCheck_centipedes, h] at h3
    simp only [centipedesVsMushrooms, Except.ok.injEq] at h3
    rw [← h3]
  show (lasersVsCentipedes _ (phaseShoot _ _ _ _).centipedes _).2.1 = []
  rw [phaseShoot_centipedes]
  show (lasersVsCentipedes _ (phaseRespawnSpider inp g3).centipedes _).2.1 = []
  rw [phaseRespawnSpider_centipedes, h3c, lasersVsCentipedes_nil]

theorem tick_of_won (assets : Assets) (sqrt : K → K) (w : Game K) (inp : Input K)
    (h : w.youWin = true) : tick assets sqrt w inp = .ok w := by
  unfold tick
  simp [h]

theorem run_of_won (assets : Assets) (sqrt : K → K) (w : Game K) (h : w.youWin = true) :
    ∀ (inps : List (Input K)), run assets sqrt w inps = .ok w
  | [] => rfl
  | inp :: inps => by
    simp only [run, tick_of_won assets sqrt w inp h]
    exact run_of_won assets sqrt w h inps

theorem tick_of_open (assets : Assets) (sqrt : K → K) (g : Game K) (inp : Input K)
    (hover : g.gameOver = false) (hwin : g.youWin = false) :
    tick assets sqrt g inp =
      match phaseUpdateCentipedes sqrt inp g with
      | .error e => .error e
      | .ok g1 =>
        match tickMiddle assets inp g1 with
        | .error e => .error e
        | .ok g2 => tickShip g2 := by
  unfold tick
  simp [hover, hwin]

/-- C7, as the code has it. The won flag is set by the win check that follows the advance
phase, so a tick that runs (the game neither won nor lost) ends with the won flag true exactly
when the creature collection is empty when that tick starts: the tick whose laser phase removes
the last creature ends with the flag false, and it is the next tick that sets it. In the tick
that sets the flag the advance phase has nothing to do and all later phases run as in any
other tick. Once the flag is set, no tick changes the state any more. -/
theorem win_flag_follows_empty_collection (assets : Assets) (sqrt : K → K) (g : Game K)
    (inp : Input K) (hover : g.gameOver = false) (hwin : g.youWin = false) :
    (∀ g1, tick assets sqrt g inp = .ok g1 → (g1.youWin = true ↔ g.centipedes = [])) ∧
    (g.centipedes = [] →
      tick assets sqrt g inp =
        match tickMiddle assets inp g with
        | .error e => .error e
        | .ok g2 => tickShip g2) ∧
    (g.centipedes = [] → (0 < g.lives → g.livesSprites ≠ []) →
      ∃ g1, tick assets sqrt g inp = .ok g1 ∧ g1.youWin = true) ∧
    (∀ (w : Game K) (inps : List (Input K)), w.youWin = true →
      run assets sqrt w inps = .ok w) := by
  have hopen := tick_of_open assets sqrt g inp hover hwin
  refine ⟨fun g1 h => ?_, fun hnil => ?_, fun hnil hicons => ?_,
    fun w inps hw => run_of_won assets sqrt w hw inps⟩
  · rw [hopen] at h
    cases ha : phaseUpdateCentipedes sqrt inp g with
    | error e => rw [ha] at h; simp at h
    | ok ga =>
      rw [ha] at h
      dsimp only at h
      cases hb : tickMiddle assets inp ga with
      | error e => rw [hb] at h; simp at h
      | ok gb =>
        rw [hb] at h
        dsimp only at h
        obtain ⟨ea, hu⟩ := phaseUpdateCentipedes_eq sqrt inp g ga ha
        have hlen := updateCentipedes_length sqrt inp.deltaTime _ _ hu
        have hwa : ga.youWin = false := by rw [ea]; exact hwin
        rw [(tickShip_frame gb g1 h).1, (tickMiddle_frame assets inp ga gb hb).1, hwa,
          Bool.or_false, List.isEmpty_iff, ← List.length_eq_zero, hlen, List.length_eq_zero]
  · rw [hopen, phaseUpdateCentipedes_nil sqrt inp g hnil]
  · rw [hopen, phaseUpdateCentipedes_nil sqrt inp g hnil]
    dsimp only
    obtain ⟨gb, hb, -⟩ := tickMiddle_nonempty assets inp g
      (by rw [hnil]; exact fun c hc => absurd hc (List.not_mem_nil c))
    rw [hb]
    dsimp only
    have hf := tickMiddle_frame assets inp g gb hb
    have hcb : gb.centipedes = [] := tickMiddle_nil assets inp g gb hnil hb
    have h1 : phaseCentipedesVsShip gb = .ok gb := by
      unfold phaseCentipedesVsShip
      rw [hcb]
      rfl
    obtain ⟨g1, h2⟩ := phaseSpiderVsShip_total gb (by rw [hf.2.2.1, hf.2.2.2]; exact hicons)
    have ht : tickShip gb = .ok g1 := by
      unfold tickShip
      rw [h1]
      exact h2
    refine ⟨g1, ht, ?_⟩
    rw [(tickShip_frame gb g1 ht).1, hf.1, hnil]
    rfl

/-! ## The spider and its respawn clock -/

theorem lasersVsSpider_dead (now : K) (spider : Spider K) (clock : K)
    (hdead : spider.isAlive = false) :
    ∀ (lasers : List (ECE_LaserBlast K)) (score : Int),
      lasersVsSpider now lasers spider clock score = (lasers, spider, clock, score)
  | [], _ => rfl
  | l :: ls, score => by
    have hc : spider.checkLaserCollision l.getGlobalBounds clock now score
        = (false, spider, clock, score) := by
      simp [Spider.checkLaserCollision, hdead]
    simp only [lasersVsSpider, hc, lasersVsSpider_dead now spider clock hdead ls score]
    simp

theorem phaseLasersVsSpider_dead (inp : Input K) (g : Game K)
    (hdead : g.spider.isAlive = false) : phaseLasersVsSpider inp g = g := by
  unfold phaseLasersVsSpider
  rw [lasersVsSpider_dead inp.now g.spider g.spiderRespawnClock hdead]

theorem phaseUpdateSpider_dead (inp : Input K) (g : Game K)
    (hdead : g.spider.isAlive = false) : phaseUpdateSpider inp g = g := by
  have hu : g.spider.update inp.deltaTime = g.spider := by
    simp [Spider.update, hdead]
  unfold phaseUpdateSpider
  simp only [hu, Spider.checkMushroomCollision, hdead]
  rfl

theorem phaseRespawnSpider_early (inp : Input K) (g : Game K)
    (h : inp.now - g.spiderRespawnClock < 5) : phaseRespawnSpider inp g = g := by
  unfold phaseRespawnSpider
  rw [if_neg]
  simp [not_le.2 h]

theorem phaseRespawnSpider_alive (inp : Input K) (g : Game K)
    (hdead : g.spider.isAlive = false) (h : 5 ≤ inp.now - g.spiderRespawnClock) :
    (phaseRespawnSpider inp g).spider.isAlive = true := by
  unfold phaseRespawnSpider
  rw [if_pos]
  · rfl
  · simp [Spider.getIsAlive, hdead, h]

theorem phaseMoveShip_idle (assets : Assets) (dt now : K) (g : Game K) :
    phaseMoveShip assets (idle dt now) g = g := by
  simp [phaseMoveShip, idle]

theorem phaseShoot_idle (assets : Assets) (dt now : K) (p : Vector2 K) (g : Game K) :
    phaseShoot assets (idle dt now) p g = g := by
  simp [phaseShoot, idle]

/-- The middle of a tick with a dead spider whose respawn is not due: the spider and its
clock are as before. -/
theorem tickMiddle_spider_dead (assets : Assets) (inp : Input K) (g g1 : Game K)
    (hdead : g.spider.isAlive = false) (hearly : inp.now - g.spiderRespawnClock < 5)
    (h : tickMiddle assets inp g = .ok g1) :
    g1.spider = g.spider ∧ g1.spiderRespawnClock = g.spiderRespawnClock := by
  obtain ⟨g3, h3, rfl⟩ := tickMiddle_eq assets inp g g1 h
  have e3 := phaseCentipedesVsMushrooms_eq _ g3 h3
  have hw := phaseWinCheck_frame g
  have s3 : g3.spider = g.spider := by rw [e3]; exact hw.2.2.2.2.2
  have c3 : g3.spiderRespawnClock = g.spiderRespawnClock := by rw [e3]; exact hw.2.2.2.2.1
  have hr : phaseRespawnSpider inp g3 = g3 := phaseRespawnSpider_early inp g3 (by rw [c3]; exact hearly)
  have hu : phaseUpdateSpider inp g3 = g3 := phaseUpdateSpider_dead inp g3 (by rw [s3]; exact hdead)
  rw [hr, hu]
  have hs := phaseShoot_frame assets inp g3.spaceship.getPosition (phaseMoveShip assets inp g3)
  have hsp : (phaseShoot assets inp g3.spaceship.getPosition (phaseMoveShip assets inp g3)).spider
      = g3.spider := hs.2.2.2.2.2
  have hcl : (phaseShoot assets inp g3.spaceship.getPosition
      (phaseMoveShip assets inp g3)).spiderRespawnClock = g3.spiderRespawnClock := hs.2.2.2.2.1
  rw [phaseLasersVsSpider_dead]
  · exact ⟨hsp.trans s3, hcl.trans c3⟩
  · show (phaseShoot assets inp g3.spaceship.getPosition (phaseMoveShip assets inp g3)).spider.isAlive
      = false
    rw [hsp, s3]
    exact hdead

/-- A tick in which the respawn check does not fire leaves a dead spider dead and its clock
alone. -/
theorem tick_spider_stays_dead (assets : Assets) (sqrt : K → K) (g g1 : Game K) (inp : Input K)
    (hdead : g.spider.isAlive = false)
    (hearly : g.gameOver = false → g.youWin = false → inp.now - g.spiderRespawnClock < 5)
    (h : tick assets sqrt g inp = .ok g1) :
    g1.spider.isAlive = false ∧ g1.spiderRespawnClock = g.spiderRespawnClock := by
  by_cases hgate : g.gameOver = false ∧ g.youWin = false
  · rw [tick_of_open assets sqrt g inp hgate.1 hgate.2] at h
    cases ha : phaseUpdateCentipedes sqrt inp g with
    | error e => rw [ha] at h; simp at h
    | ok ga =>
      rw [ha] at h
      dsimp only at h
      cases hb : tickMiddle assets inp ga with
      | error e => rw [hb] at h; simp at h
      | ok gb =>
        rw [hb] at h
        dsimp only at h
        obtain ⟨ea, -⟩ := phaseUpdateCentipedes_eq sqrt inp g ga ha
        have sa : ga.spider = g.spider := by rw [ea]
        have ca : ga.spiderRespawnClock = g.spiderRespawnClock := by rw [ea]
        have hm := tickMiddle_spider_dead assets inp ga gb (by rw [sa]; exact hdead)
          (by rw [ca]; exact hearly hgate.1 hgate.2) hb
        have hf := tickShip_frame gb g1 h
        exact ⟨by rw [hf.2.1, hm.1, sa]; exact hdead, by rw [hf.2.2.1, hm.2, ca]⟩
  · have hg : tick assets sqrt g inp = .ok g := by
      unfold tick
      rw [if_neg]
      intro hc
      apply hgate
      simpa using hc
    rw [hg] at h
    simp only [Except.ok.injEq] at h
    rw [← h]
    exact ⟨hdead, rfl⟩

theorem run_spider_stays_dead (assets : Assets) (sqrt : K → K) :
    ∀ (inps : List (Input K)) (g g1 : Game K), g.spider.isAlive = false →
      (∀ inp ∈ inps, inp.now - g.spiderRespawnClock < 5) →
      run assets sqrt g inps = .ok g1 →
      g1.spider.isAlive = false ∧ g1.spiderRespawnClock = g.spiderRespawnClock
  | [], g, g1, hdead, _, h => by
    simp only [run, Except.ok.injEq] at h
    rw [← h]
    exact ⟨hdead, rfl⟩
  | inp :: inps, g, g1, hdead, hearly, h => by
    unfold run at h
    cases ht : tick assets sqrt g inp with
    | error e => rw [ht] at h; simp at h
    | ok g2 =>
      rw [ht] at h
      dsimp only at h
      have h2 := tick_spider_stays_dead assets sqrt g g2 inp hdead
        (fun _ _ => hearly inp (List.mem_cons_self _ _)) ht
      have h3 := run_spider_stays_dead assets sqrt inps g2 g1 h2.1
        (fun i hi => by rw [h2.2]; exact hearly i (List.mem_cons_of_mem _ hi)) h
      exact ⟨h3.1, h3.2.trans h2.2⟩

/-! ## Evaluating a tick

A phase is evaluated on a concrete state from the values of the fields it reads. -/

theorem phaseUpdateCentipedes_eval (sqrt : K → K) (inp : Input K) (g : Game K) (dt : K)
    (cs0 cs : List (ECE_Centipede K)) (hd : inp.deltaTime = dt) (hc : g.centipedes = cs0)
    (h : updateCentipedes sqrt dt cs0 = .ok cs) :
    phaseUpdateCentipedes sqrt inp g = .ok { g with centipedes := cs } := by
  unfold phaseUpdateCentipedes
  rw [hd, hc, h]

theorem phaseLasersVsCentipedes_eval (g : Game K) (ls ls1 : List (ECE_LaserBlast K))
    (cs cs1 : List (ECE_Centipede K)) (sc sc1 : Int)
    (hl : g.lasers = ls) (hc : g.centipedes = cs) (hs : g.score = sc)
    (h : lasersVsCentipedes ls cs sc = (ls1, cs1, sc1)) :
    phaseLasersVsCentipedes g = { g with lasers := ls1, centipedes := cs1, score := sc1 } := by
  unfold phaseLasersVsCentipedes
  rw [hl, hc, hs, h]

theorem phaseWinCheck_nil (g : Game K) (h : g.centipedes = []) :
    phaseWinCheck g = { g with youWin := true } := by
  unfold phaseWinCheck
  rw [if_pos (by rw [h]; rfl)]

theorem phaseCentipedesVsMushrooms_nil (g : Game K) (h : g.centipedes = []) :
    phaseCentipedesVsMushrooms g = .ok g := by
  obtain ⟨cs, ms, ship, lives, icons, spider, lasers, lc, sc, score, over, win⟩ := g
  dsimp only at h
  subst h
  rfl

theorem tickShip_quiet (g : Game K) (hc : g.centipedes = []) (hs : g.spider.isAlive = false) :
    tickShip g = .ok g := by
  unfold tickShip phaseCentipedesVsShip
  rw [hc]
  simp [centipedesVsShip, phaseSpiderVsShip, Spider.getIsAlive, hs]

/-- The middle of a tick from the results of its phases. -/
theorem tickMiddle_eval (assets : Assets) (inp : Input K) (g g3 g4 g5 g6 g7 g8 g9 : Game K)
    (p : Vector2 K)
    (h3 : phaseCentipedesVsMushrooms (phaseWinCheck g) = .ok g3)
    (h4 : phaseUpdateSpider inp (phaseRespawnSpider inp g3) = g4)
    (hp : g4.spaceship.getPosition = p)
    (h5 : phaseShoot assets inp p (phaseMoveShip assets inp g4) = g5)
    (h6 : phaseUpdateLasers inp g5 = g6)
    (h7 : phaseLasersVsMushrooms assets g6 = g7)
    (h8 : phaseLasersVsCentipedes g7 = g8)
    (h9 : phaseLasersVsSpider inp g8 = g9) :
    tickMiddle assets inp g = .ok g9 := by
  unfold tickMiddle
  rw [h3]
  dsimp only
  rw [h4, hp, h5, h6, h7, h8, h9]

/-- A tick from the results of its three parts. -/
theorem tick_eval (assets : Assets) (sqrt : K → K) (g g1 g2 g3 : Game K) (inp : Input K)
    (hover : g.gameOver = false) (hwin : g.youWin = false)
    (h1 : phaseUpdateCentipedes sqrt inp g = .ok g1)
    (h2 : tickMiddle assets inp g1 = .ok g2) (h3 : tickShip g2 = .ok g3) :
    tick assets sqrt g inp = .ok g3 := by
  rw [tick_of_open assets sqrt g inp hover hwin, h1]
  dsimp only
  rw [h2]
  exact h3

/-- The spider phases do nothing to a dead spider whose respawn is not due. -/
theorem spider_phases_dead (inp : Input K) (g : Game K) (n c : K) (hn : inp.now = n)
    (hc : g.spiderRespawnClock = c) (hearly : n - c < 5) (hdead : g.spider.isAlive = false) :
    phaseUpdateSpider inp (phaseRespawnSpider inp g) = g := by
  rw [phaseRespawnSpider_early inp g (by rw [hn, hc]; exact hearly),
    phaseUpdateSpider_dead inp g hdead]

/-! ## Two ticks evaluated -/

theorem oneSegment_update :
    updateCentipedes ratSqrt (1 / 100) [oneSegment] = .ok [oneSegmentA] := by
  norm_num [updateCentipedes, oneSegment, oneSegmentA, ECE_Centipede.create,
    ECE_Centipede.update, ECE_Centipede.checkBounds, ECE_Centipede.moveVertically,
    ECE_Centipede.follow, Sprite.create, Sprite.move, Sprite.getPosition, Vector2.scale,
    Vector2.add, CENTIPEDE_SPEED, SCREEN_WIDTH, SCREEN_HEIGHT, Y_DISPLACEMENT]

theorem gameLast_update (now : ℚ) :
    phaseUpdateCentipedes ratSqrt (idle (1 / 100) now) gameLast = .ok gameLastA :=
  phaseUpdateCentipedes_eval ratSqrt (idle (1 / 100) now) gameLast (1 / 100) [oneSegment] _
    rfl rfl oneSegment_update

theorem gameLastA_mushrooms :
    phaseCentipedesVsMushrooms (phaseWinCheck gameLastA) = .ok gameLastA := by
  norm_num [phaseCentipedesVsMushrooms, phaseWinCheck, centipedesVsMushrooms,
    ECE_Centipede.checkMushroomCollision, gameLastA, gameLast, oneSegment, oneSegmentA,
    mushroom0, Mushroom.damaged, Mushroom.create, ECE_Centipede.create, Sprite.create,
    Sprite.setTexture, Sprite.getGlobalBounds, FloatRect.intersects, assets0, headTex]

theorem gameLastA_lasers (now : ℚ) :
    phaseUpdateLasers (idle (1 / 100) now) gameLastA = gameLastB := by
  norm_num [phaseUpdateLasers, updateLasers, ECE_LaserBlast.update, ECE_LaserBlast.isOffScreen,
    ECE_LaserBlast.create, gameLastA, gameLastB, gameLast, Sprite.create, Sprite.move,
    Sprite.getPosition, Vector2.add, idle, LASER_SPEED]

theorem gameLastB_mushrooms : phaseLasersVsMushrooms assets0 gameLastB = gameLastB := by
  norm_num [phaseLasersVsMushrooms, lasersVsMushrooms, laserVsMushrooms, gameLastB, gameLastA,
    gameLast, mushroom0, Mushroom.damaged, Mushroom.create, ECE_LaserBlast.create,
    ECE_LaserBlast.getGlobalBounds, Sprite.create, Sprite.setTexture, Sprite.getGlobalBounds,
    FloatRect.intersects, assets0, laserTex]

/-- A laser that hits the only segment of the only creature: the creature and the laser are
removed and the later lasers find no creature. -/
theorem lasersVsCentipedes_last (l : ECE_LaserBlast K) (ls : List (ECE_LaserBlast K))
    (c : ECE_Centipede K) (seg : Sprite K) (score : Int) (hone : c.segments = [seg])
    (hhit : seg.getGlobalBounds.intersects l.getGlobalBounds = true) :
    lasersVsCentipedes (l :: ls) [c] score = (ls, [], score + 100) := by
  have h1 : laserVsCentipedes l.getGlobalBounds [c] 0 score = ([], score + 100, true) := by
    rw [laserVsCentipedes_unfold]
    simp only [List.length_singleton, Nat.lt_one_iff, dite_true, List.get_eq_getElem,
      List.getElem_cons_zero,
      checkLaserCollision_one c seg l.getGlobalBounds [c] score hone hhit]
    simp
  simp only [lasersVsCentipedes, h1, lasersVsCentipedes_nil]
  simp

theorem gameLastB_centipedes : phaseLasersVsCentipedes gameLastB = gameLast1 :=
  phaseLasersVsCentipedes_eval gameLastB _ _ [oneSegmentA] _ 0 _ rfl rfl rfl
    (lasersVsCentipedes_last (ECE_LaserBlast.create laserTex 110 210)
      [ECE_LaserBlast.create laserTex 210 135] oneSegmentA (Sprite.create headTex ⟨209 / 2, 200⟩)
      0 rfl
      (by norm_num [ECE_LaserBlast.create, ECE_LaserBlast.getGlobalBounds, Sprite.create,
        Sprite.getGlobalBounds, FloatRect.intersects, headTex, laserTex]))

/-- The first tick from `gameLast`: the last creature is removed, the won flag stays false. -/
theorem gameLast_tick (now : ℚ) (hnow : now < 5) :
    tick assets0 ratSqrt gameLast (idle (1 / 100) now) = .ok gameLast1 :=
  tick_eval assets0 ratSqrt gameLast gameLastA gameLast1 gameLast1 (idle (1 / 100) now) rfl rfl
    (gameLast_update now)
    (tickMiddle_eval assets0 (idle (1 / 100) now) gameLastA gameLastA gameLastA gameLastA
      gameLastB gameLastB gameLast1 gameLast1 gameLastA.spaceship.getPosition
      gameLastA_mushrooms
      (spider_phases_dead _ gameLastA now 0 rfl rfl (by linarith) rfl)
      rfl
      (by rw [phaseMoveShip_idle, phaseShoot_idle])
      (gameLastA_lasers now) gameLastB_mushrooms gameLastB_centipedes
      (phaseLasersVsSpider_dead _ gameLast1 rfl))
    (tickShip_quiet gameLast1 rfl rfl)

theorem gameLastW_lasers (now : ℚ) :
    phaseUpdateLasers (idle (1 / 100) now) gameLastW = gameLastX := by
  norm_num [phaseUpdateLasers, updateLasers, ECE_LaserBlast.update, ECE_LaserBlast.isOffScreen,
    ECE_LaserBlast.create, gameLastW, gameLastX, gameLast1, gameLast, Sprite.create,
    Sprite.move, Sprite.getPosition, Vector2.add, idle, LASER_SPEED]

theorem gameLastX_mushrooms : phaseLasersVsMushrooms assets0 gameLastX = gameLast2 := by
  norm_num [phaseLasersVsMushrooms, lasersVsMushrooms, laserVsMushrooms, gameLastX, gameLastW,
    gameLast2, gameLast1, gameLast, mushroom0, Mushroom.damaged, Mushroom.create,
    ECE_LaserBlast.create, ECE_LaserBlast.getGlobalBounds, Sprite.create, Sprite.setTexture,
    Sprite.getGlobalBounds, FloatRect.intersects, assets0, laserTex]

theorem gameLast2_centipedes : phaseLasersVsCentipedes gameLast2 = gameLast2 :=
  phaseLasersVsCentipedes_eval gameLast2 [] [] [] [] 104 104 rfl rfl rfl rfl

/-- The second tick: the won flag is set, and the laser-mushroom phase still runs. -/
theorem gameLast1_tick (now : ℚ) (hnow : now < 5) :
    tick assets0 ratSqrt gameLast1 (idle (1 / 100) now) = .ok gameLast2 :=
  tick_eval assets0 ratSqrt gameLast1 gameLast1 gameLast2 gameLast2 (idle (1 / 100) now) rfl rfl
    (phaseUpdateCentipedes_nil ratSqrt _ gameLast1 rfl)
    (tickMiddle_eval assets0 (idle (1 / 100) now) gameLast1 gameLastW gameLastW gameLastW
      gameLastX gameLast2 gameLast2 gameLast2 gameLastW.spaceship.getPosition
      (by rw [phaseWinCheck_nil gameLast1 rfl]; exact phaseCentipedesVsMushrooms_nil gameLastW rfl)
      (spider_phases_dead _ gameLastW now 0 rfl rfl (by linarith) rfl)
      rfl
      (by rw [phaseMoveShip_idle, phaseShoot_idle])
      (gameLastW_lasers now) gameLastX_mushrooms gameLast2_centipedes
      (phaseLasersVsSpider_dead _ gameLast2 rfl))
    (tickShip_quiet gameLast2 rfl rfl)

/-- C7 fails on the code. In the first tick a laser removes the last creature: the tick ends
with an empty creature collection and the won flag false. The next tick sets the flag, and
after the flag is set its laser-mushroom phase still removes a mushroom and adds 4 to the
score. -/
theorem win_flag_is_one_tick_late :
    gameLast.centipedes ≠ [] ∧
    tick assets0 ratSqrt gameLast (idle (1 / 100) (1 / 100)) = .ok gameLast1 ∧
    gameLast1.centipedes = [] ∧ gameLast1.youWin = false ∧
    tick assets0 ratSqrt gameLast1 (idle (1 / 100) (2 / 100)) = .ok gameLast2 ∧
    gameLast2.youWin = true ∧
    gameLast1.mushrooms ≠ [] ∧ gameLast2.mushrooms = [] ∧
    gameLast2.score = gameLast1.score + 4 :=
  ⟨by simp [gameLast], gameLast_tick _ (by norm_num), rfl, rfl,
    gameLast1_tick _ (by norm_num), rfl, by simp [gameLast1, gameLast], rfl, rfl⟩

/-- The amended C7 on the two ticks from `gameLast`: the first tick leaves the won flag false
because creatures were there when it started, the second one sets it. -/
theorem win_flag_follows_empty_collection_witness :
    gameLast.gameOver = false ∧ gameLast.youWin = false ∧
    (gameLast1.youWin = true ↔ gameLast.centipedes = []) ∧
    gameLast1.gameOver = false ∧ gameLast1.youWin = false ∧
    (gameLast2.youWin = true ↔ gameLast1.centipedes = []) :=
  ⟨rfl, rfl,
    (win_flag_follows_empty_collection assets0 ratSqrt gameLast (idle (1 / 100) (1 / 100))
      rfl rfl).1 gameLast1 (gameLast_tick _ (by norm_num)),
    rfl, rfl,
    (win_flag_follows_empty_collection assets0 ratSqrt gameLast1 (idle (1 / 100) (2 / 100))
      rfl rfl).1 gameLast2 (gameLast1_tick _ (by norm_num))⟩

/-! ## The creature-spaceship phase -/

theorem creatureOnShip_iff (g : Game K) :
    CreatureOnShip g ↔
      ∃ c ∈ g.centipedes, c.checkSpaceshipCollision g.spaceship.getGlobalBounds = true := by
  simp only [CreatureOnShip, checkSpaceshipCollision, List.any_eq_true]

/-- C8: `g` is the state of a running tick when its creature-spaceship phase starts, with a
life icon on screen. That phase takes exactly one life when some segment of some creature
overlaps the spaceship, however many do, and none otherwise; and when one life is left and a
creature overlaps the spaceship, the tick ends with no life, the game over and the spaceship
at its initial position. -/
theorem creature_ship_collision_costs_one_life (assets : Assets) (sqrt : K → K)
    (g0 g1 g : Game K) (inp : Input K)
    (hover : g0.gameOver = false) (hwin : g0.youWin = false)
    (h1 : phaseUpdateCentipedes sqrt inp g0 = .ok g1) (h2 : tickMiddle assets inp g1 = .ok g)
    (hicons : g.livesSprites ≠ []) :
    (CreatureOnShip g →
      ∃ g2, phaseCentipedesVsShip g = .ok g2 ∧ g2.lives = g.lives - 1) ∧
    (¬ CreatureOnShip g →
      ∃ g2, phaseCentipedesVsShip g = .ok g2 ∧ g2.lives = g.lives) ∧
    (g.lives = 1 → CreatureOnShip g →
      ∃ g3, tick assets sqrt g0 inp = .ok g3 ∧ g3.lives = 0 ∧ g3.gameOver = true ∧
        g3.spaceship.getPosition = initialPosition) := by
  refine ⟨fun hon => ?_, fun hoff => ?_, fun hone hon => ?_⟩
  · exact ⟨loseLife g,
      centipedesVsShip_hit g.centipedes g ((creatureOnShip_iff g).1 hon) hicons, rfl⟩
  · refine ⟨g, centipedesVsShip_miss g.centipedes g ?_, rfl⟩
    intro c hc
    by_contra hcon
    exact hoff ((creatureOnShip_iff g).2 ⟨c, hc, by simpa using hcon⟩)
  · have hc : phaseCentipedesVsShip g = .ok (loseLife g) :=
      centipedesVsShip_hit g.centipedes g ((creatureOnShip_iff g).1 hon) hicons
    have hl : (loseLife g).lives = 0 := by
      show g.lives - 1 = 0
      rw [hone]; rfl
    have hs : phaseSpiderVsShip (loseLife g) = .ok (loseLife g) := by
      unfold phaseSpiderVsShip
      split_ifs with ha hb
      · rw [hl] at hb
        exact absurd hb (lt_irrefl 0)
      · rfl
      · rfl
    have ht : tickShip g = .ok (loseLife g) := by
      unfold tickShip
      rw [hc]
      exact hs
    refine ⟨loseLife g, tick_eval assets sqrt g0 g1 g (loseLife g) inp hover hwin h1 h2 ht,
      hl, ?_, rfl⟩
    show (if g.lives - 1 = 0 then true else g.gameOver) = true
    rw [if_pos (by rw [hone]; rfl)]

theorem centipedesVsMushrooms_none :
    ∀ (cs : List (ECE_Centipede K)), centipedesVsMushrooms ([] : List (Mushroom K)) cs = .ok cs
  | [] => rfl
  | c :: cs => by
    simp only [centipedesVsMushrooms, checkMushroomCollision, centipedesVsMushrooms_none cs]

theorem phaseWinCheck_of_creatures (g : Game K) (hc : g.centipedes ≠ []) :
    phaseWinCheck g = g := by
  unfold phaseWinCheck
  rw [if_neg]
  simpa using hc

theorem phaseCentipedesVsMushrooms_none (g : Game K) (hm : g.mushrooms = []) :
    phaseCentipedesVsMushrooms g = .ok g := by
  obtain ⟨cs, ms, ship, lives, icons, spider, lasers, lc, sc, score, over, win⟩ := g
  dsimp only at hm
  subst hm
  simp only [phaseCentipedesVsMushrooms, centipedesVsMushrooms_none]

theorem phaseUpdateLasers_nil (inp : Input K) (g : Game K) (hl : g.lasers = []) :
    phaseUpdateLasers inp g = g := by
  obtain ⟨cs, ms, ship, lives, icons, spider, lasers, lc, sc, score, over, win⟩ := g
  dsimp only at hl
  subst hl
  rfl

theorem phaseLasersVsMushrooms_nil (assets : Assets) (g : Game K) (hl : g.lasers = []) :
    phaseLasersVsMushrooms assets g = g := by
  obtain ⟨cs, ms, ship, lives, icons, spider, lasers, lc, sc, score, over, win⟩ := g
  dsimp only at hl
  subst hl
  rfl

theorem phaseLasersVsCentipedes_nil (g : Game K) (hl : g.lasers = []) :
    phaseLasersVsCentipedes g = g := by
  obtain ⟨cs, ms, ship, lives, icons, spider, lasers, lc, sc, score, over, win⟩ := g
  dsimp only at hl
  subst hl
  rfl

/-- The middle of a tick in which nothing happens: no mushroom, a dead spider whose respawn is
not due, no key down and no laser. -/
theorem tickMiddle_quiet (assets : Assets) (dt now : K) (g : Game K)
    (hc : g.centipedes ≠ []) (hm : g.mushrooms = []) (hl : g.lasers = [])
    (hdead : g.spider.isAlive = false) (hearly : now - g.spiderRespawnClock < 5) :
    tickMiddle assets (idle dt now) g = .ok g :=
  tickMiddle_eval assets (idle dt now) g g g g g g g g g.spaceship.getPosition
    (by rw [phaseWinCheck_of_creatures g hc]; exact phaseCentipedesVsMushrooms_none g hm)
    (spider_phases_dead _ g now g.spiderRespawnClock rfl rfl hearly hdead) rfl
    (by rw [phaseMoveShip_idle, phaseShoot_idle])
    (phaseUpdateLasers_nil _ g hl) (phaseLasersVsMushrooms_nil assets g hl)
    (phaseLasersVsCentipedes_nil g hl) (phaseLasersVsSpider_dead _ g hdead)

theorem oneSegmentLow_update :
    updateCentipedes ratSqrt (1 / 100) [oneSegmentLow] = .ok [oneSegmentLowA] := by
  norm_num [updateCentipedes, oneSegmentLow, oneSegmentLowA, ECE_Centipede.create,
    ECE_Centipede.update, ECE_Centipede.checkBounds, ECE_Centipede.moveVertically,
    ECE_Centipede.follow, Sprite.create, Sprite.move, Sprite.getPosition, Vector2.scale,
    Vector2.add, CENTIPEDE_SPEED, SCREEN_WIDTH, SCREEN_HEIGHT, Y_DISPLACEMENT]

theorem gameHitA_on_ship : CreatureOnShip gameHitA := by
  refine ⟨oneSegmentLowA, List.mem_singleton.2 rfl, Sprite.create headTex ⟨1009 / 2, 480⟩,
    List.mem_singleton.2 rfl, ?_⟩
  norm_num [gameHitA, gameHit, Sprite.create, Sprite.getGlobalBounds, FloatRect.intersects,
    initialPosition, assets0, headTex, SCREEN_WIDTH, SCREEN_HEIGHT, BOTTOM_BUFFER]

/-- C8 on `gameHit`: one life, and after the creatures moved one of them overlaps the
spaceship; the tick ends with no life and the game over. -/
theorem creature_ship_collision_costs_one_life_witness :
    gameHit.gameOver = false ∧ gameHit.youWin = false ∧
    phaseUpdateCentipedes ratSqrt (idle (1 / 100) (1 / 100)) gameHit = .ok gameHitA ∧
    tickMiddle assets0 (idle (1 / 100) (1 / 100)) gameHitA = .ok gameHitA ∧
    gameHitA.lives = 1 ∧ CreatureOnShip gameHitA ∧
    ∃ g3, tick assets0 ratSqrt gameHit (idle (1 / 100) (1 / 100)) = .ok g3 ∧ g3.lives = 0 ∧
      g3.gameOver = true ∧ g3.spaceship.getPosition = initialPosition := by
  have h1 : phaseUpdateCentipedes ratSqrt (idle (1 / 100) (1 / 100)) gameHit = .ok gameHitA :=
    phaseUpdateCentipedes_eval ratSqrt (idle (1 / 100) (1 / 100)) gameHit (1 / 100)
      [oneSegmentLow] _ rfl rfl oneSegmentLow_update
  have h2 : tickMiddle assets0 (idle (1 / 100) (1 / 100)) gameHitA = .ok gameHitA :=
    tickMiddle_quiet assets0 (1 / 100) (1 / 100) gameHitA (by simp [gameHitA]) rfl rfl rfl
      (by show (1 / 100 : ℚ) - 0 < 5; norm_num)
  exact ⟨rfl, rfl, h1, h2, rfl, gameHitA_on_ship,
    (creature_ship_collision_costs_one_life assets0 ratSqrt gameHit gameHitA gameHitA
      (idle (1 / 100) (1 / 100)) rfl rfl h1 h2 (by simp [gameHitA, gameHit])).2.2 rfl
      gameHitA_on_ship⟩

/-! ## How far `update` moves a segment -/

/-- C11: a creature of `N ≥ 2` segments whose first overlapping segment is an end segment.
When it is the head (index 0) the call leaves the segments `1 .. N-1`, in order, and when it is
the tail (index `N-1`) it leaves the segments `0 .. N-2`, in order: one segment is removed and
the other `N - 1` are as they were. In both cases nothing is appended to the collection and
the call returns false. The score grows by 100 for the head and by 10 for the tail. -/
theorem checkLaserCollision_end_segment (self : ECE_Centipede K) (laserBounds : FloatRect K)
    (centipedes : List (ECE_Centipede K)) (score : Int)
    (hN : 2 ≤ self.segments.length) :
    (firstOverlap laserBounds self.segments = some 0 →
      self.checkLaserCollision laserBounds centipedes score =
        (false, { self with segments := self.segments.drop 1 }, centipedes, score + 100)) ∧
    (firstOverlap laserBounds self.segments = some (self.segments.length - 1) →
      self.checkLaserCollision laserBounds centipedes score =
        (false, { self with segments := self.segments.take (self.segments.length - 1) },
          centipedes, score + 10)) ∧
    (self.segments.drop 1).length = self.segments.length - 1 ∧
    (self.segments.take (self.segments.length - 1)).length = self.segments.length - 1 := by
  refine ⟨fun hfirst => ?_, fun hfirst => ?_, by simp, by simp⟩
  · have hne : (self.segments.eraseIdx 0).isEmpty = false := by
      rw [isEmpty_eq_false_iff, List.eraseIdx_zero]
      intro h
      have := congrArg List.length h
      simp only [List.length_tail, List.length_nil] at this
      omega
    unfold checkLaserCollision
    simp only [hfirst, if_true, hne]
    rw [List.eraseIdx_zero, List.drop_one]
  · have hne : self.segments.dropLast.isEmpty = false := by
      rw [isEmpty_eq_false_iff]
      intro h
      have := congrArg List.length h
      simp only [List.length_dropLast, List.length_nil] at this
      omega
    unfold checkLaserCollision
    simp only [hfirst]
    rw [if_neg (by omega)]
    simp only [if_true, hne]
    rw [List.dropLast_eq_take]

/-- C11 at concrete inputs: a head hit on `twoSegments` and a tail hit on `threeSegments`. -/
theorem checkLaserCollision_end_segment_witness :
    2 ≤ twoSegments.segments.length ∧ 2 ≤ threeSegments.segments.length ∧
    twoSegments.checkLaserCollision laserOnHead.getGlobalBounds [twoSegments] 0 =
      (false, { twoSegments with segments := twoSegments.segments.drop 1 }, [twoSegments],
        0 + 100) ∧
    threeSegments.checkLaserCollision laserOnTail [threeSegments] 0 =
      (false, { threeSegments with
                 segments := threeSegments.segments.take (threeSegments.segments.length - 1) },
        [threeSegments], 0 + 10) := by
  have h2 : twoSegments.segments.length = 2 := by simp [twoSegments, ECE_Centipede.create]
  have h3 : threeSegments.segments.length = 3 := by simp [threeSegments, ECE_Centipede.create]
  have hhead : firstOverlap laserOnHead.getGlobalBounds twoSegments.segments = some 0 := by
    norm_num [firstOverlap, twoSegments, laserOnHead, ECE_Centipede.create,
      ECE_LaserBlast.create, ECE_LaserBlast.getGlobalBounds, Sprite.create,
      Sprite.getGlobalBounds, FloatRect.intersects, headTex, laserTex]
  have htail : firstOverlap laserOnTail threeSegments.segments
      = some (threeSegments.segments.length - 1) := by
    rw [h3]
    norm_num [firstOverlap, threeSegments, laserOnTail, ECE_Centipede.create, Sprite.create,
      Sprite.getGlobalBounds, FloatRect.intersects, List.range, List.range.loop, headTex, bodyTex]
  exact ⟨by rw [h2], by rw [h3]; decide,
    (checkLaserCollision_end_segment twoSegments laserOnHead.getGlobalBounds [twoSegments] 0
      (by rw [h2])).1 hhead,
    (checkLaserCollision_end_segment threeSegments laserOnTail [threeSegments] 0
      (by rw [h3]; decide)).2.1 htail⟩

/-! ## What the two halves of a split inherit -/

/-- C13: when `checkLaserCollision` splits a creature at an interior index `i`, the two
creatures it appends are, first, the one with the segments before `i`, whose direction is the
direction of the original, and second, the one with the segments after `i`, whose direction is
the negation of the direction of the original. -/
theorem split_halves_direction (self : ECE_Centipede K) (laserBounds : FloatRect K)
    (centipedes : List (ECE_Centipede K)) (score : Int) (i : Nat)
    (hfirst : firstOverlap laserBounds self.segments = some i)
    (h0 : 0 < i) (hN : i < self.segments.length - 1) :
    ∃ c1 c2 : ECE_Centipede K,
      (self.checkLaserCollision laserBounds centipedes score).2.2.1 = centipedes ++ [c1, c2] ∧
      c1.segments.map Sprite.getPosition = (self.segments.map Sprite.getPosition).take i ∧
      c2.segments.map Sprite.getPosition = (self.segments.map Sprite.getPosition).drop (i + 1) ∧
      c1.direction = self.direction ∧
      c2.direction = ⟨-self.direction.x, -self.direction.y⟩ := by
  refine ⟨splitOff self (self.segments.take i) self.direction,
    splitOff self (self.segments.drop (i + 1)) self.direction.neg, ?_, ?_, ?_, rfl, rfl⟩
  · rw [checkLaserCollision_interior self laserBounds centipedes score i hfirst h0 hN]
  · simp only [splitOff, setFirstTexture_map_position, List.map_take]
  · simp only [splitOff, setFirstTexture_map_position, List.map_drop]

theorem threeSegments_middle :
    firstOverlap laserOnMiddle threeSegments.segments = some 1 ∧
    threeSegments.segments.length = 3 := by
  constructor
  · norm_num [firstOverlap, threeSegments, laserOnMiddle, ECE_Centipede.create, Sprite.create,
      Sprite.getGlobalBounds, FloatRect.intersects, List.range, List.range.loop, headTex, bodyTex]
  · simp [threeSegments, ECE_Centipede.create]

/-- C13 on `threeSegments`, which moves to the right: the half before the hit moves to the
right, the half after it to the left. -/
theorem split_halves_direction_witness :
    firstOverlap laserOnMiddle threeSegments.segments = some 1 ∧
    threeSegments.direction = ⟨1, 0⟩ ∧
    ∃ c1 c2 : ECE_Centipede ℚ,
      (threeSegments.checkLaserCollision laserOnMiddle [] 0).2.2.1 = [] ++ [c1, c2] ∧
      c1.segments.map Sprite.getPosition = [⟨0, 0⟩] ∧
      c2.segments.map Sprite.getPosition = [⟨0, 60⟩] ∧
      c1.direction = ⟨1, 0⟩ ∧ c2.direction = ⟨-1, 0⟩ := by
  have hdir : threeSegments.direction = ⟨1, 0⟩ := rfl
  obtain ⟨c1, c2, h, p1, p2, d1, d2⟩ :=
    split_halves_direction threeSegments laserOnMiddle [] 0 1 threeSegments_middle.1
      (by decide) (by rw [threeSegments_middle.2]; decide)
  refine ⟨threeSegments_middle.1, hdir, c1, c2, h, ?_, ?_, ?_, ?_⟩
  · rw [p1, threeSegments_positions]; rfl
  · rw [p2, threeSegments_positions]; rfl
  · rw [d1, hdir]
  · rw [d2, hdir]; simp

/-- C15: when `checkLaserCollision` splits a creature at an interior index, both creatures it
appends have `moveDirectionDown = true`, the value the constructor gives, whatever the
vertical sense of the original is: it is not handed on to either half. -/
theorem split_halves_move_down (self : ECE_Centipede K) (laserBounds : FloatRect K)
    (centipedes : List (ECE_Centipede K)) (score : Int) (i : Nat)
    (hfirst : firstOverlap laserBounds self.segments = some i)
    (h0 : 0 < i) (hN : i < self.segments.length - 1) :
    ∃ c1 c2 : ECE_Centipede K,
      (self.checkLaserCollision laserBounds centipedes score).2.2.1 = centipedes ++ [c1, c2] ∧
      c1.segments.map Sprite.getPosition = (self.segments.map Sprite.getPosition).take i ∧
      c2.segments.map Sprite.getPosition = (self.segments.map Sprite.getPosition).drop (i + 1) ∧
      c1.moveDirectionDown = true ∧ c2.moveDirectionDown = true ∧
      c1.moveDirectionDown = (ECE_Centipede.create self.headTexture self.bodyTexture i
        (⟨0, 0⟩ : Vector2 K)).moveDirectionDown := by
  refine ⟨splitOff self (self.segments.take i) self.direction,
    splitOff self (self.segments.drop (i + 1)) self.direction.neg, ?_, ?_, ?_, rfl, rfl, rfl⟩
  · rw [checkLaserCollision_interior self laserBounds centipedes score i hfirst h0 hN]
  · simp only [splitOff, setFirstTexture_map_position, List.map_take]
  · simp only [splitOff, setFirstTexture_map_position, List.map_drop]

/-- C15 on `threeSegmentsUp`, which travels upwards: both halves travel downwards. -/
theorem split_halves_move_down_witness :
    threeSegmentsUp.moveDirectionDown = false ∧
    firstOverlap laserOnMiddle threeSegmentsUp.segments = some 1 ∧
    ∃ c1 c2 : ECE_Centipede ℚ,
      (threeSegmentsUp.checkLaserCollision laserOnMiddle [] 0).2.2.1 = [] ++ [c1, c2] ∧
      c1.moveDirectionDown = true ∧ c2.moveDirectionDown = true := by
  have hfirst : firstOverlap laserOnMiddle threeSegmentsUp.segments = some 1 :=
    threeSegments_middle.1
  have hlen : threeSegmentsUp.segments.length = 3 := threeSegments_middle.2
  obtain ⟨c1, c2, h, -, -, m1, m2, -⟩ :=
    split_halves_move_down threeSegmentsUp laserOnMiddle [] 0 1 hfirst (by decide)
      (by rw [hlen]; decide)
  exact ⟨rfl, hfirst, c1, c2, h, m1, m2⟩

/-! ## The vertical sense after a boundary reaction -/

/-- With a mushroom outside the rows in which `main` places the mushrooms (here at y = 10 and
at y = 550), `checkMushroomCollision` performs the reaction with the head at the top or at the
lower boundary. There `moveVertically` alone sets the vertical sense, and sets it the other way
round than `checkBounds` does: the creature at the top (y = 0) ends with
`moveDirectionDown = false`, the one at the lower boundary (y + 27 = 572 ≥ 569) with
`moveDirectionDown = true`. -/
theorem mushroom_reaction_sets_opposite_sense :
    topCreature.segments.map Sprite.getPosition = [⟨100, 0⟩] ∧
    topCreature.checkMushroomCollision [topMushroom] = .ok topCreatureA ∧
    topCreatureA.moveDirectionDown = false ∧
    bottomCreature.segments.map Sprite.getPosition = [⟨100, 545⟩] ∧
    (545 : ℚ) + 27 ≥ bottomCreature.lowerBound ∧
    bottomCreature.checkMushroomCollision [bottomMushroom] = .ok bottomCreatureA ∧
    bottomCreatureA.moveDirectionDown = true := by
  refine ⟨?_, ?_, rfl, ?_, ?_, ?_, rfl⟩
  · simp [topCreature, ECE_Centipede.create, Sprite.create, Sprite.getPosition]
  · norm_num [topCreature, topCreatureA, topMushroom, ECE_Centipede.checkMushroomCollision,
      ECE_Centipede.moveVertically, ECE_Centipede.create, Mushroom.create, Sprite.create,
      Sprite.setPosition, Sprite.getPosition, Sprite.getGlobalBounds, FloatRect.intersects,
      assets0, headTex, SCREEN_WIDTH, SCREEN_HEIGHT, Y_DISPLACEMENT]
  · simp [bottomCreature, ECE_Centipede.create, Sprite.create, Sprite.getPosition]
  · norm_num [bottomCreature, ECE_Centipede.create, SCREEN_HEIGHT]
  · norm_num [bottomCreature, bottomCreatureA, bottomMushroom,
      ECE_Centipede.checkMushroomCollision, ECE_Centipede.moveVertically, ECE_Centipede.create,
      Mushroom.create, Sprite.create, Sprite.setPosition, Sprite.getPosition,
      Sprite.getGlobalBounds, FloatRect.intersects, assets0, headTex, SCREEN_WIDTH,
      SCREEN_HEIGHT, Y_DISPLACEMENT]

/-! ## Lives, life icons and the game-over flag -/

theorem livesInvariant_icons (g : Game K) (hinv : LivesInvariant g) (h : 0 < g.lives) :
    g.livesSprites ≠ [] := by
  intro hnil
  have := hinv.2.1
  rw [hnil] at this
  simp only [List.length_nil, Nat.cast_zero] at this
  omega

theorem livesInvariant_running (g : Game K) (hinv : LivesInvariant g)
    (hover : g.gameOver = false) : 1 ≤ g.lives := by
  have h0 : g.lives ≠ 0 := by
    intro h
    have := hinv.2.2.2 h
    rw [hover] at this
    exact absurd this (by simp)
  have := hinv.1
  omega

theorem loseLife_invariant (g : Game K) (hinv : LivesInvariant g) (h : 1 ≤ g.lives) :
    LivesInvariant (loseLife g) := by
  have hover : g.gameOver = false := by
    cases ho : g.gameOver with
    | false => rfl
    | true =>
      have := hinv.2.2.1 ho
      omega
  refine ⟨?_, ?_, ?_⟩
  · show 0 ≤ g.lives - 1
    omega
  · show ((g.livesSprites.dropLast.length : Nat) : Int) = g.lives - 1
    have hl := hinv.2.1
    have hpos : 1 ≤ g.livesSprites.length := by omega
    rw [List.length_dropLast, Nat.cast_sub hpos, hl]
    rfl
  · show (if g.lives - 1 = 0 then true else g.gameOver) = true ↔ g.lives - 1 = 0
    by_cases h1 : g.lives - 1 = 0
    · rw [if_pos h1]
      exact ⟨fun _ => h1, fun _ => rfl⟩
    · rw [if_neg h1, hover]
      exact ⟨fun h => absurd h (by simp), fun h => absurd h h1⟩

/-- The two spaceship phases from a state of the running game that satisfies the invariant:
they run without fault and the invariant holds afterwards. -/
theorem tickShip_lives (g : Game K) (hinv : LivesInvariant g) (hover : g.gameOver = false) :
    ∃ g1, tickShip g = .ok g1 ∧ LivesInvariant g1 := by
  have hone := livesInvariant_running g hinv hover
  have hmid : ∃ g2, phaseCentipedesVsShip g = .ok g2 ∧ LivesInvariant g2 := by
    by_cases hhit : ∃ c ∈ g.centipedes,
        c.checkSpaceshipCollision g.spaceship.getGlobalBounds = true
    · exact ⟨loseLife g,
        centipedesVsShip_hit g.centipedes g hhit (livesInvariant_icons g hinv (by omega)),
        loseLife_invariant g hinv hone⟩
    · refine ⟨g, centipedesVsShip_miss g.centipedes g ?_, hinv⟩
      intro c hc
      by_contra hcon
      exact hhit ⟨c, hc, by simpa using hcon⟩
  obtain ⟨g2, h2, hinv2⟩ := hmid
  obtain ⟨g3, h3⟩ := phaseSpiderVsShip_total g2 (livesInvariant_icons g2 hinv2)
  refine ⟨g3, by unfold tickShip; rw [h2]; exact h3, ?_⟩
  rcases phaseSpiderVsShip_cases g2 g3 h3 with rfl | ⟨hpos, rfl⟩
  · exact hinv2
  · exact loseLife_invariant g2 hinv2 (by omega)

/-- A tick from a state that satisfies the invariant and in which every creature has a
segment: it runs without fault, and both properties hold afterwards. -/
theorem tick_lives (assets : Assets) (sqrt : K → K) (g : Game K) (inp : Input K)
    (hinv : LivesInvariant g) (hne : NonEmptyCreatures g.centipedes) :
    ∃ g1, tick assets sqrt g inp = .ok g1 ∧ LivesInvariant g1 ∧
      NonEmptyCreatures g1.centipedes := by
  by_cases hgate : g.gameOver = false ∧ g.youWin = false
  · obtain ⟨ga, ha, hnea, -, ea⟩ := phaseUpdateCentipedes_nonempty sqrt inp g hne
    obtain ⟨gb, hb, hneb⟩ := tickMiddle_nonempty assets inp ga hnea
    have hf := tickMiddle_frame assets inp ga gb hb
    have hla : ga.lives = g.lives := by rw [ea]
    have hia : ga.livesSprites = g.livesSprites := by rw [ea]
    have hoa : ga.gameOver = g.gameOver := by rw [ea]
    have hinvb : LivesInvariant gb := by
      unfold LivesInvariant
      rw [hf.2.2.1, hf.2.2.2, hf.2.1, hla, hia, hoa]
      exact hinv
    obtain ⟨gc, hc, hinvc⟩ := tickShip_lives gb hinvb (by rw [hf.2.1, hoa]; exact hgate.1)
    refine ⟨gc, tick_eval assets sqrt g ga gb gc inp hgate.1 hgate.2 ha hb hc, hinvc, ?_⟩
    rw [(tickShip_centipedes gb).2 gc hc]
    exact hneb
  · refine ⟨g, ?_, hinv, hne⟩
    unfold tick
    rw [if_neg]
    intro hc
    apply hgate
    simpa using hc

theorem run_lives (assets : Assets) (sqrt : K → K) :
    ∀ (inps : List (Input K)) (g : Game K), LivesInvariant g →
      NonEmptyCreatures g.centipedes →
      ∃ g1, run assets sqrt g inps = .ok g1 ∧ LivesInvariant g1 ∧
        NonEmptyCreatures g1.centipedes
  | [], g, hinv, hne => ⟨g, rfl, hinv, hne⟩
  | inp :: inps, g, hinv, hne => by
    obtain ⟨g1, h1, hinv1, hne1⟩ := tick_lives assets sqrt g inp hinv hne
    obtain ⟨g2, h2, hinv2, hne2⟩ := run_lives assets sqrt inps g1 hinv1 hne1
    exact ⟨g2, by simp only [run, h1]; exact h2, hinv2, hne2⟩

theorem initialGame_invariants (assets : Assets) (mushroomPositions : List (Vector2 K))
    (spiderPosition spiderDirection : Vector2 K) (now : K) :
    LivesInvariant
      (initialGame assets mushroomPositions spiderPosition spiderDirection now) ∧
    NonEmptyCreatures
      (initialGame assets mushroomPositions spiderPosition spiderDirection now).centipedes := by
  constructor
  · refine ⟨?_, ?_, ?_⟩
    · show (0 : Int) ≤ 2
      decide
    · have hlen : (initialGame assets mushroomPositions spiderPosition spiderDirection
          now).livesSprites.length = 2 := rfl
      rw [hlen]
      rfl
    · simp [initialGame]
  · intro c hc
    simp only [initialGame, List.mem_singleton] at hc
    rw [hc]
    simp [ECE_Centipede.create]

theorem phaseSpiderVsShip_hit (g : Game K) (halive : g.spider.isAlive = true)
    (hhit : g.spider.sprite.getGlobalBounds.intersects g.spaceship.getGlobalBounds = true)
    (hpos : 0 < g.lives) (hicons : g.livesSprites ≠ []) :
    phaseSpiderVsShip g = .ok (loseLife g) := by
  unfold phaseSpiderVsShip
  have hc : (g.spider.getIsAlive &&
      g.spider.checkSpaceshipCollision g.spaceship.getGlobalBounds) = true := by
    show (g.spider.isAlive && (g.spider.isAlive &&
      g.spider.sprite.getGlobalBounds.intersects g.spaceship.getGlobalBounds)) = true
    rw [halive, hhit]
    rfl
  rw [if_pos hc, if_pos hpos]
  cases hl : g.livesSprites with
  | nil => exact absurd hl hicons
  | cons a l => simp only [loseLife, hl]

/-- A creature and the spider both hit the spaceship in one tick, with two lives or more: each
phase takes one life, and the second `pop_back` still finds an icon. -/
theorem tickShip_both_hit (g : Game K) (hinv : LivesInvariant g) (h2 : 2 ≤ g.lives)
    (hon : CreatureOnShip g) (halive : g.spider.isAlive = true)
    (hsp : g.spider.sprite.getGlobalBounds.intersects
      (g.spaceship.setPosition initialPosition).getGlobalBounds = true) :
    tickShip g = .ok (loseLife (loseLife g)) ∧ (loseLife (loseLife g)).lives = g.lives - 2 ∧
    LivesInvariant (loseLife (loseLife g)) := by
  have h1 : phaseCentipedesVsShip g = .ok (loseLife g) :=
    centipedesVsShip_hit g.centipedes g ((creatureOnShip_iff g).1 hon)
      (livesInvariant_icons g hinv (by omega))
  have hinv1 : LivesInvariant (loseLife g) := loseLife_invariant g hinv (by omega)
  have hl1 : (loseLife g).lives = g.lives - 1 := rfl
  have hs : phaseSpiderVsShip (loseLife g) = .ok (loseLife (loseLife g)) :=
    phaseSpiderVsShip_hit (loseLife g) halive hsp (by rw [hl1]; omega)
      (livesInvariant_icons (loseLife g) hinv1 (by rw [hl1]; omega))
  refine ⟨by unfold tickShip; rw [h1]; exact hs, ?_, loseLife_invariant _ hinv1 (by rw [hl1]; omega)⟩
  show g.lives - 1 - 1 = g.lives - 2
  omega

/-- C14: in every state that the game reaches from its initial state (two lives, two life
icons, not over) by any sequence of ticks, none of which faults: the lives are not negative,
the number of life icons equals the lives, and the game is over exactly when no life is left.
Consequently, when a tick of the running game comes to its creature-spaceship phase there is
at least one life and one icon, so the unguarded `lives--` and `pop_back()` never run with no
life or no icon; the two spaceship phases run without fault, also when a creature and the
spider both hit the spaceship, and the state they end the tick with satisfies the same. -/
theorem lives_invariant_of_reachable (assets : Assets) (sqrt : K → K)
    (mushroomPositions : List (Vector2 K)) (spiderPosition spiderDirection : Vector2 K)
    (now : K) (inps : List (Input K)) :
    (initialGame assets mushroomPositions spiderPosition spiderDirection now).lives = 2 ∧
    (initialGame assets mushroomPositions spiderPosition spiderDirection
      now).livesSprites.length = 2 ∧
    (initialGame assets mushroomPositions spiderPosition spiderDirection now).gameOver = false ∧
    ∃ g, run assets sqrt
        (initialGame assets mushroomPositions spiderPosition spiderDirection now) inps = .ok g ∧
      0 ≤ g.lives ∧ (g.livesSprites.length : Int) = g.lives ∧
      (g.gameOver = true ↔ g.lives = 0) ∧
      ∀ (inp : Input K) (ga gb : Game K), g.gameOver = false → g.youWin = false →
        phaseUpdateCentipedes sqrt inp g = .ok ga → tickMiddle assets inp ga = .ok gb →
        1 ≤ gb.lives ∧ gb.livesSprites ≠ [] ∧
        ∃ gc, tickShip gb = .ok gc ∧ tick assets sqrt g inp = .ok gc ∧
          0 ≤ gc.lives ∧ (gc.livesSprites.length : Int) = gc.lives ∧
          (gc.gameOver = true ↔ gc.lives = 0) := by
  obtain ⟨hinv0, hne0⟩ :=
    initialGame_invariants assets mushroomPositions spiderPosition spiderDirection now
  obtain ⟨g, hrun, hinv, hne⟩ := run_lives assets sqrt inps _ hinv0 hne0
  refine ⟨rfl, rfl, rfl, g, hrun, hinv.1, hinv.2.1, hinv.2.2, ?_⟩
  intro inp ga gb hover hwin ha hb
  obtain ⟨ea, -⟩ := phaseUpdateCentipedes_eq sqrt inp g ga ha
  have hf := tickMiddle_frame assets inp ga gb hb
  have hla : ga.lives = g.lives := by rw [ea]
  have hia : ga.livesSprites = g.livesSprites := by rw [ea]
  have hoa : ga.gameOver = g.gameOver := by rw [ea]
  have hinvb : LivesInvariant gb := by
    unfold LivesInvariant
    rw [hf.2.2.1, hf.2.2.2, hf.2.1, hla, hia, hoa]
    exact hinv
  have hob : gb.gameOver = false := by rw [hf.2.1, hoa]; exact hover
  have hone := livesInvariant_running gb hinvb hob
  obtain ⟨gc, hc, hinvc⟩ := tickShip_lives gb hinvb hob
  exact ⟨hone, livesInvariant_icons gb hinvb (by omega), gc, hc,
    tick_eval assets sqrt g ga gb gc inp hover hwin ha hb hc, hinvc.1, hinvc.2.1, hinvc.2.2⟩

/-! ## The respawn of the spider -/

theorem spider_update_isAlive (s : Spider K) (dt : K) : (s.update dt).isAlive = s.isAlive := by
  unfold Spider.update
  dsimp only
  split_ifs <;> rfl

/-- No laser overlaps the spider: the laser-spider loop changes nothing. -/
theorem lasersVsSpider_miss (now : K) (spider : Spider K) (clock : K) :
    ∀ (lasers : List (ECE_LaserBlast K)) (score : Int),
      (∀ l ∈ lasers, spider.sprite.getGlobalBounds.intersects l.getGlobalBounds = false) →
      lasersVsSpider now lasers spider clock score = (lasers, spider, clock, score)
  | [], _, _ => rfl
  | l :: ls, score, hmiss => by
    have hl := hmiss l (List.mem_cons_self _ _)
    have hc : spider.checkLaserCollision l.getGlobalBounds clock now score
        = (false, spider, clock, score) := by
      simp [Spider.checkLaserCollision, hl]
    simp only [lasersVsSpider, hc,
      lasersVsSpider_miss now spider clock ls score (fun p hp => hmiss p (List.mem_cons_of_mem _ hp))]
    simp

/-- The first laser that overlaps a live spider kills it: that laser is removed, the respawn
clock is restarted and 300 is added to the score; the lasers after it find a dead spider. -/
theorem lasersVsSpider_hit (now : K) (spider : Spider K) (clock : K)
    (halive : spider.isAlive = true) (l : ECE_LaserBlast K) (post : List (ECE_LaserBlast K))
    (hhit : spider.sprite.getGlobalBounds.intersects l.getGlobalBounds = true) :
    ∀ (pre : List (ECE_LaserBlast K)) (score : Int),
      (∀ p ∈ pre, spider.sprite.getGlobalBounds.intersects p.getGlobalBounds = false) →
      lasersVsSpider now (pre ++ l :: post) spider clock score =
        (pre ++ post, { spider with isAlive := false }, now, score + 300)
  | [], score, _ => by
    have hc : spider.checkLaserCollision l.getGlobalBounds clock now score
        = (true, { spider with isAlive := false }, now, score + 300) := by
      simp [Spider.checkLaserCollision, halive, hhit]
    simp only [List.nil_append, lasersVsSpider, hc,
      lasersVsSpider_dead now { spider with isAlive := false } now rfl post (score + 300)]
    simp
  | p :: pre, score, hmiss => by
    have hp := hmiss p (List.mem_cons_self _ _)
    have hc : spider.checkLaserCollision p.getGlobalBounds clock now score
        = (false, spider, clock, score) := by
      simp [Spider.checkLaserCollision, hp]
    have ih := lasersVsSpider_hit now spider clock halive l post hhit pre score
      (fun q hq => hmiss q (List.mem_cons_of_mem _ hq))
    simp only [List.cons_append, lasersVsSpider, hc, List.append_eq]
    rw [ih]
    simp

/-- Some laser overlaps the spider: the list splits at the first such laser. -/
theorem first_laser_on_spider (spider : Spider K) :
    ∀ (lasers : List (ECE_LaserBlast K)),
      (∃ l ∈ lasers, spider.sprite.getGlobalBounds.intersects l.getGlobalBounds = true) →
      ∃ pre l post, lasers = pre ++ l :: post ∧
        (∀ p ∈ pre, spider.sprite.getGlobalBounds.intersects p.getGlobalBounds = false) ∧
        spider.sprite.getGlobalBounds.intersects l.getGlobalBounds = true
  | [], h => by
    obtain ⟨l, hl, -⟩ := h
    exact absurd hl (List.not_mem_nil l)
  | a :: ls, h => by
    by_cases ha : spider.sprite.getGlobalBounds.intersects a.getGlobalBounds = true
    · exact ⟨[], a, ls, rfl, fun p hp => absurd hp (List.not_mem_nil p), ha⟩
    · have hrest : ∃ l ∈ ls,
          spider.sprite.getGlobalBounds.intersects l.getGlobalBounds = true := by
        obtain ⟨l, hl, hhit⟩ := h
        rcases List.mem_cons.1 hl with rfl | hl
        · exact absurd hhit ha
        · exact ⟨l, hl, hhit⟩
      obtain ⟨pre, l, post, he, hmiss, hhit⟩ := first_laser_on_spider spider ls hrest
      refine ⟨a :: pre, l, post, by rw [he]; rfl, ?_, hhit⟩
      intro p hp
      rcases List.mem_cons.1 hp with rfl | hp
      · simpa using ha
      · exact hmiss p hp

/-- The laser-spider phase on a live spider: it stays alive, with its clock, exactly when no
laser overlaps it; otherwise it is dead and the clock was restarted at `now`. -/
theorem phaseLasersVsSpider_alive (inp : Input K) (g : Game K) (halive : g.spider.isAlive = true) :
    ((∀ l ∈ g.lasers, g.spider.sprite.getGlobalBounds.intersects l.getGlobalBounds = false) →
      phaseLasersVsSpider inp g = g) ∧
    ((∃ l ∈ g.lasers, g.spider.sprite.getGlobalBounds.intersects l.getGlobalBounds = true) →
      (phaseLasersVsSpider inp g).spider = { g.spider with isAlive := false } ∧
      (phaseLasersVsSpider inp g).spiderRespawnClock = inp.now ∧
      (phaseLasersVsSpider inp g).score = g.score + 300) := by
  constructor
  · intro hmiss
    unfold phaseLasersVsSpider
    rw [lasersVsSpider_miss inp.now g.spider g.spiderRespawnClock g.lasers g.score hmiss]
  · intro hsome
    obtain ⟨pre, l, post, he, hmiss, hhit⟩ := first_laser_on_spider g.spider g.lasers hsome
    unfold phaseLasersVsSpider
    rw [he, lasersVsSpider_hit inp.now g.spider g.spiderRespawnClock halive l post hhit pre
      g.score hmiss]
    exact ⟨rfl, rfl, rfl⟩

theorem phaseRespawnSpider_due (inp : Input K) (g : Game K)
    (hdead : g.spider.isAlive = false) (h : 5 ≤ inp.now - g.spiderRespawnClock) :
    phaseRespawnSpider inp g = { g with spider := g.spider.setIsAlive true } := by
  unfold phaseRespawnSpider
  rw [if_pos]
  simp [Spider.getIsAlive, hdead, h]


/-- A tick of the running game whose respawn check finds a dead spider and samples at least
5 seconds: the state `g3` the check runs on has the spider and the clock of the start of the
tick, and the state `g8` on which the laser-spider phase runs has that spider, set alive and
moved, and the same clock. -/
theorem tick_respawn_due (assets : Assets) (sqrt : K → K) (g g2 : Game K) (inp : Input K)
    (hover : g.gameOver = false) (hwin : g.youWin = false)
    (hdead : g.spider.isAlive = false) (hlate : 5 ≤ inp.now - g.spiderRespawnClock)
    (h : tick assets sqrt g inp = .ok g2) :
    ∃ ga g3 g8, phaseUpdateCentipedes sqrt inp g = .ok ga ∧
      phaseCentipedesVsMushrooms (phaseWinCheck ga) = .ok g3 ∧
      g3.spider = g.spider ∧ g3.spiderRespawnClock = g.spiderRespawnClock ∧
      g8 = phaseLasersVsCentipedes (phaseLasersVsMushrooms assets (phaseUpdateLasers inp
        (phaseShoot assets inp
          (phaseUpdateSpider inp (phaseRespawnSpider inp g3)).spaceship.getPosition
          (phaseMoveShip assets inp (phaseUpdateSpider inp (phaseRespawnSpider inp g3)))))) ∧
      tickMiddle assets inp ga = .ok (phaseLasersVsSpider inp g8) ∧
      tickShip (phaseLasersVsSpider inp g8) = .ok g2 ∧
      g8.spider = (g.spider.setIsAlive true).update inp.deltaTime ∧
      g8.spiderRespawnClock = g.spiderRespawnClock := by
  rw [tick_of_open assets sqrt g inp hover hwin] at h
  cases ha : phaseUpdateCentipedes sqrt inp g with
  | error e => rw [ha] at h; simp at h
  | ok ga =>
    rw [ha] at h
    dsimp only at h
    cases hb : tickMiddle assets inp ga with
    | error e => rw [hb] at h; simp at h
    | ok gb =>
      rw [hb] at h
      dsimp only at h
      obtain ⟨ea, -⟩ := phaseUpdateCentipedes_eq sqrt inp g ga ha
      obtain ⟨g3, h3, rfl⟩ := tickMiddle_eq assets inp ga gb hb
      have e3 := phaseCentipedesVsMushrooms_eq _ g3 h3
      have hw := phaseWinCheck_frame ga
      have s3 : g3.spider = g.spider := by
        rw [e3]
        show (phaseWinCheck ga).spider = _
        rw [hw.2.2.2.2.2, ea]
      have c3 : g3.spiderRespawnClock = g.spiderRespawnClock := by
        rw [e3]
        show (phaseWinCheck ga).spiderRespawnClock = _
        rw [hw.2.2.2.2.1, ea]
      have hr := phaseRespawnSpider_due inp g3 (by rw [s3]; exact hdead) (by rw [c3]; exact hlate)
      have hs := phaseShoot_frame assets inp
        (phaseUpdateSpider inp (phaseRespawnSpider inp g3)).spaceship.getPosition
        (phaseMoveShip assets inp (phaseUpdateSpider inp (phaseRespawnSpider inp g3)))
      refine ⟨ga, g3, _, rfl, h3, s3, c3, rfl, hb, h, ?_, ?_⟩
      · show (phaseShoot _ _ _ _).spider = _
        rw [hs.2.2.2.2.2]
        show (phaseRespawnSpider inp g3).spider.update inp.deltaTime = _
        rw [hr, ← s3]
      · show (phaseShoot _ _ _ _).spiderRespawnClock = _
        rw [hs.2.2.2.2.1]
        show (phaseRespawnSpider inp g3).spiderRespawnClock = _
        rw [hr]
        exact c3

/-- C9: with the respawn clock read as the time since the spider was killed (`now` minus the
time of the kill, at which the clock was restarted). From any state `g` with a dead spider:
after any number of ticks whose respawn checks all sample less than 5 seconds the spider is
dead and its clock is untouched. The first tick after them that samples at least 5 seconds, in
the running game, sets the spider alive in its respawn check: the phases that follow run on the
live spider, and the tick ends with the spider alive and the clock untouched, unless a laser
overlaps the spider in the laser-spider phase of that same tick, which kills it again and
restarts the clock at the time of that tick. A tick only ends with the spider alive if the game
was running and the sample was at least 5 seconds, so no other step sets it alive. From a state
in which every creature has a segment and there is an icon for each life, these ticks all run
to their end. -/
theorem spider_respawns_after_five_seconds (assets : Assets) (sqrt : K → K) (g : Game K)
    (hdead : g.spider.isAlive = false) :
    (∀ (inps : List (Input K)) (g1 : Game K),
      (∀ inp ∈ inps, inp.now - g.spiderRespawnClock < 5) →
      run assets sqrt g inps = .ok g1 →
      g1.spider.isAlive = false ∧ g1.spiderRespawnClock = g.spiderRespawnClock) ∧
    (∀ (inps : List (Input K)) (inp : Input K) (g1 g2 : Game K),
      (∀ i ∈ inps, i.now - g.spiderRespawnClock < 5) →
      run assets sqrt g inps = .ok g1 →
      g1.gameOver = false → g1.youWin = false →
      5 ≤ inp.now - g.spiderRespawnClock →
      tick assets sqrt g1 inp = .ok g2 →
      (g2.spider.isAlive = true ∧ g2.spiderRespawnClock = g.spiderRespawnClock ∨
        g2.spider.isAlive = false ∧ g2.spiderRespawnClock = inp.now) ∧
      ∃ ga g3 g8, phaseUpdateCentipedes sqrt inp g1 = .ok ga ∧
        phaseCentipedesVsMushrooms (phaseWinCheck ga) = .ok g3 ∧
        g3.spider.isAlive = false ∧
        (phaseRespawnSpider inp g3).spider.isAlive = true ∧
        g8 = phaseLasersVsCentipedes (phaseLasersVsMushrooms assets (phaseUpdateLasers inp
          (phaseShoot assets inp
            (phaseUpdateSpider inp (phaseRespawnSpider inp g3)).spaceship.getPosition
            (phaseMoveShip assets inp (phaseUpdateSpider inp (phaseRespawnSpider inp g3)))))) ∧
        tickMiddle assets inp ga = .ok (phaseLasersVsSpider inp g8) ∧
        tickShip (phaseLasersVsSpider inp g8) = .ok g2 ∧
        g8.spider.isAlive = true ∧
        ((∀ l ∈ g8.lasers,
            g8.spider.sprite.getGlobalBounds.intersects l.getGlobalBounds = false) →
          g2.spider = g8.spider ∧ g2.spider.isAlive = true ∧
          g2.spiderRespawnClock = g.spiderRespawnClock) ∧
        ((∃ l ∈ g8.lasers,
            g8.spider.sprite.getGlobalBounds.intersects l.getGlobalBounds = true) →
          g2.spider.isAlive = false ∧ g2.spiderRespawnClock = inp.now)) ∧
    (∀ (inp : Input K) (ga g3 : Game K),
      5 ≤ inp.now - g.spiderRespawnClock →
      phaseUpdateCentipedes sqrt inp g = .ok ga →
      phaseCentipedesVsMushrooms (phaseWinCheck ga) = .ok g3 →
      g3.spider = g.spider ∧ g3.spiderRespawnClock = g.spiderRespawnClock ∧
      (phaseRespawnSpider inp g3).spider.isAlive = true) ∧
    (∀ (inp : Input K) (g1 : Game K),
      tick assets sqrt g inp = .ok g1 → g1.spider.isAlive = true →
      g.gameOver = false ∧ g.youWin = false ∧ 5 ≤ inp.now - g.spiderRespawnClock) ∧
    (∀ (inps : List (Input K)) (inp : Input K),
      NonEmptyCreatures g.centipedes → LivesInvariant g →
      ∃ g1 g2, run assets sqrt g inps = .ok g1 ∧ tick assets sqrt g1 inp = .ok g2) := by
  refine ⟨fun inps g1 hearly h => run_spider_stays_dead assets sqrt inps g g1 hdead hearly h,
    fun inps inp g1 g2 hearly hrun hover hwin hlate h => ?_,
    fun inp ga g3 hlate ha h3 => ?_, fun inp g1 h halive => ?_,
    fun inps inp hne hinv => ?_⟩
  · obtain ⟨hdead1, hclock1⟩ := run_spider_stays_dead assets sqrt inps g g1 hdead hearly hrun
    obtain ⟨ga, g3, g8, ha, h3, s3, c3, e8, hmid, hship, hs8, hc8⟩ :=
      tick_respawn_due assets sqrt g1 g2 inp hover hwin hdead1 (by rw [hclock1]; exact hlate) h
    have halive8 : g8.spider.isAlive = true := by
      rw [hs8, spider_update_isAlive]
      rfl
    have hf := tickShip_frame _ g2 hship
    have hl := phaseLasersVsSpider_alive inp g8 halive8
    have hmiss : (∀ l ∈ g8.lasers,
        g8.spider.sprite.getGlobalBounds.intersects l.getGlobalBounds = false) →
        g2.spider = g8.spider ∧ g2.spider.isAlive = true ∧
        g2.spiderRespawnClock = g.spiderRespawnClock := by
      intro hm
      have he := hl.1 hm
      rw [he] at hf
      exact ⟨hf.2.1, by rw [hf.2.1]; exact halive8, by rw [hf.2.2.1, hc8, hclock1]⟩
    have hhit : (∃ l ∈ g8.lasers,
        g8.spider.sprite.getGlobalBounds.intersects l.getGlobalBounds = true) →
        g2.spider.isAlive = false ∧ g2.spiderRespawnClock = inp.now := by
      intro hh
      obtain ⟨hsp, hcl, -⟩ := hl.2 hh
      exact ⟨by rw [hf.2.1, hsp], by rw [hf.2.2.1, hcl]⟩
    refine ⟨?_, ga, g3, g8, ha, h3, by rw [s3]; exact hdead1,
      phaseRespawnSpider_alive inp g3 (by rw [s3]; exact hdead1)
        (by rw [c3, hclock1]; exact hlate),
      e8, hmid, hship, halive8, hmiss, hhit⟩
    by_cases hany : ∃ l ∈ g8.lasers,
        g8.spider.sprite.getGlobalBounds.intersects l.getGlobalBounds = true
    · exact Or.inr (hhit hany)
    · left
      have hm := hmiss (fun l hl => by
        by_contra hcon
        exact hany ⟨l, hl, by simpa using hcon⟩)
      exact ⟨hm.2.1, hm.2.2⟩
  · obtain ⟨ea, -⟩ := phaseUpdateCentipedes_eq sqrt inp g ga ha
    have e3 := phaseCentipedesVsMushrooms_eq _ g3 h3
    have hw := phaseWinCheck_frame ga
    have s3 : g3.spider = g.spider := by
      rw [e3]
      show (phaseWinCheck ga).spider = _
      rw [hw.2.2.2.2.2, ea]
    have c3 : g3.spiderRespawnClock = g.spiderRespawnClock := by
      rw [e3]
      show (phaseWinCheck ga).spiderRespawnClock = _
      rw [hw.2.2.2.2.1, ea]
    exact ⟨s3, c3, phaseRespawnSpider_alive inp g3 (by rw [s3]; exact hdead)
      (by rw [c3]; exact hlate)⟩
  · by_contra hcon
    have hearly : g.gameOver = false → g.youWin = false →
        inp.now - g.spiderRespawnClock < 5 := by
      intro ho hw
      by_contra hge
      exact hcon ⟨ho, hw, not_lt.1 hge⟩
    have := (tick_spider_stays_dead assets sqrt g g1 inp hdead hearly h).1
    rw [this] at halive
    exact absurd halive (by simp)
  · obtain ⟨g1, h1, hinv1, hne1⟩ := run_lives assets sqrt inps g hinv hne
    obtain ⟨g2, h2, -, -⟩ := tick_lives assets sqrt g1 inp hinv1 hne1
    exact ⟨g1, g2, h1, h2⟩


/-! ## A tick that respawns the spider, evaluated -/

theorem phaseUpdateSpider_eval (inp : Input K) (g : Game K) (dt : K) (s s1 : Spider K)
    (ms ms1 : List (Mushroom K)) (hd : inp.deltaTime = dt) (hs : g.spider = s)
    (hm : g.mushrooms = ms) (hu : s.update dt = s1)
    (he : (s1.checkMushroomCollision ms).2 = ms1) :
    phaseUpdateSpider inp g = { g with spider := s1, mushrooms := ms1 } := by
  unfold phaseUpdateSpider
  rw [hd, hs, hm]
  dsimp only
  rw [hu, he]

theorem phaseUpdateLasers_eval (inp : Input K) (g : Game K) (dt : K)
    (ls ls1 : List (ECE_LaserBlast K)) (hd : inp.deltaTime = dt) (hl : g.lasers = ls)
    (h : updateLasers dt ls = ls1) :
    phaseUpdateLasers inp g = { g with lasers := ls1 } := by
  unfold phaseUpdateLasers
  rw [hd, hl, h]

theorem phaseLasersVsMushrooms_eval (assets : Assets) (g : Game K) (t : Texture)
    (ls ls1 : List (ECE_LaserBlast K)) (ms ms1 : List (Mushroom K)) (sc sc1 : Int)
    (ht : assets.mushroomSmallTexture = t) (hl : g.lasers = ls) (hm : g.mushrooms = ms)
    (hs : g.score = sc) (h : lasersVsMushrooms t ls ms sc = (ls1, ms1, sc1)) :
    phaseLasersVsMushrooms assets g = { g with lasers := ls1, mushrooms := ms1, score := sc1 } := by
  unfold phaseLasersVsMushrooms
  rw [ht, hl, hm, hs, h]

theorem phaseLasersVsSpider_nil (inp : Input K) (g : Game K) (h : g.lasers = []) :
    phaseLasersVsSpider inp g = g := by
  obtain ⟨cs, ms, ship, lives, icons, spider, lasers, lc, sc, score, over, win⟩ := g
  dsimp only at h
  subst h
  rfl

/-- The spaceship phases with no creature left and the spider away from the spaceship. -/
theorem tickShip_away (g : Game K) (hc : g.centipedes = [])
    (hs : g.spider.sprite.getGlobalBounds.intersects g.spaceship.getGlobalBounds = false) :
    tickShip g = .ok g := by
  unfold tickShip phaseCentipedesVsShip
  rw [hc]
  simp [centipedesVsShip, phaseSpiderVsShip, Spider.checkSpaceshipCollision, hs]

theorem liveSpider_respawn_update :
    (({ liveSpider with isAlive := false } : Spider ℚ).setIsAlive true).update (1 / 100)
      = liveSpiderA := by
  norm_num [liveSpider, liveSpiderA, Spider.setIsAlive, Spider.update, Sprite.create,
    Sprite.move, Sprite.getPosition, Sprite.getGlobalBounds, Vector2.scale, Vector2.add,
    SPIDER_SPEED, SCREEN_WIDTH, SCREEN_HEIGHT]

theorem liveSpiderA_mushrooms :
    (liveSpiderA.checkMushroomCollision [mushroom0.damaged assets0.mushroomSmallTexture]).2
      = [mushroom0.damaged assets0.mushroomSmallTexture] := by
  norm_num [liveSpiderA, liveSpider, Spider.checkMushroomCollision, Spider.eraseFirstHit,
    mushroom0, Mushroom.damaged, Mushroom.create, Sprite.create, Sprite.setTexture,
    Sprite.getGlobalBounds, FloatRect.intersects, assets0]

theorem gameLastW_spider :
    phaseUpdateSpider (idle (1 / 100) 5) (phaseRespawnSpider (idle (1 / 100) 5) gameLastW)
      = gameLastR := by
  rw [phaseRespawnSpider_due (idle (1 / 100) 5) gameLastW rfl
    (show (5 : ℚ) ≤ 5 - 0 by norm_num)]
  exact phaseUpdateSpider_eval (idle (1 / 100) 5) _ (1 / 100) _ liveSpiderA
    [mushroom0.damaged assets0.mushroomSmallTexture] _ rfl rfl rfl liveSpider_respawn_update
    liveSpiderA_mushrooms

theorem laser_update_135 :
    updateLasers (1 / 100 : ℚ) [ECE_LaserBlast.create laserTex 210 135]
      = [ECE_LaserBlast.create laserTex 210 129] := by
  norm_num [updateLasers, ECE_LaserBlast.update, ECE_LaserBlast.isOffScreen,
    ECE_LaserBlast.create, Sprite.create, Sprite.move, Sprite.getPosition, Vector2.add,
    LASER_SPEED]

theorem laser_129_on_mushroom :
    lasersVsMushrooms assets0.mushroomSmallTexture [ECE_LaserBlast.create laserTex 210 129]
        [mushroom0.damaged assets0.mushroomSmallTexture] 100
      = (([] : List (ECE_LaserBlast ℚ)), [], 104) := by
  norm_num [lasersVsMushrooms, laserVsMushrooms, mushroom0, Mushroom.damaged, Mushroom.create,
    ECE_LaserBlast.create, ECE_LaserBlast.getGlobalBounds, Sprite.create, Sprite.setTexture,
    Sprite.getGlobalBounds, FloatRect.intersects, assets0, laserTex]

theorem liveSpiderA_away :
    liveSpiderA.sprite.getGlobalBounds.intersects
      (Sprite.create assets0.starshipTexture (initialPosition : Vector2 ℚ)).getGlobalBounds
        = false := by
  norm_num [liveSpiderA, liveSpider, Sprite.create, Sprite.getGlobalBounds,
    FloatRect.intersects, assets0, initialPosition, SCREEN_WIDTH, SCREEN_HEIGHT, BOTTOM_BUFFER]

/-- The tick from `gameLast1` at time 5: the spider, dead since time 0, is alive at its end. -/
theorem gameLast1_tick_at_5 :
    tick assets0 ratSqrt gameLast1 (idle (1 / 100) 5) = .ok gameLast5 :=
  tick_eval assets0 ratSqrt gameLast1 gameLast1 gameLast5 gameLast5 (idle (1 / 100) 5) rfl rfl
    (phaseUpdateCentipedes_nil ratSqrt _ gameLast1 rfl)
    (tickMiddle_eval assets0 (idle (1 / 100) 5) gameLast1 gameLastW gameLastR gameLastR
      gameLastS gameLast5 gameLast5 gameLast5 gameLastR.spaceship.getPosition
      (by rw [phaseWinCheck_nil gameLast1 rfl]; exact phaseCentipedesVsMushrooms_nil gameLastW rfl)
      gameLastW_spider
      rfl
      (by rw [phaseMoveShip_idle, phaseShoot_idle])
      (phaseUpdateLasers_eval (idle (1 / 100) 5) gameLastR (1 / 100) _ _ rfl rfl laser_update_135)
      (phaseLasersVsMushrooms_eval assets0 gameLastS _ _ _ _ _ 100 104 rfl rfl rfl rfl
        laser_129_on_mushroom)
      (phaseLasersVsCentipedes_eval gameLast5 [] [] [] [] 104 104 rfl rfl rfl rfl)
      (phaseLasersVsSpider_nil _ gameLast5 rfl))
    (tickShip_away gameLast5 rfl liveSpiderA_away)


/-- C9 on `gameLast`, whose spider was killed at time 0: it is dead after the tick at 0.01 s,
and the tick at 5 s that follows sets it alive in its respawn check and ends with it alive. -/
theorem spider_respawns_after_five_seconds_witness :
    gameLast.spider.isAlive = false ∧ gameLast.spiderRespawnClock = 0 ∧
    run assets0 ratSqrt gameLast [idle (1 / 100) (1 / 100)] = .ok gameLast1 ∧
    gameLast1.spider.isAlive = false ∧
    tick assets0 ratSqrt gameLast1 (idle (1 / 100) 5) = .ok gameLast5 ∧
    gameLast5.spider.isAlive = true ∧
    (gameLast5.spider.isAlive = true ∧ gameLast5.spiderRespawnClock = 0 ∨
      gameLast5.spider.isAlive = false ∧ gameLast5.spiderRespawnClock = 5) ∧
    ∃ ga g3 g8 : Game ℚ,
      phaseUpdateCentipedes ratSqrt (idle (1 / 100) 5) gameLast1 = .ok ga ∧
      phaseCentipedesVsMushrooms (phaseWinCheck ga) = .ok g3 ∧
      g3.spider.isAlive = false ∧
      (phaseRespawnSpider (idle (1 / 100) 5) g3).spider.isAlive = true ∧
      tickMiddle assets0 (idle (1 / 100) 5) ga = .ok (phaseLasersVsSpider (idle (1 / 100) 5) g8) ∧
      tickShip (phaseLasersVsSpider (idle (1 / 100) 5) g8) = .ok gameLast5 ∧
      g8.spider.isAlive = true := by
  have hrun : run assets0 ratSqrt gameLast [idle (1 / 100) (1 / 100)] = .ok gameLast1 := by
    simp only [run, gameLast_tick (1 / 100) (by norm_num)]
  have hearly : ∀ i ∈ [idle (1 / 100) (1 / 100 : ℚ)],
      i.now - gameLast.spiderRespawnClock < 5 := by
    intro i hi
    rw [List.mem_singleton.1 hi]
    show (1 / 100 : ℚ) - 0 < 5
    norm_num
  have h := spider_respawns_after_five_seconds assets0 ratSqrt gameLast rfl
  obtain ⟨hend, ga, g3, g8, ha, h3, hd3, hr, -, hmid, hship, h8, -, -⟩ :=
    h.2.1 [idle (1 / 100) (1 / 100)] (idle (1 / 100) 5) gameLast1 gameLast5 hearly hrun rfl rfl
      (show (5 : ℚ) ≤ 5 - 0 by norm_num) gameLast1_tick_at_5
  exact ⟨rfl, rfl, hrun, (h.1 _ gameLast1 hearly hrun).1, gameLast1_tick_at_5, rfl, hend,
    ga, g3, g8, ha, h3, hd3, hr, hmid, hship, h8⟩

/-! ## The vertical sense in the play field -/

theorem create_built (headTexture bodyTexture : Texture) (numSegments : Nat)
    (startPosition : Vector2 K) (hh : headTexture.height = 27) (hb : bodyTexture.height = 27) :
    (ECE_Centipede.create headTexture bodyTexture numSegments startPosition :
      ECE_Centipede K).Built := by
  refine ⟨rfl, ?_⟩
  intro seg hseg
  simp only [ECE_Centipede.create, List.mem_cons, List.mem_map] at hseg
  rcases hseg with rfl | ⟨j, -, rfl⟩
  · simp [Sprite.create, hh]
  · simp [Sprite.create, hb]

theorem moveVertically_built (c c1 : ECE_Centipede K) (p : Vector2 K) (hb : c.Built)
    (h : c.moveVertically p = .ok c1) : c1.Built := by
  cases hs : c.segments with
  | nil => simp [moveVertically, hs] at h
  | cons head rest =>
    obtain ⟨c2, h2, hseg, -, -, -, -, hlow⟩ := moveVertically_ok c p head rest hs
    rw [h2] at h
    simp only [Except.ok.injEq] at h
    subst h
    refine ⟨by rw [hlow]; exact hb.1, ?_⟩
    intro seg hseg2
    rw [hseg] at hseg2
    rcases List.mem_cons.1 hseg2 with rfl | hmem
    · exact hb.2 head (by rw [hs]; exact List.mem_cons_self _ _)
    · exact hb.2 seg (by rw [hs]; exact List.mem_cons_of_mem _ hmem)

theorem built_of_sense (c : ECE_Centipede K) (down : Bool) (hb : c.Built) :
    ({ c with moveDirectionDown := down } : ECE_Centipede K).Built := hb

theorem built_of_direction (c : ECE_Centipede K) (d : Vector2 K) (hb : c.Built) :
    ({ c with direction := d } : ECE_Centipede K).Built := hb

theorem checkBounds_built (c c1 : ECE_Centipede K) (hb : c.Built)
    (h : c.checkBounds = .ok c1) : c1.Built := by
  obtain ⟨segs, ht, bt, fd, dir, down, lb, rb, lob⟩ := c
  cases segs with
  | nil => simp [checkBounds] at h
  | cons head rest =>
    unfold checkBounds at h
    dsimp only at h
    have hturned : ∀ t, (if head.getPosition.x ≤ lb then
          moveVertically (⟨head :: rest, ht, bt, fd, ⟨1, 0⟩, down, lb, rb, lob⟩ :
            ECE_Centipede K) head.getPosition
        else if head.getPosition.x + 27 ≥ rb then
          moveVertically (⟨head :: rest, ht, bt, fd, ⟨-1, 0⟩, down, lb, rb, lob⟩ :
            ECE_Centipede K) head.getPosition
        else .ok ⟨head :: rest, ht, bt, fd, dir, down, lb, rb, lob⟩) = .ok t → t.Built := by
      intro t htt
      split_ifs at htt
      · exact moveVertically_built _ t _ (built_of_direction _ ⟨1, 0⟩ hb) htt
      · exact moveVertically_built _ t _ (built_of_direction _ ⟨-1, 0⟩ hb) htt
      · simp only [Except.ok.injEq] at htt
        rw [← htt]
        exact hb
    cases htt : (if head.getPosition.x ≤ lb then
          moveVertically (⟨head :: rest, ht, bt, fd, ⟨1, 0⟩, down, lb, rb, lob⟩ :
            ECE_Centipede K) head.getPosition
        else if head.getPosition.x + 27 ≥ rb then
          moveVertically (⟨head :: rest, ht, bt, fd, ⟨-1, 0⟩, down, lb, rb, lob⟩ :
            ECE_Centipede K) head.getPosition
        else .ok ⟨head :: rest, ht, bt, fd, dir, down, lb, rb, lob⟩) with
    | error e => rw [htt] at h; simp at h
    | ok t =>
      rw [htt] at h
      dsimp only at h
      have hbt := hturned t htt
      split_ifs at h
      · simp only [Except.ok.injEq] at h
        rw [← h]
        exact built_of_sense t true hbt
      · simp only [Except.ok.injEq] at h
        rw [← h]
        exact built_of_sense t false hbt
      · simp only [Except.ok.injEq] at h
        rw [← h]
        exact hbt

theorem follow_heights (sqrt : K → K) (fd dt : K) :
    ∀ (prev : Sprite K) (segs : List (Sprite K)), (∀ seg ∈ segs, seg.height = 27) →
      ∀ seg ∈ follow sqrt fd dt prev segs, seg.height = 27
  | _, [], _ => fun seg hseg => by simp [follow] at hseg
  | prev, a :: rest, h => by
    intro seg hseg
    unfold follow at hseg
    dsimp only at hseg
    rcases List.mem_cons.1 hseg with rfl | hmem
    · have ha := h a (List.mem_cons_self _ _)
      split_ifs
      · exact ha
      · exact ha
    · exact follow_heights sqrt fd dt _ rest (fun s hs => h s (List.mem_cons_of_mem _ hs))
        seg hmem

theorem update_built (sqrt : K → K) (c c1 : ECE_Centipede K) (dt : K) (hb : c.Built)
    (h : c.update sqrt dt = .ok c1) : c1.Built := by
  obtain ⟨segs, ht, bt, fd, dir, down, lb, rb, lob⟩ := c
  cases segs with
  | nil => simp [update] at h
  | cons head rest =>
    unfold update at h
    dsimp only at h
    have hmoved : (⟨head.move ((dir.scale CENTIPEDE_SPEED).scale dt) :: rest, ht, bt, fd, dir,
        down, lb, rb, lob⟩ : ECE_Centipede K).Built := by
      refine ⟨hb.1, ?_⟩
      intro seg hseg
      rcases List.mem_cons.1 hseg with rfl | hmem
      · exact hb.2 head (List.mem_cons_self _ _)
      · exact hb.2 seg (List.mem_cons_of_mem _ hmem)
    cases hcb : checkBounds (⟨head.move ((dir.scale CENTIPEDE_SPEED).scale dt) :: rest, ht, bt,
        fd, dir, down, lb, rb, lob⟩ : ECE_Centipede K) with
    | error e => rw [hcb] at h; simp at h
    | ok c2 =>
      rw [hcb] at h
      dsimp only at h
      have hb2 := checkBounds_built _ c2 hmoved hcb
      obtain ⟨segs2, ht2, bt2, fd2, dir2, down2, lb2, rb2, lob2⟩ := c2
      cases segs2 with
      | nil =>
        simp only [Except.ok.injEq] at h
        rw [← h]
        exact hb2
      | cons head2 body =>
        simp only [Except.ok.injEq] at h
        rw [← h]
        refine ⟨hb2.1, ?_⟩
        intro seg hseg
        rcases List.mem_cons.1 hseg with rfl | hmem
        · exact hb2.2 _ (List.mem_cons_self _ _)
        · exact follow_heights sqrt _ dt _ body
            (fun s hsm => hb2.2 s (List.mem_cons_of_mem _ hsm)) seg hmem

theorem checkMushroomCollision_built (c : ECE_Centipede K) (hb : c.Built) :
    ∀ (mushrooms : List (Mushroom K)) (c1 : ECE_Centipede K),
      c.checkMushroomCollision mushrooms = .ok c1 → c1.Built
  | [], c1, h => by
    simp only [checkMushroomCollision, Except.ok.injEq] at h
    rw [← h]
    exact hb
  | m :: ms, c1, h => by
    have ih := checkMushroomCollision_built c hb ms c1
    obtain ⟨segs, ht, bt, fd, dir, down, lb, rb, lob⟩ := c
    cases segs with
    | nil => simp [checkMushroomCollision] at h
    | cons head rest =>
      unfold checkMushroomCollision at h
      dsimp only at h
      split_ifs at h
      · exact moveVertically_built _ c1 _ (built_of_direction _ ⟨-dir.x, dir.y⟩ hb) h
      · exact ih h

theorem updateCentipedes_built (sqrt : K → K) (dt : K) :
    ∀ (cs cs1 : List (ECE_Centipede K)), (∀ c ∈ cs, c.Built) →
      updateCentipedes sqrt dt cs = .ok cs1 → ∀ c ∈ cs1, c.Built
  | [], cs1, _, h => by
    simp only [updateCentipedes, Except.ok.injEq] at h
    rw [← h]
    exact fun c hc => absurd hc (List.not_mem_nil c)
  | a :: cs, cs1, hb, h => by
    unfold updateCentipedes at h
    cases ha : a.update sqrt dt with
    | error e => rw [ha] at h; simp at h
    | ok a1 =>
      rw [ha] at h
      dsimp only at h
      cases hr : updateCentipedes sqrt dt cs with
      | error e => rw [hr] at h; simp at h
      | ok cs2 =>
        rw [hr] at h
        dsimp only at h
        have ih := updateCentipedes_built sqrt dt cs cs2
          (fun c hc => hb c (List.mem_cons_of_mem _ hc)) hr
        have ha1 := update_built sqrt a a1 dt (hb a (List.mem_cons_self _ _)) ha
        split_ifs at h
        · simp only [Except.ok.injEq] at h
          rw [← h]
          exact ih
        · simp only [Except.ok.injEq] at h
          rw [← h]
          intro c hc
          rcases List.mem_cons.1 hc with rfl | hc
          · exact ha1
          · exact ih c hc

theorem centipedesVsMushrooms_built (mushrooms : List (Mushroom K)) :
    ∀ (cs cs1 : List (ECE_Centipede K)), (∀ c ∈ cs, c.Built) →
      centipedesVsMushrooms mushrooms cs = .ok cs1 → ∀ c ∈ cs1, c.Built
  | [], cs1, _, h => by
    simp only [centipedesVsMushrooms, Except.ok.injEq] at h
    rw [← h]
    exact fun c hc => absurd hc (List.not_mem_nil c)
  | a :: cs, cs1, hb, h => by
    unfold centipedesVsMushrooms at h
    cases ha : a.checkMushroomCollision mushrooms with
    | error e => rw [ha] at h; simp at h
    | ok a1 =>
      rw [ha] at h
      dsimp only at h
      cases hr : centipedesVsMushrooms mushrooms cs with
      | error e => rw [hr] at h; simp at h
      | ok cs2 =>
        rw [hr] at h
        simp only [Except.ok.injEq] at h
        rw [← h]
        intro c hc
        rcases List.mem_cons.1 hc with rfl | hc
        · exact checkMushroomCollision_built a (hb a (List.mem_cons_self _ _)) mushrooms _ ha
        · exact centipedesVsMushrooms_built mushrooms cs cs2
            (fun d hd => hb d (List.mem_cons_of_mem _ hd)) hr c hc

theorem splitOff_built (self : ECE_Centipede K) (newSegments : List (Sprite K))
    (direction : Vector2 K) (h : ∀ seg ∈ newSegments, seg.height = 27) :
    (splitOff self newSegments direction).Built := by
  refine ⟨rfl, ?_⟩
  intro seg hseg
  cases newSegments with
  | nil => simp [splitOff, setFirstTexture] at hseg
  | cons a rest =>
    simp only [splitOff, setFirstTexture, List.mem_cons] at hseg
    rcases hseg with rfl | hmem
    · exact h a (List.mem_cons_self _ _)
    · exact h seg (List.mem_cons_of_mem _ hmem)

/-- One call of `checkLaserCollision` on a creature as the game builds it: the creature
afterwards and every creature of the collection afterwards are as the game builds them. -/
theorem checkLaserCollision_built (self : ECE_Centipede K) (laserBounds : FloatRect K)
    (centipedes : List (ECE_Centipede K)) (score : Int)
    (hself : self.Built) (hinv : ∀ c ∈ centipedes, c.Built) :
    (self.checkLaserCollision laserBounds centipedes score).2.1.Built ∧
    ∀ c ∈ (self.checkLaserCollision laserBounds centipedes score).2.2.1, c.Built := by
  unfold checkLaserCollision
  cases hfirst : firstOverlap laserBounds self.segments with
  | none => exact ⟨hself, hinv⟩
  | some i =>
    dsimp only
    have h1 : (splitOff self (self.segments.take i) self.direction).Built :=
      splitOff_built self _ _ (fun seg hseg => hself.2 seg (List.mem_of_mem_take hseg))
    have h2 : (splitOff self (self.segments.drop (i + 1)) self.direction.neg).Built :=
      splitOff_built self _ _ (fun seg hseg => hself.2 seg (List.mem_of_mem_drop hseg))
    have happ : ∀ (l : List (ECE_Centipede K)) (x : ECE_Centipede K) (b : Bool),
        (∀ c ∈ l, c.Built) → x.Built → ∀ c ∈ (if b = true then l ++ [x] else l), c.Built := by
      intro l x b hl hx c hc
      split_ifs at hc
      · rcases List.mem_append.1 hc with hc | hc
        · exact hl c hc
        · rw [List.mem_singleton.1 hc]
          exact hx
      · exact hl c hc
    by_cases h0 : i = 0
    · rw [if_pos h0]
      exact ⟨⟨hself.1, fun seg hseg => hself.2 seg (List.mem_of_mem_eraseIdx hseg)⟩, hinv⟩
    · rw [if_neg h0]
      by_cases hl : i = self.segments.length - 1
      · rw [if_pos hl]
        exact ⟨⟨hself.1, fun seg hseg => hself.2 seg (List.mem_of_mem_dropLast hseg)⟩, hinv⟩
      · rw [if_neg hl]
        exact ⟨hself, happ _ _ _ (happ _ _ _ hinv h1) h2⟩

theorem laserVsCentipedes_built (laserBounds : FloatRect K) :
    ∀ (centipedes : List (ECE_Centipede K)) (idx : Nat) (score : Int),
      (∀ c ∈ centipedes, c.Built) →
      ∀ c ∈ (laserVsCentipedes laserBounds centipedes idx score).1, c.Built := by
  intro centipedes idx score
  induction centipedes, idx, score using laserVsCentipedes.induct laserBounds with
  | case1 centipedes idx score h r hr =>
    intro hinv
    have hk := checkLaserCollision_built (centipedes.get ⟨idx, h⟩) laserBounds centipedes
      score (hinv _ (List.get_mem _ _ _)) hinv
    rw [laserVsCentipedes_unfold, dif_pos h, if_pos hr]
    dsimp only
    rw [eraseIdx_set_same]
    intro c hc
    exact hk.2 c (List.mem_of_mem_eraseIdx hc)
  | case2 centipedes idx score h r hr ih =>
    intro hinv
    have hk := checkLaserCollision_built (centipedes.get ⟨idx, h⟩) laserBounds centipedes
      score (hinv _ (List.get_mem _ _ _)) hinv
    rw [laserVsCentipedes_unfold, dif_pos h, if_neg hr]
    apply ih
    intro c hc
    rcases List.mem_or_eq_of_mem_set hc with hc | rfl
    · exact hk.2 c hc
    · exact hk.1
  | case3 centipedes idx score h =>
    intro hinv
    rw [laserVsCentipedes_unfold, dif_neg h]
    exact hinv

theorem lasersVsCentipedes_built :
    ∀ (lasers : List (ECE_LaserBlast K)) (centipedes : List (ECE_Centipede K)) (score : Int),
      (∀ c ∈ centipedes, c.Built) →
      ∀ c ∈ (lasersVsCentipedes lasers centipedes score).2.1, c.Built
  | [], _, _, hinv => hinv
  | l :: ls, centipedes, score, hinv => by
    simp only [lasersVsCentipedes]
    exact lasersVsCentipedes_built ls _ _
      (laserVsCentipedes_built l.getGlobalBounds centipedes 0 score hinv)

theorem eraseFirstHit_mem (bounds : FloatRect K) :
    ∀ (mushrooms : List (Mushroom K)) (m : Mushroom K),
      m ∈ (Spider.eraseFirstHit bounds mushrooms).2 → m ∈ mushrooms
  | [], m, h => by simp [Spider.eraseFirstHit] at h
  | a :: ms, m, h => by
    unfold Spider.eraseFirstHit at h
    split_ifs at h
    · exact List.mem_cons_of_mem _ h
    · rcases List.mem_cons.1 h with rfl | h
      · exact List.mem_cons_self _ _
      · exact List.mem_cons_of_mem _ (eraseFirstHit_mem bounds ms m h)

theorem laserVsMushrooms_rows (mushroomSmallTexture : Texture) (laserBounds : FloatRect K) :
    ∀ (mushrooms : List (Mushroom K)) (score : Int), (∀ m ∈ mushrooms, m.InRows) →
      ∀ m ∈ (laserVsMushrooms mushroomSmallTexture laserBounds mushrooms score).1, m.InRows
  | [], _, _ => fun m hm => by simp [laserVsMushrooms] at hm
  | a :: ms, score, hrows => by
    intro m hm
    unfold laserVsMushrooms at hm
    split_ifs at hm
    · rcases List.mem_cons.1 hm with rfl | hm
      · exact hrows a (List.mem_cons_self _ _)
      · exact hrows m (List.mem_cons_of_mem _ hm)
    · exact hrows m (List.mem_cons_of_mem _ hm)
    · rcases List.mem_cons.1 hm with rfl | hm
      · exact hrows m (List.mem_cons_self _ _)
      · exact laserVsMushrooms_rows mushroomSmallTexture laserBounds ms score
          (fun x hx => hrows x (List.mem_cons_of_mem _ hx)) m hm

theorem lasersVsMushrooms_rows (mushroomSmallTexture : Texture) :
    ∀ (lasers : List (ECE_LaserBlast K)) (mushrooms : List (Mushroom K)) (score : Int),
      (∀ m ∈ mushrooms, m.InRows) →
      ∀ m ∈ (lasersVsMushrooms mushroomSmallTexture lasers mushrooms score).2.1, m.InRows
  | [], _, _, hrows => hrows
  | l :: ls, mushrooms, score, hrows => by
    simp only [lasersVsMushrooms]
    exact lasersVsMushrooms_rows mushroomSmallTexture ls _ _
      (laserVsMushrooms_rows mushroomSmallTexture l.getGlobalBounds mushrooms score hrows)

theorem phaseUpdateCentipedes_playField (sqrt : K → K) (inp : Input K) (g g1 : Game K)
    (hf : PlayField g) (h : phaseUpdateCentipedes sqrt inp g = .ok g1) : PlayField g1 := by
  obtain ⟨ea, hu⟩ := phaseUpdateCentipedes_eq sqrt inp g g1 h
  have hm : g1.mushrooms = g.mushrooms := by rw [ea]
  exact ⟨updateCentipedes_built sqrt inp.deltaTime g.centipedes g1.centipedes hf.1 hu,
    by rw [hm]; exact hf.2⟩

theorem phaseWinCheck_playField (g : Game K) (hf : PlayField g) : PlayField (phaseWinCheck g) := by
  unfold phaseWinCheck
  split_ifs
  · exact hf
  · exact hf

theorem phaseCentipedesVsMushrooms_playField (g g1 : Game K) (hf : PlayField g)
    (h : phaseCentipedesVsMushrooms g = .ok g1) : PlayField g1 := by
  unfold phaseCentipedesVsMushrooms at h
  cases hc : centipedesVsMushrooms g.mushrooms g.centipedes with
  | error e => rw [hc] at h; simp at h
  | ok cs =>
    rw [hc] at h
    simp only [Except.ok.injEq] at h
    rw [← h]
    exact ⟨centipedesVsMushrooms_built g.mushrooms g.centipedes cs hf.1 hc, hf.2⟩

theorem phaseRespawnSpider_playField (inp : Input K) (g : Game K) (hf : PlayField g) :
    PlayField (phaseRespawnSpider inp g) := by
  unfold phaseRespawnSpider
  split_ifs
  · exact hf
  · exact hf

theorem phaseUpdateSpider_playField (inp : Input K) (g : Game K) (hf : PlayField g) :
    PlayField (phaseUpdateSpider inp g) := by
  refine ⟨hf.1, ?_⟩
  intro m hm
  have hm2 : m ∈ ((g.spider.update inp.deltaTime).checkMushroomCollision g.mushrooms).2 := hm
  unfold Spider.checkMushroomCollision at hm2
  split_ifs at hm2
  · exact hf.2 m (eraseFirstHit_mem _ g.mushrooms m hm2)
  · exact hf.2 m hm2

theorem phaseShoot_playField (assets : Assets) (inp : Input K) (p : Vector2 K) (g : Game K)
    (hf : PlayField g) : PlayField (phaseShoot assets inp p g) := by
  unfold phaseShoot
  split_ifs
  · exact hf
  · exact hf

theorem phaseLasersVsMushrooms_playField (assets : Assets) (g : Game K) (hf : PlayField g) :
    PlayField (phaseLasersVsMushrooms assets g) :=
  ⟨hf.1, lasersVsMushrooms_rows assets.mushroomSmallTexture g.lasers g.mushrooms g.score hf.2⟩

theorem phaseLasersVsCentipedes_playField (g : Game K) (hf : PlayField g) :
    PlayField (phaseLasersVsCentipedes g) :=
  ⟨lasersVsCentipedes_built g.lasers g.centipedes g.score hf.1, hf.2⟩

theorem tickMiddle_playField (assets : Assets) (inp : Input K) (g g1 : Game K)
    (hf : PlayField g) (h : tickMiddle assets inp g = .ok g1) : PlayField g1 := by
  obtain ⟨g3, h3, rfl⟩ := tickMiddle_eq assets inp g g1 h
  have hf3 := phaseCentipedesVsMushrooms_playField _ g3 (phaseWinCheck_playField g hf) h3
  have hf4 := phaseUpdateSpider_playField inp _ (phaseRespawnSpider_playField inp g3 hf3)
  have hf5 : PlayField (phaseMoveShip assets inp
      (phaseUpdateSpider inp (phaseRespawnSpider inp g3))) := hf4
  have hf6 := phaseShoot_playField assets inp
    (phaseUpdateSpider inp (phaseRespawnSpider inp g3)).spaceship.getPosition _ hf5
  have hf7 : PlayField (phaseUpdateLasers inp (phaseShoot assets inp
      (phaseUpdateSpider inp (phaseRespawnSpider inp g3)).spaceship.getPosition
      (phaseMoveShip assets inp (phaseUpdateSpider inp (phaseRespawnSpider inp g3))))) := hf6
  exact phaseLasersVsCentipedes_playField _ (phaseLasersVsMushrooms_playField assets _ hf7)

theorem tickShip_playField (g g1 : Game K) (hf : PlayField g) (h : tickShip g = .ok g1) :
    PlayField g1 := by
  unfold tickShip phaseCentipedesVsShip at h
  cases hc : centipedesVsShip g.centipedes g with
  | error e => rw [hc] at h; simp at h
  | ok g2 =>
    rw [hc] at h
    dsimp only at h
    have hf2 : PlayField g2 := by
      rcases centipedesVsShip_cases _ g g2 hc with rfl | rfl
      · exact hf
      · exact hf
    rcases phaseSpiderVsShip_cases g2 g1 h with rfl | ⟨-, rfl⟩
    · exact hf2
    · exact hf2

theorem tick_playField (assets : Assets) (sqrt : K → K) (g g1 : Game K) (inp : Input K)
    (hf : PlayField g) (h : tick assets sqrt g inp = .ok g1) : PlayField g1 := by
  unfold tick at h
  split_ifs at h
  · cases ha : phaseUpdateCentipedes sqrt inp g with
    | error e => rw [ha] at h; simp at h
    | ok ga =>
      rw [ha] at h
      dsimp only at h
      cases hb : tickMiddle assets inp ga with
      | error e => rw [hb] at h; simp at h
      | ok gb =>
        rw [hb] at h
        dsimp only at h
        exact tickShip_playField gb g1
          (tickMiddle_playField assets inp ga gb
            (phaseUpdateCentipedes_playField sqrt inp g ga hf ha) hb) h
  · simp only [Except.ok.injEq] at h
    rw [← h]
    exact hf

theorem run_playField (assets : Assets) (sqrt : K → K) :
    ∀ (inps : List (Input K)) (g g1 : Game K), PlayField g →
      run assets sqrt g inps = .ok g1 → PlayField g1
  | [], g, g1, hf, h => by
    simp only [run, Except.ok.injEq] at h
    rw [← h]
    exact hf
  | inp :: inps, g, g1, hf, h => by
    unfold run at h
    cases ht : tick assets sqrt g inp with
    | error e => rw [ht] at h; simp at h
    | ok g2 =>
      rw [ht] at h
      dsimp only at h
      exact run_playField assets sqrt inps g2 g1 (tick_playField assets sqrt g g2 inp hf ht) h

theorem create_inRows (texture : Texture) (x y : K) (small : Bool)
    (hh : texture.height ≤ 73) (h1 : (TOP_BUFFER : K) ≤ y)
    (h2 : y ≤ ((SCREEN_HEIGHT - BOTTOM_BUFFER : Nat) : K)) :
    (Mushroom.create texture x y small : Mushroom K).InRows := by
  refine ⟨h1, h2, ?_, ?_⟩
  · show (0 : K) ≤ (texture.height : K)
    exact Nat.cast_nonneg _
  · show (texture.height : K) ≤ 73
    have : ((texture.height : Nat) : K) ≤ ((73 : Nat) : K) := Nat.cast_le.2 hh
    simpa using this

/-- The state in which `main` enters the main loop, with textures of the sizes above and the
mushrooms in the rows from `TOP_BUFFER` to `SCREEN_HEIGHT - BOTTOM_BUFFER` that `main` draws
their positions from. -/
theorem initialGame_playField (assets : Assets) (mushroomPositions : List (Vector2 K))
    (spiderPosition spiderDirection : Vector2 K) (now : K)
    (hhead : assets.centipedeHeadTexture.height = 27)
    (hbody : assets.centipedeBodyTexture.height = 27)
    (hmush : assets.mushroomTexture.height ≤ 73)
    (hpos : ∀ p ∈ mushroomPositions,
      (TOP_BUFFER : K) ≤ p.y ∧ p.y ≤ ((SCREEN_HEIGHT - BOTTOM_BUFFER : Nat) : K)) :
    PlayField (initialGame assets mushroomPositions spiderPosition spiderDirection now) := by
  constructor
  · intro c hc
    simp only [initialGame, List.mem_singleton] at hc
    rw [hc]
    exact create_built _ _ 12 ⟨0, 0⟩ hhead hbody
  · intro m hm
    simp only [initialGame, List.mem_map] at hm
    obtain ⟨p, hp, rfl⟩ := hm
    exact create_inRows _ p.x p.y false hmush (hpos p hp).1 (hpos p hp).2

/-- Every state that the game reaches from its initial state has creatures and mushrooms as
`main` builds and places them, and so has the state on which the creature-mushroom phase of the
next tick runs: these are the states in which `update` and `checkMushroomCollision` are
called. None of these runs faults. -/
theorem playField_of_reachable (assets : Assets) (sqrt : K → K)
    (mushroomPositions : List (Vector2 K)) (spiderPosition spiderDirection : Vector2 K)
    (now : K) (inps : List (Input K))
    (hhead : assets.centipedeHeadTexture.height = 27)
    (hbody : assets.centipedeBodyTexture.height = 27)
    (hmush : assets.mushroomTexture.height ≤ 73)
    (hpos : ∀ p ∈ mushroomPositions,
      (TOP_BUFFER : K) ≤ p.y ∧ p.y ≤ ((SCREEN_HEIGHT - BOTTOM_BUFFER : Nat) : K)) :
    ∃ g, run assets sqrt
        (initialGame assets mushroomPositions spiderPosition spiderDirection now) inps = .ok g ∧
      PlayField g ∧ NonEmptyCreatures g.centipedes ∧
      ∀ (inp : Input K), ∃ ga, phaseUpdateCentipedes sqrt inp g = .ok ga ∧
        PlayField (phaseWinCheck ga) ∧ NonEmptyCreatures (phaseWinCheck ga).centipedes := by
  obtain ⟨hinv0, hne0⟩ :=
    initialGame_invariants assets mushroomPositions spiderPosition spiderDirection now
  obtain ⟨g, hrun, -, hne⟩ := run_lives assets sqrt inps _ hinv0 hne0
  have hf := run_playField assets sqrt inps _ g
    (initialGame_playField assets mushroomPositions spiderPosition spiderDirection now hhead
      hbody hmush hpos) hrun
  refine ⟨g, hrun, hf, hne, fun inp => ?_⟩
  obtain ⟨ga, ha, hnea, -, -⟩ := phaseUpdateCentipedes_nonempty sqrt inp g hne
  exact ⟨ga, ha, phaseWinCheck_playField ga (phaseUpdateCentipedes_playField sqrt inp g ga hf ha),
    by rw [phaseWinCheck_centipedes]; exact hnea⟩

end Proofs

end CentipedeMotion
